import Mathlib

/-!
# The multi-agent OpenGym bridge of ns3-gym-multiagent

A shallow embedding of `src/model/opengym_multi_interface.{h,cc}` and
`src/model/opengym_multi_env.{h,cc}`, and of the two packet headers of
`src/examples/sdwsn-marl/gym/wsn-packet.{h,cc}`.

* The object `OpenGymMultiInterface` is a record of its data members; a member
  function is a function from the record to an `Outcome`: the record afterwards,
  the state of the simulation-specific code behind the callbacks, the events the
  call produced in order, and whether the call ended in `std::exit`.
* A callback `Callback<R, uint32_t>` may be null, so it is an `Option`; a bound
  callback is arbitrary simulation code, so it reads and writes a state `ε`.
* The peer is an input: every call is given the replies the peer would send to
  the messages of that call (`PeerReplies`). A peer that never answers blocks the
  caller for ever; that is outside this model.
* Of the log output, the lines `Init` writes with `NS_LOG_UNCOND` are events.
  The lines of `NS_LOG_FUNCTION` and `NS_LOG_DEBUG`, and the address of the
  object that three setters write with `NS_LOG_UNCOND (this)`, are not.
* `uint32_t` ids and ports are `Nat`: the bridge stores and forwards them and does
  no arithmetic on them. A `float` is carried as its bit pattern.
* The fields of a packet header are `Nat` with the reduction to 8 or 32 bits
  written out where a value is stored or written; a buffer is a list of bytes.
  A call that may end the process (a failed `NS_ASSERT`, a read beyond the
  buffer) returns an `Except`.
-/

namespace ns3

/-! ## Payloads and wire messages (`messages.pb.h`, `spaces.h`, `container.h`) -/

/-- A `ns3opengym::SpaceDescription`: an opaque serialised schema. -/
structure SpaceDescription where
  bytes : List Nat
  deriving DecidableEq, Repr

/-- A `ns3opengym::DataContainer`: an opaque serialised value. -/
structure DataContainer where
  bytes : List Nat
  deriving DecidableEq, Repr

/-- An `OpenGymSpace` object, of which the bridge only calls `GetSpaceDescription`. -/
structure OpenGymSpace where
  GetSpaceDescription : SpaceDescription
  deriving DecidableEq, Repr

/-- An `OpenGymDataContainer` object, of which the bridge only calls
`GetDataContainerPbMsg`. -/
structure OpenGymDataContainer where
  GetDataContainerPbMsg : DataContainer
  deriving DecidableEq, Repr

/-- A `float`, carried as its IEEE-754 bit pattern; `0.0` is the pattern `0`. -/
structure F32 where
  bits : Nat
  deriving DecidableEq, Repr

/-- The record `ns3opengym::AgentInitMsg`. -/
structure AgentInitMsg where
  agentid : Nat
  obsspace : Option SpaceDescription
  actspace : Option SpaceDescription
  deriving DecidableEq, Repr

/-- The message `ns3opengym::MultiAgentInitMsg`. -/
structure MultiAgentInitMsg where
  simprocessid : Nat
  wafshellprocessid : Nat
  agentinitmsg : List AgentInitMsg
  deriving DecidableEq, Repr

/-- The message `ns3opengym::SimInitAck`. -/
structure SimInitAck where
  done : Bool
  stopsimreq : Bool
  deriving DecidableEq, Repr

/-- The record `ns3opengym::AgentStateMsg`. -/
structure AgentStateMsg where
  agentid : Nat
  obsdata : Option DataContainer
  reward : F32
  done : Bool
  info : String
  deriving DecidableEq, Repr

/-- The message `ns3opengym::MultiAgentStateMsg`. -/
structure MultiAgentStateMsg where
  agentstatemsg : List AgentStateMsg
  deriving DecidableEq, Repr

/-- The record `ns3opengym::AgentActMsg`. -/
structure AgentActMsg where
  agentid : Nat
  actdata : DataContainer
  deriving DecidableEq, Repr

/-- The message `ns3opengym::MultiAgentActMsg`. -/
structure MultiAgentActMsg where
  stopsimreq : Bool
  agentactmsg : List AgentActMsg
  deriving DecidableEq, Repr

/-- What `ParseFromArray` leaves behind: the value it returns (which the bridge
never looks at) and the message object as it stands after the call. -/
structure Parsed (α : Type) where
  ok : Bool
  msg : α
  deriving DecidableEq, Repr

/-- The replies of the peer to the messages of one call: `ack` answers a
`MultiAgentInitMsg`, `reply` answers a `MultiAgentStateMsg`. -/
structure PeerReplies where
  ack : Parsed SimInitAck
  reply : Parsed MultiAgentActMsg
  deriving DecidableEq, Repr

/-- What the process and the libraries outside the sources provide: the two
process ids and `OpenGymDataContainer::CreateFromDataContainerPbMsg`, whose
result is a possibly null pointer. -/
structure Platform where
  getpid : Nat
  getppid : Nat
  CreateFromDataContainerPbMsg : DataContainer → Option OpenGymDataContainer

/-! ## Observable events -/

/-- The six query callbacks. -/
inductive CbKind where
  | actionSpace
  | observationSpace
  | observation
  | reward
  | done
  | info
  deriving DecidableEq, Repr

/-- What a call does to the world outside the object, in order. -/
inductive Event where
  /-- The call `zmq_connect (socket, addr)`. -/
  | connect (addr : String)
  /-- The call `m_zmq_socket.send` of a serialised `MultiAgentInitMsg`. -/
  | sendInit (m : MultiAgentInitMsg)
  /-- The call `m_zmq_socket.send` of a serialised `MultiAgentStateMsg`. -/
  | sendState (m : MultiAgentStateMsg)
  /-- The call `m_zmq_socket.recv`. -/
  | recv
  /-- A bound query callback is invoked with an agent id. -/
  | callback (k : CbKind) (agent_id : Nat)
  /-- The member function `ExecuteActions` is entered. -/
  | ExecuteActions (agent_id : Nat) (action : Option OpenGymDataContainer)
  /-- The bound callback `m_actionCb` is invoked. -/
  | actionCb (agent_id : Nat) (action : Option OpenGymDataContainer)
  /-- A line written by `NS_LOG_UNCOND` in `Init`. -/
  | logUncond (text : String)
  /-- The call `Simulator::Stop ()`. -/
  | SimulatorStop
  /-- The call `Simulator::Destroy ()`. -/
  | SimulatorDestroy
  /-- The call `std::exit (code)`. -/
  | exit (code : Nat)
  deriving DecidableEq, Repr

/-! ## The object -/

/-- The data members of `OpenGymMultiInterface` (the ZeroMQ context and socket
are seen through the events). -/
structure OpenGymMultiInterface (ε : Type) where
  m_port : Nat
  m_simEnd : Bool
  m_stopEnvRequested : Bool
  m_initSimMsgSent : Bool
  m_agentIdVec : List Nat
  m_actionSpaceCb : Option (Nat → ε → Option OpenGymSpace × ε)
  m_observationSpaceCb : Option (Nat → ε → Option OpenGymSpace × ε)
  m_obsCb : Option (Nat → ε → Option OpenGymDataContainer × ε)
  m_rewardCb : Option (Nat → ε → F32 × ε)
  m_doneCb : Option (Nat → ε → Bool × ε)
  m_infoCb : Option (Nat → ε → String × ε)
  m_actionCb : Option (Nat → Option OpenGymDataContainer → ε → Bool × ε)

/-- The seven pure virtual member functions of `OpenGymMultiEnv`, as the
simulation-specific subclass implements them. -/
structure EnvMethods (ε : Type) where
  GetActionSpace : Nat → ε → Option OpenGymSpace × ε
  GetObservationSpace : Nat → ε → Option OpenGymSpace × ε
  GetObservation : Nat → ε → Option OpenGymDataContainer × ε
  GetReward : Nat → ε → F32 × ε
  GetDone : Nat → ε → Bool × ε
  GetInfo : Nat → ε → String × ε
  ExecuteActions : Nat → Option OpenGymDataContainer → ε → Bool × ε

/-- The result of a member function that returns a value. -/
structure Ret (α ε : Type) where
  val : α
  env : ε
  events : List Event

/-- The result of a `void` member function. `exited` says that the call ended in
`std::exit` and so never returned to its caller. -/
structure Outcome (ε : Type) where
  self : OpenGymMultiInterface ε
  env : ε
  events : List Event
  exited : Bool

namespace OpenGymMultiInterface

variable {ε : Type}

/-- The default value of the constructor argument `port`. -/
def defaultPort : Nat := 5555

/-- The constructor `OpenGymMultiInterface (uint32_t port = 5555)`. -/
def construct (port : Nat) : OpenGymMultiInterface ε where
  m_port := port
  m_simEnd := false
  m_stopEnvRequested := false
  m_initSimMsgSent := false
  m_agentIdVec := []
  m_actionSpaceCb := none
  m_observationSpaceCb := none
  m_obsCb := none
  m_rewardCb := none
  m_doneCb := none
  m_infoCb := none
  m_actionCb := none

/-- The setter `SetGetActionSpaceCb`. -/
def SetGetActionSpaceCb (s : OpenGymMultiInterface ε)
    (cb : Option (Nat → ε → Option OpenGymSpace × ε)) : OpenGymMultiInterface ε :=
  { s with m_actionSpaceCb := cb }

/-- The setter `SetGetObservationSpaceCb`. -/
def SetGetObservationSpaceCb (s : OpenGymMultiInterface ε)
    (cb : Option (Nat → ε → Option OpenGymSpace × ε)) : OpenGymMultiInterface ε :=
  { s with m_observationSpaceCb := cb }

/-- The setter `SetGetObservationCb`. -/
def SetGetObservationCb (s : OpenGymMultiInterface ε)
    (cb : Option (Nat → ε → Option OpenGymDataContainer × ε)) : OpenGymMultiInterface ε :=
  { s with m_obsCb := cb }

/-- The setter `SetGetRewardCb`: the assignment to `m_rewardCb`. The line the setter writes with
`NS_LOG_UNCOND (this)`, the address of the object, is not recorded as an event. -/
def SetGetRewardCb (s : OpenGymMultiInterface ε)
    (cb : Option (Nat → ε → F32 × ε)) : OpenGymMultiInterface ε :=
  { s with m_rewardCb := cb }

/-- The setter `SetGetDoneCb`: the assignment to `m_doneCb`. The line the setter writes with
`NS_LOG_UNCOND (this)`, the address of the object, is not recorded as an event. -/
def SetGetDoneCb (s : OpenGymMultiInterface ε)
    (cb : Option (Nat → ε → Bool × ε)) : OpenGymMultiInterface ε :=
  { s with m_doneCb := cb }

/-- The setter `SetGetInfoCb`: the assignment to `m_infoCb`. The line the setter writes with
`NS_LOG_UNCOND (this)`, the address of the object, is not recorded as an event. -/
def SetGetInfoCb (s : OpenGymMultiInterface ε)
    (cb : Option (Nat → ε → String × ε)) : OpenGymMultiInterface ε :=
  { s with m_infoCb := cb }

/-- The setter `SetExecuteActionsCb`. -/
def SetExecuteActionsCb (s : OpenGymMultiInterface ε)
    (cb : Option (Nat → Option OpenGymDataContainer → ε → Bool × ε)) :
    OpenGymMultiInterface ε :=
  { s with m_actionCb := cb }

/-- The member function `AddAgent`: `m_agentIdVec.push_back (agent_id)`. -/
def AddAgent (s : OpenGymMultiInterface ε) (agent_id : Nat) : OpenGymMultiInterface ε :=
  { s with m_agentIdVec := s.m_agentIdVec ++ [agent_id] }

/-- The member function `GetObservationSpace`. -/
def GetObservationSpace (s : OpenGymMultiInterface ε) (agent_id : Nat) (e : ε) :
    Ret (Option OpenGymSpace) ε :=
  match s.m_observationSpaceCb with
  | none => ⟨none, e, []⟩
  | some cb => ⟨(cb agent_id e).1, (cb agent_id e).2, [Event.callback .observationSpace agent_id]⟩

/-- The member function `GetActionSpace`. -/
def GetActionSpace (s : OpenGymMultiInterface ε) (agent_id : Nat) (e : ε) :
    Ret (Option OpenGymSpace) ε :=
  match s.m_actionSpaceCb with
  | none => ⟨none, e, []⟩
  | some cb => ⟨(cb agent_id e).1, (cb agent_id e).2, [Event.callback .actionSpace agent_id]⟩

/-- The member function `GetObservation`. -/
def GetObservation (s : OpenGymMultiInterface ε) (agent_id : Nat) (e : ε) :
    Ret (Option OpenGymDataContainer) ε :=
  match s.m_obsCb with
  | none => ⟨none, e, []⟩
  | some cb => ⟨(cb agent_id e).1, (cb agent_id e).2, [Event.callback .observation agent_id]⟩

/-- The member function `GetReward`. -/
def GetReward (s : OpenGymMultiInterface ε) (agent_id : Nat) (e : ε) : Ret F32 ε :=
  match s.m_rewardCb with
  | none => ⟨⟨0⟩, e, []⟩
  | some cb => ⟨(cb agent_id e).1, (cb agent_id e).2, [Event.callback .reward agent_id]⟩

/-- The member function `GetDone`. -/
def GetDone (s : OpenGymMultiInterface ε) (agent_id : Nat) (e : ε) : Ret Bool ε :=
  match s.m_doneCb with
  | none => ⟨false, e, []⟩
  | some cb => ⟨(cb agent_id e).1, (cb agent_id e).2, [Event.callback .done agent_id]⟩

/-- The member function `GetInfo`. -/
def GetInfo (s : OpenGymMultiInterface ε) (agent_id : Nat) (e : ε) : Ret String ε :=
  match s.m_infoCb with
  | none => ⟨"", e, []⟩
  | some cb => ⟨(cb agent_id e).1, (cb agent_id e).2, [Event.callback .info agent_id]⟩

/-- The member function `ExecuteActions`. -/
def ExecuteActions (s : OpenGymMultiInterface ε) (agent_id : Nat)
    (action : Option OpenGymDataContainer) (e : ε) : Ret Bool ε :=
  match s.m_actionCb with
  | none => ⟨false, e, [Event.ExecuteActions agent_id action]⟩
  | some cb =>
    ⟨(cb agent_id action e).1, (cb agent_id action e).2,
      [Event.ExecuteActions agent_id action, Event.actionCb agent_id action]⟩

/-- The loop of `Init` over `m_agentIdVec` (lines 193-216): one `AgentInitMsg`
per entry. -/
def initAgents (s : OpenGymMultiInterface ε) : List Nat → ε → Ret (List AgentInitMsg) ε
  | [], e => ⟨[], e, []⟩
  | agent_id :: rest, e =>
    let obsSpace := s.GetObservationSpace agent_id e
    let actionSpace := s.GetActionSpace agent_id obsSpace.env
    let agentInitMsg : AgentInitMsg :=
      { agentid := agent_id
        obsspace := obsSpace.val.map OpenGymSpace.GetSpaceDescription
        actspace := actionSpace.val.map OpenGymSpace.GetSpaceDescription }
    let tail := initAgents s rest actionSpace.env
    ⟨agentInitMsg :: tail.val, tail.env, obsSpace.events ++ actionSpace.events ++ tail.events⟩

/-- The address `"tcp://localhost:" + std::to_string (m_port)`. -/
def connectAddr (s : OpenGymMultiInterface ε) : String :=
  "tcp://localhost:" ++ toString s.m_port

/-- The lines `Init` logs when the registry is empty (lines 175-179). -/
def emptyRegistryLog (s : OpenGymMultiInterface ε) : List Event :=
  [ Event.logUncond ("\n" ++ "".pushn '-' 25 ++ "ERROR" ++ "".pushn '-' 32),
    Event.logUncond "> ERROR! Please check if AddAgent() is called in ENV!",
    Event.logUncond ("Agent vector size: " ++ toString s.m_agentIdVec.length),
    Event.logUncond "You should first use ENV->AddAgent().",
    Event.logUncond "> ERROR ... [Please Key Ctrl+C]" ]

/-- The lines `Init` logs before it sends (lines 217-221). -/
def waitingLog (p : Platform) (s : OpenGymMultiInterface ε) : List Event :=
  [ Event.logUncond ("\n" ++ "".pushn '=' 77),
    Event.logUncond ("\nSimulation process id: " ++ toString p.getpid
      ++ " (parent (waf shell) id: " ++ toString p.getppid ++ ")"),
    Event.logUncond ("Waiting for Python process to connect on port: " ++ s.connectAddr),
    Event.logUncond "Please start proper Python AI Agent ...\n" ]

/-- The member function `Init`. -/
def Init (p : Platform) (peer : PeerReplies) (s : OpenGymMultiInterface ε) (e : ε) :
    Outcome ε :=
  if s.m_initSimMsgSent then
    ⟨s, e, [], false⟩
  else if s.m_agentIdVec.length = 0 then
    ⟨s, e, s.emptyRegistryLog, false⟩
  else
    let s1 : OpenGymMultiInterface ε := { s with m_initSimMsgSent := true }
    let agents := s1.initAgents s1.m_agentIdVec e
    let multiAgentInitMsg : MultiAgentInitMsg :=
      { simprocessid := p.getpid
        wafshellprocessid := p.getppid
        agentinitmsg := agents.val }
    let events : List Event :=
      [Event.connect s1.connectAddr,
        Event.logUncond ("\nAgent vector size: " ++ toString s1.m_agentIdVec.length)]
      ++ agents.events ++ waitingLog p s1
      ++ [Event.sendInit multiAgentInitMsg, Event.recv]
    if peer.ack.msg.stopsimreq then
      ⟨{ s1 with m_stopEnvRequested := true }, agents.env,
        events ++ [Event.SimulatorStop, Event.SimulatorDestroy, Event.exit 0], true⟩
    else
      ⟨s1, agents.env, events, false⟩

/-- The first loop of `NotifyCurrentState` over `m_agentIdVec` (lines 268-298):
one `AgentStateMsg` per entry. -/
def collectStates (s : OpenGymMultiInterface ε) : List Nat → ε → Ret (List AgentStateMsg) ε
  | [], e => ⟨[], e, []⟩
  | agent_id :: rest, e =>
    let obsDataContainer := s.GetObservation agent_id e
    let reward := s.GetReward agent_id obsDataContainer.env
    let done := s.GetDone agent_id reward.env
    let info := s.GetInfo agent_id done.env
    let agentStateMsg : AgentStateMsg :=
      { agentid := agent_id
        obsdata := obsDataContainer.val.map OpenGymDataContainer.GetDataContainerPbMsg
        reward := reward.val
        done := if done.val then true else false
        info := info.val }
    let tail := collectStates s rest info.env
    ⟨agentStateMsg :: tail.val, tail.env,
      obsDataContainer.events ++ reward.events ++ done.events ++ info.events ++ tail.events⟩

/-- The second loop of `NotifyCurrentState`, over the records of the reply
(lines 330-340). The value `ExecuteActions` returns is dropped. -/
def executeLoop (p : Platform) (s : OpenGymMultiInterface ε) :
    List AgentActMsg → ε → Ret Unit ε
  | [], e => ⟨(), e, []⟩
  | agentActMsg :: rest, e =>
    let actDataContainer := p.CreateFromDataContainerPbMsg agentActMsg.actdata
    let r := s.ExecuteActions agentActMsg.agentid actDataContainer e
    let tail := executeLoop p s rest r.env
    ⟨(), tail.env, r.events ++ tail.events⟩

/-- The first statement of `NotifyCurrentState` (lines 255-258):
`if (!m_initSimMsgSent) Init ();`. -/
def initPhase (p : Platform) (peer : PeerReplies) (s : OpenGymMultiInterface ε) (e : ε) :
    Outcome ε :=
  if s.m_initSimMsgSent then ⟨s, e, [], false⟩ else Init p peer s e

/-- The member function `NotifyCurrentState`. When `Init` ended in `std::exit`
nothing after it runs. -/
def NotifyCurrentState (p : Platform) (peer : PeerReplies) (s : OpenGymMultiInterface ε)
    (e : ε) : Outcome ε :=
  let i : Outcome ε := initPhase p peer s e
  if i.exited then
    i
  else if i.self.m_stopEnvRequested then
    i
  else
    let states := i.self.collectStates i.self.m_agentIdVec i.env
    let multiAgentStateMsg : MultiAgentStateMsg := { agentstatemsg := states.val }
    let events : List Event :=
      i.events ++ states.events ++ [Event.sendState multiAgentStateMsg, Event.recv]
    if i.self.m_simEnd then
      ⟨i.self, states.env, events, false⟩
    else if peer.reply.msg.stopsimreq then
      ⟨{ i.self with m_stopEnvRequested := true }, states.env,
        events ++ [Event.SimulatorStop, Event.SimulatorDestroy, Event.exit 0], true⟩
    else
      let acts := executeLoop p i.self peer.reply.msg.agentactmsg states.env
      ⟨i.self, acts.env, events ++ acts.events, false⟩

/-- The member function `WaitForStop`. -/
def WaitForStop (p : Platform) (peer : PeerReplies) (s : OpenGymMultiInterface ε) (e : ε) :
    Outcome ε :=
  NotifyCurrentState p peer s e

/-- The member function `NotifySimulationEnd`. -/
def NotifySimulationEnd (p : Platform) (peer : PeerReplies) (s : OpenGymMultiInterface ε)
    (e : ε) : Outcome ε :=
  let s1 : OpenGymMultiInterface ε := { s with m_simEnd := true }
  if s1.m_initSimMsgSent then WaitForStop p peer s1 e else ⟨s1, e, [], false⟩

/-- The member function `Notify`: bind five callbacks to `entity`, then
`NotifyCurrentState`. Its events are those of `NotifyCurrentState`: the three
lines with the address of the object that the setters write are left out. -/
def Notify (p : Platform) (peer : PeerReplies) (s : OpenGymMultiInterface ε)
    (entity : EnvMethods ε) (e : ε) : Outcome ε :=
  let s1 := s.SetGetObservationCb (some entity.GetObservation)
  let s2 := s1.SetGetRewardCb (some entity.GetReward)
  let s3 := s2.SetGetDoneCb (some entity.GetDone)
  let s4 := s3.SetGetInfoCb (some entity.GetInfo)
  let s5 := s4.SetExecuteActionsCb (some entity.ExecuteActions)
  NotifyCurrentState p peer s5 e

end OpenGymMultiInterface

/-! ## The environment object -/

/-- The class `OpenGymMultiEnv`: the virtual member functions of the subclass and
the two data members. -/
structure OpenGymMultiEnv (ε : Type) extends EnvMethods ε where
  m_openGymMultiInterface : Option (OpenGymMultiInterface ε)
  m_openGymPort : Nat

/-- The result of a `void` member function of `OpenGymMultiEnv`. -/
structure EnvOutcome (ε : Type) where
  self : OpenGymMultiEnv ε
  env : ε
  events : List Event
  exited : Bool

namespace OpenGymMultiEnv

variable {ε : Type}

/-- The member function `SetOpenGymMultiInterface`. -/
def SetOpenGymMultiInterface (env : OpenGymMultiEnv ε)
    (multiInterface : OpenGymMultiInterface ε) : OpenGymMultiEnv ε :=
  let i1 := multiInterface.SetGetActionSpaceCb (some env.GetActionSpace)
  let i2 := i1.SetGetObservationSpaceCb (some env.GetObservationSpace)
  let i3 := i2.SetGetObservationCb (some env.GetObservation)
  let i4 := i3.SetGetRewardCb (some env.GetReward)
  let i5 := i4.SetGetDoneCb (some env.GetDone)
  let i6 := i5.SetGetInfoCb (some env.GetInfo)
  let i7 := i6.SetExecuteActionsCb (some env.ExecuteActions)
  { env with m_openGymMultiInterface := some i7 }

/-- The constructor `OpenGymMultiEnv ()`: `m_openGymPort` has its default member
initialiser `5555` when the interface is created. -/
def construct (methods : EnvMethods ε) : OpenGymMultiEnv ε :=
  let env : OpenGymMultiEnv ε :=
    { toEnvMethods := methods, m_openGymMultiInterface := none, m_openGymPort := 5555 }
  env.SetOpenGymMultiInterface (OpenGymMultiInterface.construct env.m_openGymPort)

/-- The member function `AddAgentId`. The pointer `m_openGymMultiInterface` is
dereferenced unchecked; it is set by the constructor. -/
def AddAgentId (env : OpenGymMultiEnv ε) (agent_id : Nat) : OpenGymMultiEnv ε :=
  { env with m_openGymMultiInterface :=
      env.m_openGymMultiInterface.map (fun i => i.AddAgent agent_id) }

/-- The member function `Step`. -/
def Step (p : Platform) (peer : PeerReplies) (env : OpenGymMultiEnv ε) (e : ε) :
    EnvOutcome ε :=
  match env.m_openGymMultiInterface with
  | none => ⟨env, e, [], false⟩
  | some i =>
    let r := i.Notify p peer env.toEnvMethods e
    ⟨{ env with m_openGymMultiInterface := some r.self }, r.env, r.events, r.exited⟩

/-- The member function `NotifySimulationEnd`. -/
def NotifySimulationEnd (p : Platform) (peer : PeerReplies) (env : OpenGymMultiEnv ε)
    (e : ε) : EnvOutcome ε :=
  match env.m_openGymMultiInterface with
  | none => ⟨env, e, [], false⟩
  | some i =>
    let r := i.NotifySimulationEnd p peer e
    ⟨{ env with m_openGymMultiInterface := some r.self }, r.env, r.events, r.exited⟩

end OpenGymMultiEnv

/-! ## Sequences of calls on one session -/

/-- A call of a public member function of `OpenGymMultiInterface`, with its
arguments and the replies of the peer during the call. -/
inductive Op (ε : Type) where
  | Init (peer : PeerReplies)
  | Notify (entity : EnvMethods ε) (peer : PeerReplies)
  | NotifyCurrentState (peer : PeerReplies)
  | WaitForStop (peer : PeerReplies)
  | NotifySimulationEnd (peer : PeerReplies)
  | AddAgent (agent_id : Nat)
  | GetActionSpace (agent_id : Nat)
  | GetObservationSpace (agent_id : Nat)
  | GetObservation (agent_id : Nat)
  | GetReward (agent_id : Nat)
  | GetDone (agent_id : Nat)
  | GetInfo (agent_id : Nat)
  | ExecuteActions (agent_id : Nat) (action : Option OpenGymDataContainer)
  | SetGetActionSpaceCb (cb : Option (Nat → ε → Option OpenGymSpace × ε))
  | SetGetObservationSpaceCb (cb : Option (Nat → ε → Option OpenGymSpace × ε))
  | SetGetObservationCb (cb : Option (Nat → ε → Option OpenGymDataContainer × ε))
  | SetGetRewardCb (cb : Option (Nat → ε → F32 × ε))
  | SetGetDoneCb (cb : Option (Nat → ε → Bool × ε))
  | SetGetInfoCb (cb : Option (Nat → ε → String × ε))
  | SetExecuteActionsCb (cb : Option (Nat → Option OpenGymDataContainer → ε → Bool × ε))

variable {ε : Type}

/-- A member function that returns a value, seen as a call: the value is dropped. -/
def Ret.toOutcome {α : Type} (s : OpenGymMultiInterface ε) (r : Ret α ε) : Outcome ε :=
  ⟨s, r.env, r.events, false⟩

/-- One call on the session. -/
def Op.apply (p : Platform) (op : Op ε) (s : OpenGymMultiInterface ε) (e : ε) : Outcome ε :=
  match op with
  | .Init peer => s.Init p peer e
  | .Notify entity peer => s.Notify p peer entity e
  | .NotifyCurrentState peer => s.NotifyCurrentState p peer e
  | .WaitForStop peer => s.WaitForStop p peer e
  | .NotifySimulationEnd peer => s.NotifySimulationEnd p peer e
  | .AddAgent agent_id => ⟨s.AddAgent agent_id, e, [], false⟩
  | .GetActionSpace agent_id => (s.GetActionSpace agent_id e).toOutcome s
  | .GetObservationSpace agent_id => (s.GetObservationSpace agent_id e).toOutcome s
  | .GetObservation agent_id => (s.GetObservation agent_id e).toOutcome s
  | .GetReward agent_id => (s.GetReward agent_id e).toOutcome s
  | .GetDone agent_id => (s.GetDone agent_id e).toOutcome s
  | .GetInfo agent_id => (s.GetInfo agent_id e).toOutcome s
  | .ExecuteActions agent_id action => (s.ExecuteActions agent_id action e).toOutcome s
  | .SetGetActionSpaceCb cb => ⟨s.SetGetActionSpaceCb cb, e, [], false⟩
  | .SetGetObservationSpaceCb cb => ⟨s.SetGetObservationSpaceCb cb, e, [], false⟩
  | .SetGetObservationCb cb => ⟨s.SetGetObservationCb cb, e, [], false⟩
  | .SetGetRewardCb cb => ⟨s.SetGetRewardCb cb, e, [], false⟩
  | .SetGetDoneCb cb => ⟨s.SetGetDoneCb cb, e, [], false⟩
  | .SetGetInfoCb cb => ⟨s.SetGetInfoCb cb, e, [], false⟩
  | .SetExecuteActionsCb cb => ⟨s.SetExecuteActionsCb cb, e, [], false⟩

/-- A sequence of calls, one after the other. A call that ends in `std::exit`
ends the process: the calls after it are not made. -/
def run (p : Platform) : List (Op ε) → OpenGymMultiInterface ε → ε → Outcome ε
  | [], s, e => ⟨s, e, [], false⟩
  | op :: rest, s, e =>
    let r := op.apply p s e
    if r.exited then r
    else
      let t := run p rest r.self r.env
      ⟨t.self, t.env, r.events ++ t.events, t.exited⟩

/-! ## Views of an event list -/

/-- The `MultiAgentInitMsg` messages sent, in order. -/
def sentInits (evs : List Event) : List MultiAgentInitMsg :=
  evs.filterMap fun
    | .sendInit m => some m
    | _ => none

/-- The `MultiAgentStateMsg` messages sent, in order. -/
def sentStates (evs : List Event) : List MultiAgentStateMsg :=
  evs.filterMap fun
    | .sendState m => some m
    | _ => none

/-- The socket operations (send and receive), in order. -/
def transport (evs : List Event) : List Event :=
  evs.filter fun
    | .sendInit _ => true
    | .sendState _ => true
    | .recv => true
    | _ => false

/-- The query callbacks invoked, in order. -/
def queries (evs : List Event) : List (CbKind × Nat) :=
  evs.filterMap fun
    | .callback k agent_id => some (k, agent_id)
    | _ => none

/-- The invocations of the two space callbacks, in order. -/
def spaceQueries (evs : List Event) : List (CbKind × Nat) :=
  (queries evs).filter fun q => q.1 = CbKind.actionSpace ∨ q.1 = CbKind.observationSpace

/-- The invocations of the four state callbacks, in order. -/
def stateQueries (evs : List Event) : List (CbKind × Nat) :=
  (queries evs).filter fun q =>
    q.1 = CbKind.observation ∨ q.1 = CbKind.reward ∨ q.1 = CbKind.done ∨ q.1 = CbKind.info

/-- The calls of the member function `ExecuteActions`, in order. -/
def executed (evs : List Event) : List (Nat × Option OpenGymDataContainer) :=
  evs.filterMap fun
    | .ExecuteActions agent_id action => some (agent_id, action)
    | _ => none

/-- The invocations of the callback `m_actionCb`, in order. -/
def actionCbCalls (evs : List Event) : List (Nat × Option OpenGymDataContainer) :=
  evs.filterMap fun
    | .actionCb agent_id action => some (agent_id, action)
    | _ => none

/-- The addresses connected to, in order. -/
def connects (evs : List Event) : List String :=
  evs.filterMap fun
    | .connect addr => some addr
    | _ => none

/-- The agent ids of a state batch, in order. -/
def MultiAgentStateMsg.ids (m : MultiAgentStateMsg) : List Nat :=
  m.agentstatemsg.map AgentStateMsg.agentid

/-- The agent ids of an init message, in order. -/
def MultiAgentInitMsg.ids (m : MultiAgentInitMsg) : List Nat :=
  m.agentinitmsg.map AgentInitMsg.agentid

/-! ## Auxiliary definitions: event classes, call classes, sample sessions -/

/-- An invocation of a query callback. -/
def Event.isQuery : Event → Bool
  | .callback _ _ => true
  | _ => false

/-- An invocation of one of the two space callbacks. -/
def Event.isSpaceQuery : Event → Bool
  | .callback .actionSpace _ => true
  | .callback .observationSpace _ => true
  | _ => false

/-- An invocation of one of the four state callbacks. -/
def Event.isStateQuery : Event → Bool
  | .callback .observation _ => true
  | .callback .reward _ => true
  | .callback .done _ => true
  | .callback .info _ => true
  | _ => false

/-- A call of `ExecuteActions` or of the callback behind it. -/
def Event.isAction : Event → Bool
  | .ExecuteActions _ _ => true
  | .actionCb _ _ => true
  | _ => false

/-- A line of log output. -/
def Event.isLog : Event → Bool
  | .logUncond _ => true
  | _ => false

/-- A platform with process ids 4242 and 4241 whose container factory accepts
every payload. -/
def demoPlatform : Platform where
  getpid := 4242
  getppid := 4241
  CreateFromDataContainerPbMsg := fun d => some ⟨d⟩

/-- An environment whose state counts the callbacks made so far: agents with an
even id are done, the reward is the id, the observation holds the id. -/
def demoMethods : EnvMethods Nat where
  GetActionSpace := fun agent_id n => (some ⟨⟨[agent_id]⟩⟩, n + 1)
  GetObservationSpace := fun agent_id n => (some ⟨⟨[agent_id, agent_id]⟩⟩, n + 1)
  GetObservation := fun agent_id n => (some ⟨⟨[agent_id]⟩⟩, n + 1)
  GetReward := fun agent_id n => (⟨agent_id⟩, n + 1)
  GetDone := fun agent_id n => (agent_id % 2 == 0, n + 1)
  GetInfo := fun _ n => ("", n + 1)
  ExecuteActions := fun _ action n => (action.isSome, n + 1)

/-- The interface of a freshly constructed `OpenGymMultiEnv` over `demoMethods`
after `AddAgentId` for each of `ids`. -/
def demoSession (ids : List Nat) : OpenGymMultiInterface Nat :=
  { m_port := 5555
    m_simEnd := false
    m_stopEnvRequested := false
    m_initSimMsgSent := false
    m_agentIdVec := ids
    m_actionSpaceCb := some demoMethods.GetActionSpace
    m_observationSpaceCb := some demoMethods.GetObservationSpace
    m_obsCb := some demoMethods.GetObservation
    m_rewardCb := some demoMethods.GetReward
    m_doneCb := some demoMethods.GetDone
    m_infoCb := some demoMethods.GetInfo
    m_actionCb := some demoMethods.ExecuteActions }

/-- A peer that accepts the init message and answers a state batch with the
action records `acts`, asking for no stop. -/
def demoPeer (acts : List AgentActMsg) : PeerReplies where
  ack := ⟨true, ⟨false, false⟩⟩
  reply := ⟨true, ⟨false, acts⟩⟩

/-- A peer that accepts the init message and answers a state batch with a stop
request next to the action records `acts`. -/
def demoStopPeer (acts : List AgentActMsg) : PeerReplies where
  ack := ⟨true, ⟨false, false⟩⟩
  reply := ⟨true, ⟨true, acts⟩⟩

/-- The state batch of the sample session with the registry 1, 2, 3: agent 2 is
done, agents 1 and 3 are not. -/
def demoBatch : MultiAgentStateMsg :=
  ⟨[⟨1, some ⟨[1]⟩, ⟨1⟩, false, ""⟩, ⟨2, some ⟨[2]⟩, ⟨2⟩, true, ""⟩,
    ⟨3, some ⟨[3]⟩, ⟨3⟩, false, ""⟩]⟩

/-- The session `Notify` hands to `NotifyCurrentState`: five callbacks bound to
`entity`. -/
def OpenGymMultiInterface.withEntity (s : OpenGymMultiInterface ε) (entity : EnvMethods ε) :
    OpenGymMultiInterface ε :=
  ((((s.SetGetObservationCb (some entity.GetObservation)).SetGetRewardCb
    (some entity.GetReward)).SetGetDoneCb (some entity.GetDone)).SetGetInfoCb
    (some entity.GetInfo)).SetExecuteActionsCb (some entity.ExecuteActions)

/-- The calls that can trigger `Init`: `Init` itself and the member functions
that begin with `NotifyCurrentState`. -/
def Op.isInitPath : Op ε → Bool
  | .Init _ => true
  | .Notify _ _ => true
  | .NotifyCurrentState _ => true
  | .WaitForStop _ => true
  | _ => false

/-- The calls C8 is about: `Init`, `Notify` (the body of `OpenGymMultiEnv::Step`),
`NotifyCurrentState`, `WaitForStop` and `NotifySimulationEnd`. -/
def Op.isStepOrEnd : Op ε → Bool
  | .Init _ => true
  | .Notify _ _ => true
  | .NotifyCurrentState _ => true
  | .WaitForStop _ => true
  | .NotifySimulationEnd _ => true
  | _ => false

/-- The state of a session in which a stop request was recorded: the flag is set,
and the init message was sent or the registry is empty. -/
def OpenGymMultiInterface.Halted (s : OpenGymMultiInterface ε) : Prop :=
  s.m_stopEnvRequested = true ∧ (s.m_initSimMsgSent = true ∨ s.m_agentIdVec = [])

/-- The only call that changes the registry. -/
def Op.isAddAgent : Op ε → Bool
  | .AddAgent _ => true
  | _ => false

/-- A peer that answers the init message with a stop request. -/
def demoAckStopPeer : PeerReplies where
  ack := ⟨true, ⟨false, true⟩⟩
  reply := ⟨true, ⟨false, []⟩⟩

/-- The `AgentStateMsg` record for one agent, in words of the four callbacks:
the agent id, the observation message when the observation is non-null, the
reward, the done flag and the info text, the callbacks being asked in this order
starting in the simulation state `e`. -/
def specStateRecord (fo : Nat → ε → Option OpenGymDataContainer × ε) (fr : Nat → ε → F32 × ε)
    (fd : Nat → ε → Bool × ε) (fi : Nat → ε → String × ε) (agent_id : Nat) (e : ε) :
    AgentStateMsg where
  agentid := agent_id
  obsdata := (fo agent_id e).1.map OpenGymDataContainer.GetDataContainerPbMsg
  reward := (fr agent_id (fo agent_id e).2).1
  done := (fd agent_id (fr agent_id (fo agent_id e).2).2).1
  info := (fi agent_id (fd agent_id (fr agent_id (fo agent_id e).2).2).2).1

/-- The simulation state after the four state callbacks were asked once for one
agent, starting in `e`. -/
def specStateEnv (fo : Nat → ε → Option OpenGymDataContainer × ε) (fr : Nat → ε → F32 × ε)
    (fd : Nat → ε → Bool × ε) (fi : Nat → ε → String × ε) (agent_id : Nat) (e : ε) : ε :=
  (fi agent_id (fd agent_id (fr agent_id (fo agent_id e).2).2).2).2

/-- The `AgentInitMsg` record for one agent, in words of the two space
callbacks: the agent id, the observation-space description when that space is
non-null, and the action-space description when that space is non-null. -/
def specInitRecord (fs fa : Nat → ε → Option OpenGymSpace × ε) (agent_id : Nat) (e : ε) :
    AgentInitMsg where
  agentid := agent_id
  obsspace := (fs agent_id e).1.map OpenGymSpace.GetSpaceDescription
  actspace := (fa agent_id (fs agent_id e).2).1.map OpenGymSpace.GetSpaceDescription

/-- The simulation state after the two space callbacks were asked once for one
agent, starting in `e`. -/
def specInitEnv (fs fa : Nat → ε → Option OpenGymSpace × ε) (agent_id : Nat) (e : ε) : ε :=
  (fa agent_id (fs agent_id e).2).2

/-- A peer whose reply to a state batch does not parse: `ParseFromArray` returns
false and leaves the records `acts` in the message object. -/
def demoMalformedPeer (acts : List AgentActMsg) : PeerReplies where
  ack := ⟨true, ⟨false, false⟩⟩
  reply := ⟨false, ⟨false, acts⟩⟩

/-- The strict alternation of the request/reply channel, read off a list of
socket operations: the list is a sequence of pairs, each one send immediately
followed by one receive. -/
def sendRecvPairs : List Event → Bool
  | [] => true
  | .sendInit _ :: .recv :: t => sendRecvPairs t
  | .sendState _ :: .recv :: t => sendRecvPairs t
  | _ => false

/-! ## The attribute `OpenGymPort` and the shared instance -/

/-- The attribute `OpenGymPort` that `OpenGymMultiEnv::GetTypeId` declares, with
the accessor `MakeUintegerAccessor (&OpenGymMultiEnv::m_openGymPort)`: a value
given to the attribute is stored in `m_openGymPort`. -/
def OpenGymMultiEnv.SetAttributeOpenGymPort (env : OpenGymMultiEnv ε) (value : Nat) :
    OpenGymMultiEnv ε :=
  { env with m_openGymPort := value }

/-- The creation of an `OpenGymMultiEnv` with the value `openGymPort` for its
attribute `OpenGymPort` (by `CreateObjectWithAttributes`, by an `ObjectFactory`,
by `Config::SetDefault` before `CreateObject`, or by `SetAttribute` on the new
object): the ns-3 object system runs the constructor first and gives the
attributes their values on the constructed object. -/
def OpenGymMultiEnv.CreateObject (methods : EnvMethods ε) (openGymPort : Nat) :
    OpenGymMultiEnv ε :=
  (OpenGymMultiEnv.construct methods).SetAttributeOpenGymPort openGymPort

/-- What the static member functions `Get`, `DoGet` and `Delete` do outside the
object. -/
inductive StaticEvent where
  /-- The call `CreateObject<OpenGymMultiInterface> (port)`. -/
  | CreateObject (port : Nat)
  /-- The call `Config::RegisterRootNamespaceObject (ptr)`. -/
  | RegisterRootNamespaceObject
  /-- The call `Simulator::ScheduleDestroy (&OpenGymMultiInterface::Delete)`. -/
  | ScheduleDestroy
  /-- The call `Config::UnregisterRootNamespaceObject`. -/
  | UnregisterRootNamespaceObject
  deriving DecidableEq, Repr

/-- The result of `Get` and `DoGet`: `ptr` is the function-local
`static Ptr<OpenGymMultiInterface> ptr` of `DoGet` after the call (`none` is the
null pointer), `val` the pointer the call hands out. -/
structure StaticRet (ε : Type) where
  val : Option (OpenGymMultiInterface ε)
  ptr : Option (OpenGymMultiInterface ε)
  events : List StaticEvent

namespace OpenGymMultiInterface

/-- The static member function `DoGet`, on the value `ptr` of its static
variable before the call. It returns the address of that variable, so `val` is
its content. -/
def DoGet (port : Nat) (ptr : Option (OpenGymMultiInterface ε)) : StaticRet ε :=
  match ptr with
  | none =>
    ⟨some (construct port), some (construct port),
      [StaticEvent.CreateObject port, StaticEvent.RegisterRootNamespaceObject,
        StaticEvent.ScheduleDestroy]⟩
  | some i => ⟨some i, some i, []⟩

/-- The static member function `Get`: `return *DoGet (port);`. -/
def Get (port : Nat) (ptr : Option (OpenGymMultiInterface ε)) : StaticRet ε :=
  DoGet port ptr

/-- The static member function `Delete`: `Get ()` and `DoGet ()` are called with
the default port, then the static variable is set to null. -/
def Delete (ptr : Option (OpenGymMultiInterface ε)) : StaticRet ε :=
  let g := Get defaultPort ptr
  let d := DoGet defaultPort g.ptr
  ⟨none, none, g.events ++ [StaticEvent.UnregisterRootNamespaceObject] ++ d.events⟩

end OpenGymMultiInterface

/-- The ports of the instances created, in order. -/
def created (evs : List StaticEvent) : List Nat :=
  evs.filterMap fun
    | .CreateObject port => some port
    | _ => none

/-! ## The packet headers of the routing example (`wsn-packet.h`, `wsn-packet.cc`) -/

/-- How a call ends that does not return: a failed `NS_ASSERT`, or a read beyond
the end of the buffer. -/
inductive Abort where
  | assertFailed
  | outOfBuffer
  deriving DecidableEq, Repr

/-- The check `NS_ASSERT (condition)`: in a build with `NS3_ASSERT_ENABLE` (the
debug profile) a false condition ends the process; in a build without it the
check is compiled out. -/
def NS_ASSERT (NS3_ASSERT_ENABLE : Bool) (condition : Bool) : Except Abort Unit :=
  if NS3_ASSERT_ENABLE && !condition then .error .assertFailed else .ok ()

/-- An `Ipv4Address`: the 32-bit value that `Get ()` returns and `Set` stores. -/
structure Ipv4Address where
  m_address : Nat
  deriving DecidableEq, Repr

namespace Buffer

/-- `Buffer::Iterator::WriteU8`, on the bytes written since `start`. -/
def WriteU8 (i : List Nat) (data : Nat) : List Nat :=
  i ++ [data % 2 ^ 8]

/-- `Buffer::Iterator::WriteHtonU32`: the 32-bit value in network byte order,
most significant byte first. -/
def WriteHtonU32 (i : List Nat) (data : Nat) : List Nat :=
  i ++ [data / 2 ^ 24 % 2 ^ 8, data / 2 ^ 16 % 2 ^ 8, data / 2 ^ 8 % 2 ^ 8, data % 2 ^ 8]

/-- A `Buffer::Iterator` that reads: the bytes ahead of it and how many bytes it
has moved since it was created. -/
structure Iterator where
  ahead : List Nat
  moved : Nat
  deriving DecidableEq, Repr

namespace Iterator

/-- `Buffer::Iterator::ReadU8`. -/
def ReadU8 : Iterator → Except Abort (Nat × Iterator)
  | ⟨b :: rest, n⟩ => .ok (b, ⟨rest, n + 1⟩)
  | ⟨[], _⟩ => .error .outOfBuffer

/-- `Buffer::Iterator::ReadNtohU32`: four bytes, most significant first. -/
def ReadNtohU32 : Iterator → Except Abort (Nat × Iterator)
  | ⟨b0 :: b1 :: b2 :: b3 :: rest, n⟩ =>
    .ok (b0 * 2 ^ 24 + b1 * 2 ^ 16 + b2 * 2 ^ 8 + b3, ⟨rest, n + 4⟩)
  | _ => .error .outOfBuffer

/-- `Buffer::Iterator::GetDistanceFrom`. -/
def GetDistanceFrom (i start : Iterator) : Nat :=
  i.moved - start.moved

end Iterator

end Buffer

/-- `WriteTo (i, ad)` of `address-utils.h`: `i.WriteHtonU32 (ad.Get ())`. -/
def WriteTo (i : List Nat) (ad : Ipv4Address) : List Nat :=
  Buffer.WriteHtonU32 i ad.m_address

/-- `ReadFrom (i, ad)` of `address-utils.h`: `ad.Set (i.ReadNtohU32 ())`. -/
def ReadFrom (i : Buffer.Iterator) : Except Abort (Ipv4Address × Buffer.Iterator) := do
  let (v, j) ← i.ReadNtohU32
  return (⟨v⟩, j)

namespace sdwsn

/-- The enumeration `MessageType`. -/
inductive MessageType where
  | E3RTYPE_RREP
  | E3RTYPE_RERR
  | E3RTYPE_RREP_ACK
  | E3RTYPE_C_RQ
  | E3RTYPE_C_RP
  deriving DecidableEq, Repr

/-- The value of an enumerator. -/
def MessageType.toNat : MessageType → Nat
  | .E3RTYPE_RREP => 2
  | .E3RTYPE_RERR => 3
  | .E3RTYPE_RREP_ACK => 4
  | .E3RTYPE_C_RQ => 5
  | .E3RTYPE_C_RP => 6

/-- The data members of `TypeHeader`. -/
structure TypeHeader where
  m_type : MessageType
  m_valid : Bool
  deriving DecidableEq, Repr

namespace TypeHeader

/-- The constructor `TypeHeader (MessageType t)`. -/
def construct (t : MessageType) : TypeHeader :=
  ⟨t, true⟩

/-- The member function `GetSerializedSize`. -/
def GetSerializedSize (_self : TypeHeader) : Nat := 1

/-- The member function `Serialize`: the bytes it writes. -/
def Serialize (self : TypeHeader) (i : List Nat) : List Nat :=
  Buffer.WriteU8 i self.m_type.toNat

/-- The member function `Deserialize`: the object after the call and the value
returned. -/
def Deserialize (NS3_ASSERT_ENABLE : Bool) (self : TypeHeader) (start : Buffer.Iterator) :
    Except Abort (TypeHeader × Nat) := do
  let (type, i) ← start.ReadU8
  let s1 : TypeHeader := { self with m_valid := true }
  let s2 : TypeHeader :=
    if type = MessageType.E3RTYPE_RREP.toNat then { s1 with m_type := .E3RTYPE_RREP }
    else { s1 with m_valid := false }
  let dist := i.GetDistanceFrom start
  NS_ASSERT NS3_ASSERT_ENABLE (dist == s2.GetSerializedSize)
  return (s2, dist)

/-- The member function `Get`. -/
def Get (self : TypeHeader) : MessageType := self.m_type

/-- The member function `IsValid`. -/
def IsValid (self : TypeHeader) : Bool := self.m_valid

/-- The member `operator==`. -/
def operatorEq (self o : TypeHeader) : Bool :=
  self.m_type == o.m_type && self.m_valid == o.m_valid

end TypeHeader

/-- The data members of `RrepHeader`: `m_hopCount` is a `uint8_t`, `m_dstSeqNo`
a `uint32_t`. -/
structure RrepHeader where
  m_hopCount : Nat
  m_dst : Ipv4Address
  m_dstSeqNo : Nat
  m_origin : Ipv4Address
  deriving DecidableEq, Repr

namespace RrepHeader

/-- The constructor `RrepHeader (hopCount, dst, dstSeqNo, origin)`; the
arguments are converted to the types of the parameters. -/
def construct (hopCount : Nat) (dst : Ipv4Address) (dstSeqNo : Nat) (origin : Ipv4Address) :
    RrepHeader :=
  ⟨hopCount % 2 ^ 8, dst, dstSeqNo % 2 ^ 32, origin⟩

/-- The member function `GetSerializedSize`. -/
def GetSerializedSize (_self : RrepHeader) : Nat := 19

/-- The member function `Serialize`: the bytes it writes. -/
def Serialize (self : RrepHeader) (i : List Nat) : List Nat :=
  let i1 := Buffer.WriteU8 i self.m_hopCount
  let i2 := WriteTo i1 self.m_dst
  let i3 := Buffer.WriteHtonU32 i2 self.m_dstSeqNo
  WriteTo i3 self.m_origin

/-- The member function `Deserialize`: the object after the call and the value
returned. -/
def Deserialize (NS3_ASSERT_ENABLE : Bool) (self : RrepHeader) (start : Buffer.Iterator) :
    Except Abort (RrepHeader × Nat) := do
  let (hopCount, i1) ← start.ReadU8
  let (dst, i2) ← ReadFrom i1
  let (dstSeqNo, i3) ← i2.ReadNtohU32
  let (origin, i4) ← ReadFrom i3
  let s : RrepHeader :=
    { self with m_hopCount := hopCount, m_dst := dst, m_dstSeqNo := dstSeqNo, m_origin := origin }
  let dist := i4.GetDistanceFrom start
  NS_ASSERT NS3_ASSERT_ENABLE (dist == s.GetSerializedSize)
  return (s, dist)

/-- The member `operator==`. -/
def operatorEq (self o : RrepHeader) : Bool :=
  self.m_hopCount == o.m_hopCount && self.m_dst == o.m_dst
    && self.m_dstSeqNo == o.m_dstSeqNo && self.m_origin == o.m_origin

end RrepHeader

end sdwsn

/-- The values a `RrepHeader` can hold: the fields within their C++ types. -/
def sdwsn.RrepHeader.InRange (h : sdwsn.RrepHeader) : Prop :=
  h.m_hopCount < 2 ^ 8 ∧ h.m_dst.m_address < 2 ^ 32 ∧ h.m_dstSeqNo < 2 ^ 32
    ∧ h.m_origin.m_address < 2 ^ 32

/-- A reply with hop count 1 for the destination 10.0.0.1, sequence number
66051 (`0x00010203`), from 10.0.0.2. -/
def demoRrep : sdwsn.RrepHeader :=
  ⟨1, ⟨167772161⟩, 66051, ⟨167772162⟩⟩

/-! ## Event classes and what the views make of them -/

section Views

variable {ε : Type}

@[simp] theorem sentInits_append (a b : List Event) :
    sentInits (a ++ b) = sentInits a ++ sentInits b := by
  simp [sentInits, List.filterMap_append]

@[simp] theorem sentStates_append (a b : List Event) :
    sentStates (a ++ b) = sentStates a ++ sentStates b := by
  simp [sentStates, List.filterMap_append]

@[simp] theorem transport_append (a b : List Event) :
    transport (a ++ b) = transport a ++ transport b := by
  simp [transport, List.filter_append]

@[simp] theorem queries_append (a b : List Event) :
    queries (a ++ b) = queries a ++ queries b := by
  simp [queries, List.filterMap_append]

@[simp] theorem executed_append (a b : List Event) :
    executed (a ++ b) = executed a ++ executed b := by
  simp [executed, List.filterMap_append]

@[simp] theorem actionCbCalls_append (a b : List Event) :
    actionCbCalls (a ++ b) = actionCbCalls a ++ actionCbCalls b := by
  simp [actionCbCalls, List.filterMap_append]

@[simp] theorem connects_append (a b : List Event) :
    connects (a ++ b) = connects a ++ connects b := by
  simp [connects, List.filterMap_append]

@[simp] theorem spaceQueries_append (a b : List Event) :
    spaceQueries (a ++ b) = spaceQueries a ++ spaceQueries b := by
  simp [spaceQueries, List.filter_append]

@[simp] theorem stateQueries_append (a b : List Event) :
    stateQueries (a ++ b) = stateQueries a ++ stateQueries b := by
  simp [stateQueries, List.filter_append]

@[simp] theorem spaceQueries_nil : spaceQueries [] = [] := rfl

@[simp] theorem stateQueries_nil : stateQueries [] = [] := rfl

theorem spaceQueries_of_queries_nil {evs : List Event} (h : queries evs = []) :
    spaceQueries evs = [] := by
  simp [spaceQueries, h]

theorem stateQueries_of_queries_nil {evs : List Event} (h : queries evs = []) :
    stateQueries evs = [] := by
  simp [stateQueries, h]

@[simp] theorem sentInits_nil : sentInits [] = [] := rfl

@[simp] theorem sentStates_nil : sentStates [] = [] := rfl

@[simp] theorem transport_nil : transport [] = [] := rfl

@[simp] theorem queries_nil : queries [] = [] := rfl

@[simp] theorem executed_nil : executed [] = [] := rfl

@[simp] theorem actionCbCalls_nil : actionCbCalls [] = [] := rfl

@[simp] theorem connects_nil : connects [] = [] := rfl

@[simp] theorem sentInits_cons (a : Event) (t : List Event) :
    sentInits (a :: t) = (match a with | .sendInit m => [m] | _ => []) ++ sentInits t := by
  cases a <;> rfl

@[simp] theorem sentStates_cons (a : Event) (t : List Event) :
    sentStates (a :: t) = (match a with | .sendState m => [m] | _ => []) ++ sentStates t := by
  cases a <;> rfl

@[simp] theorem transport_cons (a : Event) (t : List Event) :
    transport (a :: t)
      = (match a with | .sendInit _ => [a] | .sendState _ => [a] | .recv => [a] | _ => [])
        ++ transport t := by
  cases a <;> rfl

@[simp] theorem queries_cons (a : Event) (t : List Event) :
    queries (a :: t) = (match a with | .callback k i => [(k, i)] | _ => []) ++ queries t := by
  cases a <;> rfl

@[simp] theorem executed_cons (a : Event) (t : List Event) :
    executed (a :: t)
      = (match a with | .ExecuteActions i x => [(i, x)] | _ => []) ++ executed t := by
  cases a <;> rfl

@[simp] theorem actionCbCalls_cons (a : Event) (t : List Event) :
    actionCbCalls (a :: t)
      = (match a with | .actionCb i x => [(i, x)] | _ => []) ++ actionCbCalls t := by
  cases a <;> rfl

@[simp] theorem connects_cons (a : Event) (t : List Event) :
    connects (a :: t) = (match a with | .connect x => [x] | _ => []) ++ connects t := by
  cases a <;> rfl

/-- Query events are invisible to every view but `queries`. -/
theorem views_of_isQuery {evs : List Event} (h : ∀ ev ∈ evs, ev.isQuery = true) :
    sentInits evs = [] ∧ sentStates evs = [] ∧ transport evs = [] ∧ executed evs = []
      ∧ actionCbCalls evs = [] ∧ connects evs = [] := by
  refine ⟨?_, ?_, ?_, ?_, ?_, ?_⟩
  · exact List.filterMap_eq_nil_iff.mpr fun a ha => by
      have := h a ha; cases a <;> first | rfl | exact Bool.false_ne_true | cases this
  · exact List.filterMap_eq_nil_iff.mpr fun a ha => by
      have := h a ha; cases a <;> first | rfl | exact Bool.false_ne_true | cases this
  · exact List.filter_eq_nil_iff.mpr fun a ha => by
      have := h a ha; cases a <;> first | rfl | exact Bool.false_ne_true | cases this
  · exact List.filterMap_eq_nil_iff.mpr fun a ha => by
      have := h a ha; cases a <;> first | rfl | exact Bool.false_ne_true | cases this
  · exact List.filterMap_eq_nil_iff.mpr fun a ha => by
      have := h a ha; cases a <;> first | rfl | exact Bool.false_ne_true | cases this
  · exact List.filterMap_eq_nil_iff.mpr fun a ha => by
      have := h a ha; cases a <;> first | rfl | exact Bool.false_ne_true | cases this

theorem isQuery_of_isSpaceQuery {ev : Event} (h : ev.isSpaceQuery = true) :
    ev.isQuery = true := by
  cases ev <;> first | rfl | cases h

theorem isQuery_of_isStateQuery {ev : Event} (h : ev.isStateQuery = true) :
    ev.isQuery = true := by
  cases ev <;> first | rfl | cases h

/-- State queries are no space queries. -/
theorem spaceQueries_of_isStateQuery {evs : List Event}
    (h : ∀ ev ∈ evs, ev.isStateQuery = true) : spaceQueries evs = [] := by
  induction evs with
  | nil => rfl
  | cons a t ih =>
    have ha := h a (by simp)
    have ht := ih (fun ev hev => h ev (by simp [hev]))
    have hsplit : spaceQueries (a :: t) = spaceQueries [a] ++ spaceQueries t :=
      spaceQueries_append [a] t
    rw [hsplit, ht]
    cases a with
    | callback k i => cases k <;> first | rfl | cases ha
    | _ => cases ha

/-- Space queries are no state queries. -/
theorem stateQueries_of_isSpaceQuery {evs : List Event}
    (h : ∀ ev ∈ evs, ev.isSpaceQuery = true) : stateQueries evs = [] := by
  induction evs with
  | nil => rfl
  | cons a t ih =>
    have ha := h a (by simp)
    have ht := ih (fun ev hev => h ev (by simp [hev]))
    have hsplit : stateQueries (a :: t) = stateQueries [a] ++ stateQueries t :=
      stateQueries_append [a] t
    rw [hsplit, ht]
    cases a with
    | callback k i => cases k <;> first | rfl | cases ha
    | _ => cases ha

/-- Action events are invisible to every view but `executed` and `actionCbCalls`. -/
theorem views_of_isAction {evs : List Event} (h : ∀ ev ∈ evs, ev.isAction = true) :
    sentInits evs = [] ∧ sentStates evs = [] ∧ transport evs = [] ∧ queries evs = []
      ∧ connects evs = [] := by
  refine ⟨?_, ?_, ?_, ?_, ?_⟩
  · exact List.filterMap_eq_nil_iff.mpr fun a ha => by
      have := h a ha; cases a <;> first | rfl | exact Bool.false_ne_true | cases this
  · exact List.filterMap_eq_nil_iff.mpr fun a ha => by
      have := h a ha; cases a <;> first | rfl | exact Bool.false_ne_true | cases this
  · exact List.filter_eq_nil_iff.mpr fun a ha => by
      have := h a ha; cases a <;> first | rfl | exact Bool.false_ne_true | cases this
  · exact List.filterMap_eq_nil_iff.mpr fun a ha => by
      have := h a ha; cases a <;> first | rfl | exact Bool.false_ne_true | cases this
  · exact List.filterMap_eq_nil_iff.mpr fun a ha => by
      have := h a ha; cases a <;> first | rfl | exact Bool.false_ne_true | cases this

/-- Log lines are invisible to every view. -/
theorem views_of_isLog {evs : List Event} (h : ∀ ev ∈ evs, ev.isLog = true) :
    sentInits evs = [] ∧ sentStates evs = [] ∧ transport evs = [] ∧ queries evs = []
      ∧ executed evs = [] ∧ actionCbCalls evs = [] ∧ connects evs = [] := by
  refine ⟨?_, ?_, ?_, ?_, ?_, ?_, ?_⟩
  · exact List.filterMap_eq_nil_iff.mpr fun a ha => by
      have := h a ha; cases a <;> first | rfl | exact Bool.false_ne_true | cases this
  · exact List.filterMap_eq_nil_iff.mpr fun a ha => by
      have := h a ha; cases a <;> first | rfl | exact Bool.false_ne_true | cases this
  · exact List.filter_eq_nil_iff.mpr fun a ha => by
      have := h a ha; cases a <;> first | rfl | exact Bool.false_ne_true | cases this
  · exact List.filterMap_eq_nil_iff.mpr fun a ha => by
      have := h a ha; cases a <;> first | rfl | exact Bool.false_ne_true | cases this
  · exact List.filterMap_eq_nil_iff.mpr fun a ha => by
      have := h a ha; cases a <;> first | rfl | exact Bool.false_ne_true | cases this
  · exact List.filterMap_eq_nil_iff.mpr fun a ha => by
      have := h a ha; cases a <;> first | rfl | exact Bool.false_ne_true | cases this
  · exact List.filterMap_eq_nil_iff.mpr fun a ha => by
      have := h a ha; cases a <;> first | rfl | exact Bool.false_ne_true | cases this

end Views

/-! ## The two loops over the registry and the loop over the reply -/

namespace OpenGymMultiInterface

variable {ε : Type}

theorem GetObservationSpace_isSpaceQuery (s : OpenGymMultiInterface ε) (a : Nat) (e : ε) :
    ∀ ev ∈ (s.GetObservationSpace a e).events, ev.isSpaceQuery = true := by
  unfold GetObservationSpace; split <;> simp [Event.isSpaceQuery]

theorem GetActionSpace_isSpaceQuery (s : OpenGymMultiInterface ε) (a : Nat) (e : ε) :
    ∀ ev ∈ (s.GetActionSpace a e).events, ev.isSpaceQuery = true := by
  unfold GetActionSpace; split <;> simp [Event.isSpaceQuery]

theorem GetObservation_isStateQuery (s : OpenGymMultiInterface ε) (a : Nat) (e : ε) :
    ∀ ev ∈ (s.GetObservation a e).events, ev.isStateQuery = true := by
  unfold GetObservation; split <;> simp [Event.isStateQuery]

theorem GetReward_isStateQuery (s : OpenGymMultiInterface ε) (a : Nat) (e : ε) :
    ∀ ev ∈ (s.GetReward a e).events, ev.isStateQuery = true := by
  unfold GetReward; split <;> simp [Event.isStateQuery]

theorem GetDone_isStateQuery (s : OpenGymMultiInterface ε) (a : Nat) (e : ε) :
    ∀ ev ∈ (s.GetDone a e).events, ev.isStateQuery = true := by
  unfold GetDone; split <;> simp [Event.isStateQuery]

theorem GetInfo_isStateQuery (s : OpenGymMultiInterface ε) (a : Nat) (e : ε) :
    ∀ ev ∈ (s.GetInfo a e).events, ev.isStateQuery = true := by
  unfold GetInfo; split <;> simp [Event.isStateQuery]

theorem ExecuteActions_isAction (s : OpenGymMultiInterface ε) (a : Nat)
    (action : Option OpenGymDataContainer) (e : ε) :
    ∀ ev ∈ (s.ExecuteActions a action e).events, ev.isAction = true := by
  unfold ExecuteActions; split <;> simp [Event.isAction]

theorem initAgents_isSpaceQuery (s : OpenGymMultiInterface ε) (ids : List Nat) (e : ε) :
    ∀ ev ∈ (s.initAgents ids e).events, ev.isSpaceQuery = true := by
  induction ids generalizing e with
  | nil => simp [initAgents]
  | cons a t ih =>
    intro ev hev
    simp only [initAgents, List.mem_append] at hev
    rcases hev with (h | h) | h
    · exact GetObservationSpace_isSpaceQuery s a e ev h
    · exact GetActionSpace_isSpaceQuery s a _ ev h
    · exact ih _ ev h

theorem collectStates_isStateQuery (s : OpenGymMultiInterface ε) (ids : List Nat) (e : ε) :
    ∀ ev ∈ (s.collectStates ids e).events, ev.isStateQuery = true := by
  induction ids generalizing e with
  | nil => simp [collectStates]
  | cons a t ih =>
    intro ev hev
    simp only [collectStates, List.mem_append] at hev
    rcases hev with (((h | h) | h) | h) | h
    · exact GetObservation_isStateQuery s a e ev h
    · exact GetReward_isStateQuery s a _ ev h
    · exact GetDone_isStateQuery s a _ ev h
    · exact GetInfo_isStateQuery s a _ ev h
    · exact ih _ ev h

theorem initAgents_isQuery (s : OpenGymMultiInterface ε) (ids : List Nat) (e : ε) :
    ∀ ev ∈ (s.initAgents ids e).events, ev.isQuery = true :=
  fun ev hev => isQuery_of_isSpaceQuery (initAgents_isSpaceQuery s ids e ev hev)

theorem collectStates_isQuery (s : OpenGymMultiInterface ε) (ids : List Nat) (e : ε) :
    ∀ ev ∈ (s.collectStates ids e).events, ev.isQuery = true :=
  fun ev hev => isQuery_of_isStateQuery (collectStates_isStateQuery s ids e ev hev)

theorem executeLoop_isAction (p : Platform) (s : OpenGymMultiInterface ε)
    (acts : List AgentActMsg) (e : ε) :
    ∀ ev ∈ (executeLoop p s acts e).events, ev.isAction = true := by
  induction acts generalizing e with
  | nil => simp [executeLoop]
  | cons a t ih =>
    intro ev hev
    simp only [executeLoop, List.mem_append] at hev
    rcases hev with h | h
    · exact ExecuteActions_isAction s _ _ e ev h
    · exact ih _ ev h

theorem emptyRegistryLog_isLog (s : OpenGymMultiInterface ε) :
    ∀ ev ∈ s.emptyRegistryLog, ev.isLog = true := by
  simp [emptyRegistryLog, Event.isLog]

theorem waitingLog_isLog (p : Platform) (s : OpenGymMultiInterface ε) :
    ∀ ev ∈ waitingLog p s, ev.isLog = true := by
  simp [waitingLog, Event.isLog]

/-- The records of a state batch carry the ids of the list iterated, in order. -/
theorem collectStates_ids (s : OpenGymMultiInterface ε) (ids : List Nat) (e : ε) :
    (s.collectStates ids e).val.map AgentStateMsg.agentid = ids := by
  induction ids generalizing e with
  | nil => rfl
  | cons a t ih => simp [collectStates, ih]

/-- The records of an init message carry the ids of the list iterated, in order. -/
theorem initAgents_ids (s : OpenGymMultiInterface ε) (ids : List Nat) (e : ε) :
    (s.initAgents ids e).val.map AgentInitMsg.agentid = ids := by
  induction ids generalizing e with
  | nil => rfl
  | cons a t ih => simp [initAgents, ih]

end OpenGymMultiInterface

namespace OpenGymMultiInterface

variable {ε : Type}

/-! ## What `Init` does -/

theorem Init_of_sent (p : Platform) (peer : PeerReplies) (s : OpenGymMultiInterface ε) (e : ε)
    (h : s.m_initSimMsgSent = true) : s.Init p peer e = ⟨s, e, [], false⟩ := by
  simp [Init, h]

theorem Init_of_empty (p : Platform) (peer : PeerReplies) (s : OpenGymMultiInterface ε) (e : ε)
    (h : s.m_initSimMsgSent = false) (hreg : s.m_agentIdVec = []) :
    s.Init p peer e = ⟨s, e, s.emptyRegistryLog, false⟩ := by
  simp [Init, h, hreg]

theorem Init_agentIdVec (p : Platform) (peer : PeerReplies) (s : OpenGymMultiInterface ε)
    (e : ε) : (s.Init p peer e).self.m_agentIdVec = s.m_agentIdVec := by
  unfold Init; split_ifs <;> rfl

theorem Init_simEnd (p : Platform) (peer : PeerReplies) (s : OpenGymMultiInterface ε)
    (e : ε) : (s.Init p peer e).self.m_simEnd = s.m_simEnd := by
  unfold Init; split_ifs <;> rfl

theorem Init_events_views (p : Platform) (peer : PeerReplies) (s : OpenGymMultiInterface ε)
    (e : ε) :
    sentStates (s.Init p peer e).events = [] ∧ executed (s.Init p peer e).events = []
      ∧ actionCbCalls (s.Init p peer e).events = [] := by
  have hq := fun e => views_of_isQuery
    (initAgents_isQuery { s with m_initSimMsgSent := true } s.m_agentIdVec e)
  have hw := views_of_isLog (waitingLog_isLog p { s with m_initSimMsgSent := true })
  have he := views_of_isLog (emptyRegistryLog_isLog s)
  unfold Init
  split_ifs
  · simp
  · simp [he]
  · simp [hq, hw]
  · simp [hq, hw]

end OpenGymMultiInterface

namespace OpenGymMultiInterface

variable {ε : Type}

theorem initPhase_agentIdVec (p : Platform) (peer : PeerReplies) (s : OpenGymMultiInterface ε)
    (e : ε) : (s.initPhase p peer e).self.m_agentIdVec = s.m_agentIdVec := by
  unfold initPhase; split_ifs
  · rfl
  · exact Init_agentIdVec p peer s e

theorem initPhase_simEnd (p : Platform) (peer : PeerReplies) (s : OpenGymMultiInterface ε)
    (e : ε) : (s.initPhase p peer e).self.m_simEnd = s.m_simEnd := by
  unfold initPhase; split_ifs
  · rfl
  · exact Init_simEnd p peer s e

theorem initPhase_actionCb (p : Platform) (peer : PeerReplies) (s : OpenGymMultiInterface ε)
    (e : ε) : (s.initPhase p peer e).self.m_actionCb = s.m_actionCb := by
  unfold initPhase Init; split_ifs <;> rfl

theorem initPhase_events_views (p : Platform) (peer : PeerReplies)
    (s : OpenGymMultiInterface ε) (e : ε) :
    sentStates (s.initPhase p peer e).events = []
      ∧ executed (s.initPhase p peer e).events = []
      ∧ actionCbCalls (s.initPhase p peer e).events = [] := by
  unfold initPhase; split_ifs
  · simp
  · exact Init_events_views p peer s e

/-- A call of `Init` that ended in `std::exit` has set `m_stopEnvRequested`. -/
theorem initPhase_exited (p : Platform) (peer : PeerReplies) (s : OpenGymMultiInterface ε)
    (e : ε) (h : (s.initPhase p peer e).exited = true) :
    (s.initPhase p peer e).self.m_stopEnvRequested = true := by
  unfold initPhase Init at h ⊢
  split_ifs at h ⊢
  simp_all

/-- The calls of `ExecuteActions` the second loop makes: one per record. -/
theorem executeLoop_executed (p : Platform) (s : OpenGymMultiInterface ε)
    (acts : List AgentActMsg) (e : ε) :
    executed (executeLoop p s acts e).events
      = acts.map fun r => (r.agentid, p.CreateFromDataContainerPbMsg r.actdata) := by
  induction acts generalizing e with
  | nil => rfl
  | cons a t ih =>
    simp only [executeLoop, executed_append, ih, List.map_cons]
    unfold ExecuteActions; split <;> simp

/-- The invocations of a bound `m_actionCb` the second loop makes: one per record. -/
theorem executeLoop_actionCbCalls (p : Platform) (s : OpenGymMultiInterface ε)
    (acts : List AgentActMsg) (e : ε) :
    actionCbCalls (executeLoop p s acts e).events
      = if s.m_actionCb.isSome then
          acts.map fun r => (r.agentid, p.CreateFromDataContainerPbMsg r.actdata)
        else [] := by
  induction acts generalizing e with
  | nil => simp [executeLoop]
  | cons a t ih =>
    simp only [executeLoop, actionCbCalls_append, ih, List.map_cons]
    unfold ExecuteActions; split <;> simp_all

end OpenGymMultiInterface

/-! ## C1: a state batch lists the registry -/

/-- A state batch that `NotifyCurrentState` sends holds the records the first
loop has built from the registry. -/
theorem OpenGymMultiInterface.NotifyCurrentState_sentStates (p : Platform)
    (peer : PeerReplies) (s : OpenGymMultiInterface ε) (e : ε) (m : MultiAgentStateMsg)
    (hm : m ∈ sentStates (s.NotifyCurrentState p peer e).events) :
    m.agentstatemsg
      = ((s.initPhase p peer e).self.collectStates s.m_agentIdVec
          (s.initPhase p peer e).env).val := by
  have hi := OpenGymMultiInterface.initPhase_events_views p peer s e
  have hreg := OpenGymMultiInterface.initPhase_agentIdVec p peer s e
  have hq := fun (t : OpenGymMultiInterface ε) ids e =>
    views_of_isQuery (OpenGymMultiInterface.collectStates_isQuery t ids e)
  have ha := fun (t : OpenGymMultiInterface ε) acts e =>
    views_of_isAction (OpenGymMultiInterface.executeLoop_isAction p t acts e)
  unfold OpenGymMultiInterface.NotifyCurrentState at hm
  simp only [hreg] at hm
  split_ifs at hm <;> simp [hi, hq, ha] at hm <;> simp [hm]

/-- The agent ids of a state batch that `NotifyCurrentState` sends. -/
theorem OpenGymMultiInterface.NotifyCurrentState_sentStates_ids (p : Platform)
    (peer : PeerReplies) (s : OpenGymMultiInterface ε) (e : ε) (m : MultiAgentStateMsg)
    (hm : m ∈ sentStates (s.NotifyCurrentState p peer e).events) :
    m.agentstatemsg.map AgentStateMsg.agentid = s.m_agentIdVec := by
  rw [OpenGymMultiInterface.NotifyCurrentState_sentStates p peer s e m hm]
  exact OpenGymMultiInterface.collectStates_ids _ _ _

/-- C1: every `MultiAgentStateMsg` that `NotifyCurrentState` sends has exactly one
record per registry entry, and the agent ids of its records are the registry in
registry order, whatever the callbacks (the done flags among them) return. -/
theorem C1_state_batch_lists_registry (p : Platform) (peer : PeerReplies)
    (s : OpenGymMultiInterface ε) (e : ε) (m : MultiAgentStateMsg)
    (hm : m ∈ sentStates (s.NotifyCurrentState p peer e).events) :
    m.agentstatemsg.length = s.m_agentIdVec.length
      ∧ m.agentstatemsg.map AgentStateMsg.agentid = s.m_agentIdVec := by
  have hids := OpenGymMultiInterface.NotifyCurrentState_sentStates_ids p peer s e m hm
  exact ⟨by rw [← List.length_map _ AgentStateMsg.agentid, hids], hids⟩

/-- C1, instance: with the registry 1, 2, 3 (agent 2 done, agents 1 and 3 not) a
step sends one batch of exactly three records, for 1, 2, 3 in that order. -/
theorem C1_state_batch_lists_registry_witness :
    sentStates ((demoSession [1, 2, 3]).NotifyCurrentState demoPlatform (demoPeer []) 0).events
        = [demoBatch]
      ∧ demoBatch.agentstatemsg.length = 3
      ∧ demoBatch.agentstatemsg.map AgentStateMsg.agentid = [1, 2, 3] :=
  ⟨by decide,
    C1_state_batch_lists_registry demoPlatform (demoPeer []) (demoSession [1, 2, 3]) 0
      demoBatch (by decide)⟩

/-! ## C2: the actions executed are the records of the reply -/

/-- C2: in a step that began with `m_simEnd` unset and in which a state batch was
sent (so that the reply was received), a reply without stop request makes
`NotifyCurrentState` call `ExecuteActions` once per record of the reply, in reply
order, with the id and the action of that record; no call is made (and no bound
callback invoked) for an id without a record, and a bound `m_actionCb` is invoked
for exactly the same list. -/
theorem C2_actions_follow_reply (p : Platform) (peer : PeerReplies)
    (s : OpenGymMultiInterface ε) (e : ε)
    (hstop : peer.reply.msg.stopsimreq = false) (hend : s.m_simEnd = false)
    (hrecv : sentStates (s.NotifyCurrentState p peer e).events ≠ []) :
    executed (s.NotifyCurrentState p peer e).events
        = peer.reply.msg.agentactmsg.map
            (fun r => (r.agentid, p.CreateFromDataContainerPbMsg r.actdata))
      ∧ (executed (s.NotifyCurrentState p peer e).events).length
          = peer.reply.msg.agentactmsg.length
      ∧ (∀ agent_id, agent_id ∉ peer.reply.msg.agentactmsg.map AgentActMsg.agentid →
          ∀ action, (agent_id, action) ∉ executed (s.NotifyCurrentState p peer e).events
            ∧ (agent_id, action) ∉ actionCbCalls (s.NotifyCurrentState p peer e).events)
      ∧ (s.m_actionCb.isSome = true →
          actionCbCalls (s.NotifyCurrentState p peer e).events
            = peer.reply.msg.agentactmsg.map
                (fun r => (r.agentid, p.CreateFromDataContainerPbMsg r.actdata))) := by
  have hi := OpenGymMultiInterface.initPhase_events_views p peer s e
  have hse := OpenGymMultiInterface.initPhase_simEnd p peer s e
  have hcb := OpenGymMultiInterface.initPhase_actionCb p peer s e
  have hq := fun (t : OpenGymMultiInterface ε) ids e =>
    views_of_isQuery (OpenGymMultiInterface.collectStates_isQuery t ids e)
  have hx := fun (t : OpenGymMultiInterface ε) acts e =>
    OpenGymMultiInterface.executeLoop_executed p t acts e
  have hc := fun (t : OpenGymMultiInterface ε) acts e =>
    OpenGymMultiInterface.executeLoop_actionCbCalls p t acts e
  have hex : executed (s.NotifyCurrentState p peer e).events
      = peer.reply.msg.agentactmsg.map
          (fun r => (r.agentid, p.CreateFromDataContainerPbMsg r.actdata)) := by
    unfold OpenGymMultiInterface.NotifyCurrentState at hrecv ⊢
    simp only [hse, hend, hstop] at hrecv ⊢
    split_ifs at hrecv ⊢ <;> simp_all
  have hcalls : actionCbCalls (s.NotifyCurrentState p peer e).events
      = if s.m_actionCb.isSome then
          peer.reply.msg.agentactmsg.map
            (fun r => (r.agentid, p.CreateFromDataContainerPbMsg r.actdata))
        else [] := by
    unfold OpenGymMultiInterface.NotifyCurrentState at hrecv ⊢
    simp only [hse, hend, hstop] at hrecv ⊢
    split_ifs at hrecv ⊢ <;> simp_all
  refine ⟨hex, by rw [hex, List.length_map], ?_, fun h => by rw [hcalls, if_pos h]⟩
  intro agent_id hid action
  have hnot : (agent_id, action) ∉ peer.reply.msg.agentactmsg.map
      (fun r => (r.agentid, p.CreateFromDataContainerPbMsg r.actdata)) := by
    intro hmem
    rcases List.mem_map.mp hmem with ⟨r, hr, hpair⟩
    exact hid (List.mem_map.mpr ⟨r, hr, (Prod.mk.inj hpair).1⟩)
  refine ⟨by rw [hex]; exact hnot, ?_⟩
  rw [hcalls]
  split_ifs
  · exact hnot
  · simp

/-- C2, instances: with the registry 10, 20 a reply with an action for 10 only
gives one call, for 10, and none for 20; an empty batch gives no call. -/
theorem C2_actions_follow_reply_witness :
    ((demoPeer [⟨10, ⟨[7]⟩⟩]).reply.msg.stopsimreq = false
        ∧ (demoSession [10, 20]).m_simEnd = false
        ∧ sentStates ((demoSession [10, 20]).NotifyCurrentState demoPlatform
            (demoPeer [⟨10, ⟨[7]⟩⟩]) 0).events ≠ []
        ∧ executed ((demoSession [10, 20]).NotifyCurrentState demoPlatform
            (demoPeer [⟨10, ⟨[7]⟩⟩]) 0).events = [(10, some ⟨⟨[7]⟩⟩)]
        ∧ actionCbCalls ((demoSession [10, 20]).NotifyCurrentState demoPlatform
            (demoPeer [⟨10, ⟨[7]⟩⟩]) 0).events = [(10, some ⟨⟨[7]⟩⟩)])
      ∧ executed ((demoSession [10, 20]).NotifyCurrentState demoPlatform
          (demoPeer []) 0).events = [] :=
  ⟨⟨rfl, rfl, by decide,
      (C2_actions_follow_reply demoPlatform (demoPeer [⟨10, ⟨[7]⟩⟩]) (demoSession [10, 20]) 0
        rfl rfl (by decide)).1,
      (C2_actions_follow_reply demoPlatform (demoPeer [⟨10, ⟨[7]⟩⟩]) (demoSession [10, 20]) 0
        rfl rfl (by decide)).2.2.2 rfl⟩,
    (C2_actions_follow_reply demoPlatform (demoPeer []) (demoSession [10, 20]) 0
      rfl rfl (by decide)).1⟩

/-! ## The flags and the registry across one call -/

namespace OpenGymMultiInterface

variable {ε : Type}

theorem Init_stop_mono (p : Platform) (peer : PeerReplies) (s : OpenGymMultiInterface ε)
    (e : ε) (h : s.m_stopEnvRequested = true) :
    (s.Init p peer e).self.m_stopEnvRequested = true := by
  unfold Init; split_ifs <;> simp [h]

theorem Init_sent_mono (p : Platform) (peer : PeerReplies) (s : OpenGymMultiInterface ε)
    (e : ε) (h : s.m_initSimMsgSent = true) :
    (s.Init p peer e).self.m_initSimMsgSent = true := by
  simp [Init, h]

theorem initPhase_stop_mono (p : Platform) (peer : PeerReplies)
    (s : OpenGymMultiInterface ε) (e : ε) (h : s.m_stopEnvRequested = true) :
    (s.initPhase p peer e).self.m_stopEnvRequested = true := by
  unfold initPhase; split_ifs
  · exact h
  · exact Init_stop_mono p peer s e h

theorem initPhase_sent_mono (p : Platform) (peer : PeerReplies)
    (s : OpenGymMultiInterface ε) (e : ε) (h : s.m_initSimMsgSent = true) :
    (s.initPhase p peer e).self.m_initSimMsgSent = true := by
  simp [initPhase, h]

theorem initPhase_of_sent (p : Platform) (peer : PeerReplies) (s : OpenGymMultiInterface ε)
    (e : ε) (h : s.m_initSimMsgSent = true) : s.initPhase p peer e = ⟨s, e, [], false⟩ := by
  simp [initPhase, h]

theorem NotifyCurrentState_agentIdVec (p : Platform) (peer : PeerReplies)
    (s : OpenGymMultiInterface ε) (e : ε) :
    (s.NotifyCurrentState p peer e).self.m_agentIdVec = s.m_agentIdVec := by
  have h := initPhase_agentIdVec p peer s e
  unfold NotifyCurrentState
  simp only []
  split_ifs <;> exact h

theorem NotifyCurrentState_simEnd (p : Platform) (peer : PeerReplies)
    (s : OpenGymMultiInterface ε) (e : ε) :
    (s.NotifyCurrentState p peer e).self.m_simEnd = s.m_simEnd := by
  have h := initPhase_simEnd p peer s e
  unfold NotifyCurrentState
  simp only []
  split_ifs <;> exact h

theorem NotifyCurrentState_stop_mono (p : Platform) (peer : PeerReplies)
    (s : OpenGymMultiInterface ε) (e : ε) (h : s.m_stopEnvRequested = true) :
    (s.NotifyCurrentState p peer e).self.m_stopEnvRequested = true := by
  have hi := initPhase_stop_mono p peer s e h
  unfold NotifyCurrentState
  simp only []
  split_ifs <;> exact hi

theorem NotifyCurrentState_sent_mono (p : Platform) (peer : PeerReplies)
    (s : OpenGymMultiInterface ε) (e : ε) (h : s.m_initSimMsgSent = true) :
    (s.NotifyCurrentState p peer e).self.m_initSimMsgSent = true := by
  have hi := initPhase_sent_mono p peer s e h
  unfold NotifyCurrentState
  simp only []
  split_ifs <;> exact hi

theorem Notify_eq (p : Platform) (peer : PeerReplies) (s : OpenGymMultiInterface ε)
    (entity : EnvMethods ε) (e : ε) :
    s.Notify p peer entity e = (s.withEntity entity).NotifyCurrentState p peer e := rfl

@[simp] theorem withEntity_agentIdVec (s : OpenGymMultiInterface ε) (entity : EnvMethods ε) :
    (s.withEntity entity).m_agentIdVec = s.m_agentIdVec := rfl

@[simp] theorem withEntity_simEnd (s : OpenGymMultiInterface ε) (entity : EnvMethods ε) :
    (s.withEntity entity).m_simEnd = s.m_simEnd := rfl

@[simp] theorem withEntity_stop (s : OpenGymMultiInterface ε) (entity : EnvMethods ε) :
    (s.withEntity entity).m_stopEnvRequested = s.m_stopEnvRequested := rfl

@[simp] theorem withEntity_sent (s : OpenGymMultiInterface ε) (entity : EnvMethods ε) :
    (s.withEntity entity).m_initSimMsgSent = s.m_initSimMsgSent := rfl

/-- After the init phase the init message was sent or the registry is empty. -/
theorem initPhase_sent_or_empty (p : Platform) (peer : PeerReplies)
    (s : OpenGymMultiInterface ε) (e : ε) :
    (s.initPhase p peer e).self.m_initSimMsgSent = true
      ∨ (s.initPhase p peer e).self.m_agentIdVec = [] := by
  unfold initPhase Init
  split_ifs with h1 h2 <;> simp_all

theorem NotifySimulationEnd_agentIdVec (p : Platform) (peer : PeerReplies)
    (s : OpenGymMultiInterface ε) (e : ε) :
    (s.NotifySimulationEnd p peer e).self.m_agentIdVec = s.m_agentIdVec := by
  unfold NotifySimulationEnd WaitForStop
  simp only []
  split_ifs
  · exact NotifyCurrentState_agentIdVec p peer _ e
  · rfl

theorem NotifySimulationEnd_stop_mono (p : Platform) (peer : PeerReplies)
    (s : OpenGymMultiInterface ε) (e : ε) (h : s.m_stopEnvRequested = true) :
    (s.NotifySimulationEnd p peer e).self.m_stopEnvRequested = true := by
  unfold NotifySimulationEnd WaitForStop
  simp only []
  split_ifs
  · exact NotifyCurrentState_stop_mono p peer _ e h
  · exact h

theorem NotifySimulationEnd_sent_mono (p : Platform) (peer : PeerReplies)
    (s : OpenGymMultiInterface ε) (e : ε) (h : s.m_initSimMsgSent = true) :
    (s.NotifySimulationEnd p peer e).self.m_initSimMsgSent = true := by
  unfold NotifySimulationEnd WaitForStop
  simp only [h, if_true]
  exact NotifyCurrentState_sent_mono p peer _ e rfl

end OpenGymMultiInterface

/-! ## The flags across a sequence of calls -/

section Sequences

variable {ε : Type}

open OpenGymMultiInterface

/-- No public member function resets `m_stopEnvRequested`. -/
theorem Op.apply_stop_mono (p : Platform) (op : Op ε) (s : OpenGymMultiInterface ε) (e : ε)
    (h : s.m_stopEnvRequested = true) : (op.apply p s e).self.m_stopEnvRequested = true := by
  cases op with
  | Init peer => exact Init_stop_mono p peer s e h
  | Notify entity peer => exact NotifyCurrentState_stop_mono p peer _ e h
  | NotifyCurrentState peer => exact NotifyCurrentState_stop_mono p peer s e h
  | WaitForStop peer => exact NotifyCurrentState_stop_mono p peer s e h
  | NotifySimulationEnd peer => exact NotifySimulationEnd_stop_mono p peer s e h
  | _ => exact h

/-- No public member function resets `m_initSimMsgSent`. -/
theorem Op.apply_sent_mono (p : Platform) (op : Op ε) (s : OpenGymMultiInterface ε) (e : ε)
    (h : s.m_initSimMsgSent = true) : (op.apply p s e).self.m_initSimMsgSent = true := by
  cases op with
  | Init peer => exact Init_sent_mono p peer s e h
  | Notify entity peer => exact NotifyCurrentState_sent_mono p peer _ e h
  | NotifyCurrentState peer => exact NotifyCurrentState_sent_mono p peer s e h
  | WaitForStop peer => exact NotifyCurrentState_sent_mono p peer s e h
  | NotifySimulationEnd peer => exact NotifySimulationEnd_sent_mono p peer s e h
  | _ => exact h

theorem run_stop_mono (p : Platform) (ops : List (Op ε)) (s : OpenGymMultiInterface ε)
    (e : ε) (h : s.m_stopEnvRequested = true) :
    (run p ops s e).self.m_stopEnvRequested = true := by
  induction ops generalizing s e with
  | nil => exact h
  | cons op rest ih =>
    have h1 := Op.apply_stop_mono p op s e h
    simp only [run]
    split_ifs
    · exact h1
    · exact ih _ _ h1

theorem run_sent_mono (p : Platform) (ops : List (Op ε)) (s : OpenGymMultiInterface ε)
    (e : ε) (h : s.m_initSimMsgSent = true) :
    (run p ops s e).self.m_initSimMsgSent = true := by
  induction ops generalizing s e with
  | nil => exact h
  | cons op rest ih =>
    have h1 := Op.apply_sent_mono p op s e h
    simp only [run]
    split_ifs
    · exact h1
    · exact ih _ _ h1

end Sequences

/-! ## C3: a stop request in the reply -/

/-- C3 (as amended): when the reply to a state batch asks for a stop,
`NotifyCurrentState` makes no `ExecuteActions` call and invokes no action
callback in that step, whatever records the reply carries; and when the step
began with `m_simEnd` unset, `m_stopEnvRequested` is true afterwards and stays
true through every later sequence of calls of public member functions. When the
step began with `m_simEnd` set, the reply is ignored: `m_stopEnvRequested` is
left as the init phase left it, so as it was when the init message had been
sent, and `NotifySimulationEnd` leaves it as it was in every session. -/
theorem C3_stop_reply_executes_nothing (p : Platform) (peer : PeerReplies)
    (s : OpenGymMultiInterface ε) (e : ε) (hstop : peer.reply.msg.stopsimreq = true) :
    executed (s.NotifyCurrentState p peer e).events = []
      ∧ actionCbCalls (s.NotifyCurrentState p peer e).events = []
      ∧ (s.m_simEnd = false →
          (s.NotifyCurrentState p peer e).self.m_stopEnvRequested = true
            ∧ ∀ (q : Platform) (ops : List (Op ε)) (e1 : ε),
                (run q ops (s.NotifyCurrentState p peer e).self e1).self.m_stopEnvRequested
                  = true)
      ∧ (s.m_simEnd = true →
          (s.NotifyCurrentState p peer e).self.m_stopEnvRequested
              = (s.initPhase p peer e).self.m_stopEnvRequested
            ∧ (s.m_initSimMsgSent = true →
                (s.NotifyCurrentState p peer e).self.m_stopEnvRequested
                  = s.m_stopEnvRequested))
      ∧ (s.NotifySimulationEnd p peer e).self.m_stopEnvRequested = s.m_stopEnvRequested := by
  have hi := OpenGymMultiInterface.initPhase_events_views p peer s e
  have hse := OpenGymMultiInterface.initPhase_simEnd p peer s e
  have hx := OpenGymMultiInterface.initPhase_exited p peer s e
  have hq := fun (t : OpenGymMultiInterface ε) ids e =>
    views_of_isQuery (OpenGymMultiInterface.collectStates_isQuery t ids e)
  have hflush : ∀ t : OpenGymMultiInterface ε, t.m_simEnd = true →
      (t.NotifyCurrentState p peer e).self.m_stopEnvRequested
        = (t.initPhase p peer e).self.m_stopEnvRequested := by
    intro t ht
    have hte := OpenGymMultiInterface.initPhase_simEnd p peer t e
    unfold OpenGymMultiInterface.NotifyCurrentState
    simp only [hte, ht, if_true]
    split_ifs <;> rfl
  refine ⟨?_, ?_, ?_, ?_, ?_⟩
  · unfold OpenGymMultiInterface.NotifyCurrentState
    simp only [hstop]
    split_ifs <;> simp [hi, hq]
  · unfold OpenGymMultiInterface.NotifyCurrentState
    simp only [hstop]
    split_ifs <;> simp [hi, hq]
  · intro hend
    have hset : (s.NotifyCurrentState p peer e).self.m_stopEnvRequested = true := by
      unfold OpenGymMultiInterface.NotifyCurrentState
      simp only [hstop, hse, hend, Bool.false_eq_true, if_false, if_true]
      split_ifs with h1 h2
      · exact hx h1
      · exact h2
      · rfl
    exact ⟨hset, fun q ops e1 => run_stop_mono q ops _ e1 hset⟩
  · intro hend
    refine ⟨hflush s hend, fun hsent => ?_⟩
    rw [hflush s hend, OpenGymMultiInterface.initPhase_of_sent p peer s e hsent]
  · unfold OpenGymMultiInterface.NotifySimulationEnd OpenGymMultiInterface.WaitForStop
    simp only []
    split_ifs with hsent
    · rw [hflush { s with m_simEnd := true } rfl,
        OpenGymMultiInterface.initPhase_of_sent p peer { s with m_simEnd := true } e hsent]
    · rfl

/-- C3, instance: with the registry 10, 20 and a stop reply that carries an
action for 10, nothing is executed and the stop flag is set. -/
theorem C3_stop_reply_executes_nothing_witness :
    (demoStopPeer [⟨10, ⟨[7]⟩⟩]).reply.msg.stopsimreq = true
      ∧ (demoSession [10, 20]).m_simEnd = false
      ∧ executed ((demoSession [10, 20]).NotifyCurrentState demoPlatform
          (demoStopPeer [⟨10, ⟨[7]⟩⟩]) 0).events = []
      ∧ ((demoSession [10, 20]).NotifyCurrentState demoPlatform
          (demoStopPeer [⟨10, ⟨[7]⟩⟩]) 0).self.m_stopEnvRequested = true :=
  ⟨rfl, rfl,
    (C3_stop_reply_executes_nothing demoPlatform (demoStopPeer [⟨10, ⟨[7]⟩⟩])
      (demoSession [10, 20]) 0 rfl).1,
    ((C3_stop_reply_executes_nothing demoPlatform (demoStopPeer [⟨10, ⟨[7]⟩⟩])
      (demoSession [10, 20]) 0 rfl).2.2.1 rfl).1⟩

/-- C3, as first stated, fails in the flush step: after `Init`, the step that
`NotifySimulationEnd` makes sends its state batch, receives a reply that asks
for a stop, and leaves `m_stopEnvRequested` false. -/
theorem C3_stop_reply_ignored_in_flush :
    (demoStopPeer []).reply.msg.stopsimreq = true
      ∧ (sentStates (run demoPlatform
          [Op.Init (demoPeer []), Op.NotifySimulationEnd (demoStopPeer [])]
          (demoSession [1]) 0).events).length = 1
      ∧ (run demoPlatform [Op.Init (demoPeer []), Op.NotifySimulationEnd (demoStopPeer [])]
          (demoSession [1]) 0).self.m_stopEnvRequested = false := by
  decide

/-! ## C4: the init message is sent once -/

@[simp] theorem spaceQueries_cons (a : Event) (t : List Event) :
    spaceQueries (a :: t)
      = (match a with
          | .callback .actionSpace i => [(CbKind.actionSpace, i)]
          | .callback .observationSpace i => [(CbKind.observationSpace, i)]
          | _ => []) ++ spaceQueries t := by
  rw [show a :: t = [a] ++ t from rfl, spaceQueries_append]
  cases a with
  | callback k i => cases k <;> rfl
  | _ => rfl

@[simp] theorem stateQueries_cons (a : Event) (t : List Event) :
    stateQueries (a :: t)
      = (match a with
          | .callback .observation i => [(CbKind.observation, i)]
          | .callback .reward i => [(CbKind.reward, i)]
          | .callback .done i => [(CbKind.done, i)]
          | .callback .info i => [(CbKind.info, i)]
          | _ => []) ++ stateQueries t := by
  rw [show a :: t = [a] ++ t from rfl, stateQueries_append]
  cases a with
  | callback k i => cases k <;> rfl
  | _ => rfl

namespace OpenGymMultiInterface

/-- The first `Init` on a non-empty registry connects once, queries the spaces
and sends one init message that lists the registry. -/
theorem Init_first (p : Platform) (peer : PeerReplies) (s : OpenGymMultiInterface ε) (e : ε)
    (hfresh : s.m_initSimMsgSent = false) (hreg : s.m_agentIdVec ≠ []) :
    sentInits (s.Init p peer e).events
        = [⟨p.getpid, p.getppid,
            (initAgents { s with m_initSimMsgSent := true } s.m_agentIdVec e).val⟩]
      ∧ connects (s.Init p peer e).events = [s.connectAddr]
      ∧ (s.Init p peer e).self.m_initSimMsgSent = true := by
  have hq := fun e => views_of_isQuery
    (initAgents_isQuery { s with m_initSimMsgSent := true } s.m_agentIdVec e)
  have hw := views_of_isLog (waitingLog_isLog p { s with m_initSimMsgSent := true })
  unfold Init
  simp only [hfresh, Bool.false_eq_true, if_false, List.length_eq_zero, hreg]
  split_ifs <;> simp [hq, hw, connectAddr]

/-- After the init phase of `NotifyCurrentState` no init message is sent, no
connection made and no space queried. -/
theorem NotifyCurrentState_init_views (p : Platform) (peer : PeerReplies)
    (s : OpenGymMultiInterface ε) (e : ε) :
    sentInits (s.NotifyCurrentState p peer e).events = sentInits (s.initPhase p peer e).events
      ∧ connects (s.NotifyCurrentState p peer e).events
          = connects (s.initPhase p peer e).events
      ∧ spaceQueries (s.NotifyCurrentState p peer e).events
          = spaceQueries (s.initPhase p peer e).events := by
  have hq := fun (t : OpenGymMultiInterface ε) ids e =>
    views_of_isQuery (collectStates_isQuery t ids e)
  have hs := fun (t : OpenGymMultiInterface ε) ids e =>
    spaceQueries_of_isStateQuery (collectStates_isStateQuery t ids e)
  have ha := fun (t : OpenGymMultiInterface ε) acts e =>
    views_of_isAction (executeLoop_isAction p t acts e)
  have hb := fun (t : OpenGymMultiInterface ε) acts e =>
    spaceQueries_of_queries_nil (ha t acts e).2.2.2.1
  unfold NotifyCurrentState
  simp only []
  split_ifs <;> simp [hq, hs, ha, hb]

end OpenGymMultiInterface

section InitOnce

open OpenGymMultiInterface

/-- The first init-triggering call on a non-empty registry sends one init
message and sets `m_initSimMsgSent`. -/
theorem Op.apply_first (p : Platform) (op : Op ε) (s : OpenGymMultiInterface ε) (e : ε)
    (hop : op.isInitPath = true) (hfresh : s.m_initSimMsgSent = false)
    (hreg : s.m_agentIdVec ≠ []) :
    (sentInits (op.apply p s e).events).length = 1
      ∧ (op.apply p s e).self.m_initSimMsgSent = true := by
  have key : ∀ t : OpenGymMultiInterface ε, t.m_initSimMsgSent = false → t.m_agentIdVec ≠ [] →
      ∀ peer, (sentInits (t.NotifyCurrentState p peer e).events).length = 1
        ∧ (t.NotifyCurrentState p peer e).self.m_initSimMsgSent = true := by
    intro t ht hr peer
    have h1 := Init_first p peer t e ht hr
    have hph : t.initPhase p peer e = t.Init p peer e := by simp [initPhase, ht]
    refine ⟨?_, ?_⟩
    · rw [(NotifyCurrentState_init_views p peer t e).1, hph, h1.1]; rfl
    · have h2 := h1.2.2
      rw [← hph] at h2
      unfold OpenGymMultiInterface.NotifyCurrentState
      simp only []
      split_ifs <;> exact h2
  cases op with
  | Init peer =>
    have h1 := Init_first p peer s e hfresh hreg
    exact ⟨by simp [Op.apply, h1.1], h1.2.2⟩
  | Notify entity peer => exact key (s.withEntity entity) hfresh hreg peer
  | NotifyCurrentState peer => exact key s hfresh hreg peer
  | WaitForStop peer => exact key s hfresh hreg peer
  | _ => cases hop

/-- Once the init message was sent, no call of whatever member function sends
another or connects again. -/
theorem Op.apply_sent (p : Platform) (op : Op ε) (s : OpenGymMultiInterface ε) (e : ε)
    (hsent : s.m_initSimMsgSent = true) :
    sentInits (op.apply p s e).events = [] ∧ connects (op.apply p s e).events = [] := by
  have key : ∀ t : OpenGymMultiInterface ε, t.m_initSimMsgSent = true →
      ∀ peer, sentInits (t.NotifyCurrentState p peer e).events = []
        ∧ connects (t.NotifyCurrentState p peer e).events = [] := by
    intro t ht peer
    have h := NotifyCurrentState_init_views p peer t e
    rw [initPhase_of_sent p peer t e ht] at h
    exact ⟨h.1, h.2.1⟩
  cases op with
  | Init peer => simp [Op.apply, Init_of_sent p peer s e hsent]
  | Notify entity peer => exact key (s.withEntity entity) hsent peer
  | NotifyCurrentState peer => exact key s hsent peer
  | WaitForStop peer => exact key s hsent peer
  | NotifySimulationEnd peer =>
    show sentInits (s.NotifySimulationEnd p peer e).events = []
      ∧ connects (s.NotifySimulationEnd p peer e).events = []
    unfold OpenGymMultiInterface.NotifySimulationEnd OpenGymMultiInterface.WaitForStop
    simp only [hsent, if_true]
    exact key _ rfl peer
  | AddAgent a => exact ⟨rfl, rfl⟩
  | GetActionSpace a =>
    exact ⟨(views_of_isQuery fun ev h =>
        isQuery_of_isSpaceQuery (GetActionSpace_isSpaceQuery s a e ev h)).1,
      (views_of_isQuery fun ev h =>
        isQuery_of_isSpaceQuery (GetActionSpace_isSpaceQuery s a e ev h)).2.2.2.2.2⟩
  | GetObservationSpace a =>
    exact ⟨(views_of_isQuery fun ev h =>
        isQuery_of_isSpaceQuery (GetObservationSpace_isSpaceQuery s a e ev h)).1,
      (views_of_isQuery fun ev h =>
        isQuery_of_isSpaceQuery (GetObservationSpace_isSpaceQuery s a e ev h)).2.2.2.2.2⟩
  | GetObservation a =>
    exact ⟨(views_of_isQuery fun ev h =>
        isQuery_of_isStateQuery (GetObservation_isStateQuery s a e ev h)).1,
      (views_of_isQuery fun ev h =>
        isQuery_of_isStateQuery (GetObservation_isStateQuery s a e ev h)).2.2.2.2.2⟩
  | GetReward a =>
    exact ⟨(views_of_isQuery fun ev h =>
        isQuery_of_isStateQuery (GetReward_isStateQuery s a e ev h)).1,
      (views_of_isQuery fun ev h =>
        isQuery_of_isStateQuery (GetReward_isStateQuery s a e ev h)).2.2.2.2.2⟩
  | GetDone a =>
    exact ⟨(views_of_isQuery fun ev h =>
        isQuery_of_isStateQuery (GetDone_isStateQuery s a e ev h)).1,
      (views_of_isQuery fun ev h =>
        isQuery_of_isStateQuery (GetDone_isStateQuery s a e ev h)).2.2.2.2.2⟩
  | GetInfo a =>
    exact ⟨(views_of_isQuery fun ev h =>
        isQuery_of_isStateQuery (GetInfo_isStateQuery s a e ev h)).1,
      (views_of_isQuery fun ev h =>
        isQuery_of_isStateQuery (GetInfo_isStateQuery s a e ev h)).2.2.2.2.2⟩
  | ExecuteActions a x =>
    exact ⟨(views_of_isAction (ExecuteActions_isAction s a x e)).1,
      (views_of_isAction (ExecuteActions_isAction s a x e)).2.2.2.2⟩
  | _ => exact ⟨rfl, rfl⟩

/-- Once the init message was sent, an init-triggering call queries no space. -/
theorem Op.apply_sent_spaceQueries (p : Platform) (op : Op ε) (s : OpenGymMultiInterface ε)
    (e : ε) (hop : op.isInitPath = true) (hsent : s.m_initSimMsgSent = true) :
    spaceQueries (op.apply p s e).events = [] := by
  have key : ∀ t : OpenGymMultiInterface ε, t.m_initSimMsgSent = true →
      ∀ peer, spaceQueries (t.NotifyCurrentState p peer e).events = [] := by
    intro t ht peer
    have h := NotifyCurrentState_init_views p peer t e
    rw [initPhase_of_sent p peer t e ht] at h
    exact h.2.2
  cases op with
  | Init peer => simp [Op.apply, Init_of_sent p peer s e hsent]
  | Notify entity peer => exact key (s.withEntity entity) hsent peer
  | NotifyCurrentState peer => exact key s hsent peer
  | WaitForStop peer => exact key s hsent peer
  | _ => cases hop

/-- Once the init message was sent, no sequence of calls sends another. -/
theorem run_sent (p : Platform) (ops : List (Op ε)) (s : OpenGymMultiInterface ε) (e : ε)
    (hsent : s.m_initSimMsgSent = true) : sentInits (run p ops s e).events = [] := by
  induction ops generalizing s e with
  | nil => rfl
  | cons op rest ih =>
    have h1 := (Op.apply_sent p op s e hsent).1
    have h2 := Op.apply_sent_mono p op s e hsent
    simp only [run]
    split_ifs
    · exact h1
    · simp [h1, ih _ _ h2]

end InitOnce

/-- C4: in a session with a non-empty registry whose init message is not yet
sent, any sequence of more than one init-triggering call (`Init`, or a member
function that begins with `NotifyCurrentState`) sends exactly one
`MultiAgentInitMsg` in total. Every call after the first finds
`m_initSimMsgSent` set: it sends no init message, does not connect and queries no
space callback; `Init`, and the init phase of `NotifyCurrentState`, return at
once with no event, leaving the session and the simulation state as they were. -/
theorem C4_init_sent_once (p : Platform) (calls : List (Op ε)) (s : OpenGymMultiInterface ε)
    (e : ε) (hreg : s.m_agentIdVec ≠ []) (hfresh : s.m_initSimMsgSent = false)
    (hpath : ∀ c ∈ calls, c.isInitPath = true) (hN : 1 < calls.length) :
    (sentInits (run p calls s e).events).length = 1
      ∧ ∀ (pre : List (Op ε)) (c : Op ε) (post : List (Op ε)),
          calls = pre ++ c :: post → pre ≠ [] →
            (run p pre s e).self.m_initSimMsgSent = true
              ∧ sentInits (c.apply p (run p pre s e).self (run p pre s e).env).events = []
              ∧ connects (c.apply p (run p pre s e).self (run p pre s e).env).events = []
              ∧ spaceQueries (c.apply p (run p pre s e).self (run p pre s e).env).events = []
              ∧ ∀ peer : PeerReplies,
                  (run p pre s e).self.Init p peer (run p pre s e).env
                      = ⟨(run p pre s e).self, (run p pre s e).env, [], false⟩
                    ∧ (run p pre s e).self.initPhase p peer (run p pre s e).env
                      = ⟨(run p pre s e).self, (run p pre s e).env, [], false⟩ := by
  have hrun : ∀ (l : List (Op ε)), l ≠ [] → (∀ c ∈ l, c.isInitPath = true) →
      (sentInits (run p l s e).events).length = 1
        ∧ (run p l s e).self.m_initSimMsgSent = true := by
    intro l hl hp
    cases l with
    | nil => exact absurd rfl hl
    | cons c rest =>
      have h1 := Op.apply_first p c s e (hp c (by simp)) hfresh hreg
      simp only [run]
      split_ifs
      · exact h1
      · exact ⟨by simp [h1.1, run_sent p rest _ _ h1.2], run_sent_mono p rest _ _ h1.2⟩
  refine ⟨(hrun calls (by intro h; simp [h] at hN) hpath).1, ?_⟩
  intro pre c post hsplit hpre
  have hc : c.isInitPath = true := hpath c (by simp [hsplit])
  have hsent : (run p pre s e).self.m_initSimMsgSent = true :=
    (hrun pre hpre (fun c hc => hpath c (by simp [hsplit, hc]))).2
  refine ⟨hsent, (Op.apply_sent p c _ _ hsent).1, (Op.apply_sent p c _ _ hsent).2,
    Op.apply_sent_spaceQueries p c _ _ hc hsent, ?_⟩
  intro peer
  exact ⟨OpenGymMultiInterface.Init_of_sent p peer _ _ hsent,
    OpenGymMultiInterface.initPhase_of_sent p peer _ _ hsent⟩

/-- C4, instance: `Init`, a step and `Init` again on the registry 10, 20 send one
init message between them. -/
theorem C4_init_sent_once_witness :
    (demoSession [10, 20]).m_agentIdVec ≠ []
      ∧ (demoSession [10, 20]).m_initSimMsgSent = false
      ∧ (sentInits (run demoPlatform
          [Op.Init (demoPeer []), Op.NotifyCurrentState (demoPeer []), Op.Init (demoPeer [])]
          (demoSession [10, 20]) 0).events).length = 1 :=
  ⟨by decide, rfl,
    (C4_init_sent_once demoPlatform
      [Op.Init (demoPeer []), Op.NotifyCurrentState (demoPeer []), Op.Init (demoPeer [])]
      (demoSession [10, 20]) 0 (by decide) rfl
      (by
        intro c hc
        simp only [List.mem_cons, List.mem_singleton, List.not_mem_nil, or_false] at hc
        rcases hc with rfl | rfl | rfl <;> rfl)
      (by decide)).1⟩

/-! ## C5, C6: the end of the simulation -/

/-- C5: `NotifySimulationEnd` on a session whose init message was not sent
produces no event at all (no send, no receive, no callback), leaves the
simulation state untouched and only sets `m_simEnd`; the same holds through
`OpenGymMultiEnv::NotifySimulationEnd`. -/
theorem C5_end_before_init_is_silent (p : Platform) (peer : PeerReplies)
    (s : OpenGymMultiInterface ε) (e : ε) (h : s.m_initSimMsgSent = false) :
    s.NotifySimulationEnd p peer e = ⟨{ s with m_simEnd := true }, e, [], false⟩
      ∧ transport (s.NotifySimulationEnd p peer e).events = []
      ∧ queries (s.NotifySimulationEnd p peer e).events = []
      ∧ executed (s.NotifySimulationEnd p peer e).events = []
      ∧ ∀ env : OpenGymMultiEnv ε, env.m_openGymMultiInterface = some s →
          (env.NotifySimulationEnd p peer e).events = []
            ∧ (env.NotifySimulationEnd p peer e).env = e := by
  have h1 : s.NotifySimulationEnd p peer e = ⟨{ s with m_simEnd := true }, e, [], false⟩ := by
    simp [OpenGymMultiInterface.NotifySimulationEnd, h]
  refine ⟨h1, by rw [h1]; rfl, by rw [h1]; rfl, by rw [h1]; rfl, ?_⟩
  intro env henv
  simp [OpenGymMultiEnv.NotifySimulationEnd, henv, h1]

/-- C5, instance: the end-of-simulation signal on a session with the registry
1, 2 before any step. -/
theorem C5_end_before_init_is_silent_witness :
    (demoSession [1, 2]).m_initSimMsgSent = false
      ∧ ((demoSession [1, 2]).NotifySimulationEnd demoPlatform (demoPeer []) 0).events = [] :=
  ⟨rfl, by
    rw [(C5_end_before_init_is_silent demoPlatform (demoPeer []) (demoSession [1, 2]) 0
      rfl).1]⟩

namespace OpenGymMultiInterface

/-- A step of a session whose init message was sent, which has no stop request
and whose `m_simEnd` is set: the callbacks are queried, the state batch is sent,
one reply is received, and nothing else happens. -/
theorem NotifyCurrentState_flush (p : Platform) (peer : PeerReplies)
    (s : OpenGymMultiInterface ε) (e : ε) (hsent : s.m_initSimMsgSent = true)
    (hstop : s.m_stopEnvRequested = false) (hend : s.m_simEnd = true) :
    s.NotifyCurrentState p peer e
      = ⟨s, (s.collectStates s.m_agentIdVec e).env,
          (s.collectStates s.m_agentIdVec e).events
            ++ [Event.sendState ⟨(s.collectStates s.m_agentIdVec e).val⟩, Event.recv],
          false⟩ := by
  unfold NotifyCurrentState
  simp [initPhase_of_sent p peer s e hsent, hstop, hend]

end OpenGymMultiInterface

/-- C6: `NotifySimulationEnd` on a session whose init message was sent and which
has no stop request makes exactly one more round trip: its socket operations are
one send of a `MultiAgentStateMsg` that lists every registered agent in registry
order, followed by one receive; nothing is executed, and `m_simEnd` is set. -/
theorem C6_end_after_init_flushes_once (p : Platform) (peer : PeerReplies)
    (s : OpenGymMultiInterface ε) (e : ε) (hsent : s.m_initSimMsgSent = true)
    (hstop : s.m_stopEnvRequested = false) :
    (∃ m : MultiAgentStateMsg,
        transport (s.NotifySimulationEnd p peer e).events = [Event.sendState m, Event.recv]
          ∧ sentStates (s.NotifySimulationEnd p peer e).events = [m]
          ∧ m.agentstatemsg.map AgentStateMsg.agentid = s.m_agentIdVec)
      ∧ sentInits (s.NotifySimulationEnd p peer e).events = []
      ∧ executed (s.NotifySimulationEnd p peer e).events = []
      ∧ (s.NotifySimulationEnd p peer e).self.m_simEnd = true
      ∧ (s.NotifySimulationEnd p peer e).exited = false := by
  have hq := fun (t : OpenGymMultiInterface ε) ids e =>
    views_of_isQuery (OpenGymMultiInterface.collectStates_isQuery t ids e)
  have hf := OpenGymMultiInterface.NotifyCurrentState_flush p peer
    { s with m_simEnd := true } e hsent hstop rfl
  have h1 : s.NotifySimulationEnd p peer e
      = OpenGymMultiInterface.NotifyCurrentState p peer { s with m_simEnd := true } e := by
    simp [OpenGymMultiInterface.NotifySimulationEnd, OpenGymMultiInterface.WaitForStop, hsent]
  rw [h1, hf]
  refine ⟨⟨⟨(OpenGymMultiInterface.collectStates { s with m_simEnd := true }
      s.m_agentIdVec e).val⟩, ?_, ?_, OpenGymMultiInterface.collectStates_ids _ _ _⟩,
    ?_, ?_, rfl, rfl⟩ <;> simp [hq]

/-- C6, instance: after `Init` on the registry 10, 20 the end-of-simulation
signal sends one state batch and receives one reply. -/
theorem C6_end_after_init_flushes_once_witness :
    ((demoSession [10, 20]).Init demoPlatform (demoPeer []) 0).self.m_initSimMsgSent = true
      ∧ ((demoSession [10, 20]).Init demoPlatform (demoPeer []) 0).self.m_stopEnvRequested
          = false
      ∧ (transport (((demoSession [10, 20]).Init demoPlatform (demoPeer [])
          0).self.NotifySimulationEnd demoPlatform (demoPeer []) 0).events).length = 2 :=
  ⟨rfl, rfl, by
    obtain ⟨m, hm, _⟩ := (C6_end_after_init_flushes_once demoPlatform (demoPeer [])
      ((demoSession [10, 20]).Init demoPlatform (demoPeer []) 0).self 0 rfl rfl).1
    rw [hm]; rfl⟩

/-! ## Sessions in which a stop request is recorded -/

namespace OpenGymMultiInterface

theorem Init_halted (p : Platform) (peer : PeerReplies) (s : OpenGymMultiInterface ε) (e : ε)
    (h : Halted s) :
    (s.Init p peer e).self = s ∧ (s.Init p peer e).env = e ∧ (s.Init p peer e).exited = false
      ∧ ∀ ev ∈ (s.Init p peer e).events, ev.isLog = true := by
  rcases h with ⟨_, hs | hr⟩
  · rw [Init_of_sent p peer s e hs]
    exact ⟨rfl, rfl, rfl, by simp⟩
  · by_cases hs : s.m_initSimMsgSent = true
    · rw [Init_of_sent p peer s e hs]
      exact ⟨rfl, rfl, rfl, by simp⟩
    · rw [Init_of_empty p peer s e (by simpa using hs) hr]
      exact ⟨rfl, rfl, rfl, emptyRegistryLog_isLog s⟩

theorem NotifyCurrentState_halted (p : Platform) (peer : PeerReplies)
    (s : OpenGymMultiInterface ε) (e : ε) (h : Halted s) :
    (s.NotifyCurrentState p peer e).self = s ∧ (s.NotifyCurrentState p peer e).env = e
      ∧ (s.NotifyCurrentState p peer e).exited = false
      ∧ ∀ ev ∈ (s.NotifyCurrentState p peer e).events, ev.isLog = true := by
  have hi : (s.initPhase p peer e).self = s ∧ (s.initPhase p peer e).env = e
      ∧ (s.initPhase p peer e).exited = false
      ∧ ∀ ev ∈ (s.initPhase p peer e).events, ev.isLog = true := by
    unfold initPhase
    split_ifs
    · exact ⟨rfl, rfl, rfl, by simp⟩
    · exact Init_halted p peer s e h
  have hstop : (s.initPhase p peer e).self.m_stopEnvRequested = true := by
    rw [hi.1]; exact h.1
  have heq : s.NotifyCurrentState p peer e = s.initPhase p peer e := by
    unfold NotifyCurrentState
    simp [hi.2.2.1, hstop]
  rw [heq]
  exact hi

theorem NotifySimulationEnd_halted (p : Platform) (peer : PeerReplies)
    (s : OpenGymMultiInterface ε) (e : ε) (h : Halted s) :
    Halted (s.NotifySimulationEnd p peer e).self ∧ (s.NotifySimulationEnd p peer e).env = e
      ∧ (s.NotifySimulationEnd p peer e).exited = false
      ∧ ∀ ev ∈ (s.NotifySimulationEnd p peer e).events, ev.isLog = true := by
  have h1 : Halted { s with m_simEnd := true } := h
  have h2 := NotifyCurrentState_halted p peer { s with m_simEnd := true } e h1
  unfold NotifySimulationEnd WaitForStop
  simp only []
  split_ifs
  · rw [h2.1]
    exact ⟨h1, h2.2⟩
  · exact ⟨h1, rfl, rfl, by simp⟩

end OpenGymMultiInterface

section AfterStop

open OpenGymMultiInterface

theorem Op.apply_halted (p : Platform) (op : Op ε) (s : OpenGymMultiInterface ε) (e : ε)
    (hop : op.isStepOrEnd = true) (h : Halted s) :
    Halted (op.apply p s e).self ∧ (op.apply p s e).env = e ∧ (op.apply p s e).exited = false
      ∧ ∀ ev ∈ (op.apply p s e).events, ev.isLog = true := by
  cases op with
  | Init peer =>
    have h1 := Init_halted p peer s e h
    exact ⟨by rw [Op.apply, h1.1]; exact h, h1.2⟩
  | Notify entity peer =>
    have hw : Halted (s.withEntity entity) := h
    have h1 := NotifyCurrentState_halted p peer (s.withEntity entity) e hw
    exact ⟨by rw [Op.apply, Notify_eq, h1.1]; exact hw, h1.2⟩
  | NotifyCurrentState peer =>
    have h1 := NotifyCurrentState_halted p peer s e h
    exact ⟨by rw [Op.apply, h1.1]; exact h, h1.2⟩
  | WaitForStop peer =>
    have h1 := NotifyCurrentState_halted p peer s e h
    exact ⟨by rw [Op.apply, OpenGymMultiInterface.WaitForStop, h1.1]; exact h, h1.2⟩
  | NotifySimulationEnd peer => exact NotifySimulationEnd_halted p peer s e h
  | _ => cases hop

theorem run_halted (p : Platform) (ops : List (Op ε)) (s : OpenGymMultiInterface ε) (e : ε)
    (hops : ∀ c ∈ ops, c.isStepOrEnd = true) (h : Halted s) :
    Halted (run p ops s e).self ∧ (run p ops s e).env = e ∧ (run p ops s e).exited = false
      ∧ ∀ ev ∈ (run p ops s e).events, ev.isLog = true := by
  induction ops generalizing s e with
  | nil => exact ⟨h, rfl, rfl, by simp [run]⟩
  | cons op rest ih =>
    have h1 := Op.apply_halted p op s e (hops op (by simp)) h
    have h2 := ih (op.apply p s e).self (op.apply p s e).env
      (fun c hc => hops c (by simp [hc])) h1.1
    simp only [run, h1.2.2.1, Bool.false_eq_true, if_false]
    refine ⟨h2.1, by rw [h2.2.1, h1.2.1], h2.2.2.1, ?_⟩
    intro ev hev
    rcases List.mem_append.mp hev with hev | hev
    · exact h1.2.2.2 ev hev
    · exact h2.2.2.2 ev hev

end AfterStop

/-- After a call that ended in `std::exit` no further call is made. -/
theorem run_append_exited (p : Platform) (a b : List (Op ε)) (s : OpenGymMultiInterface ε)
    (e : ε) (h : (run p a s e).exited = true) : run p (a ++ b) s e = run p a s e := by
  induction a generalizing s e with
  | nil => simp [run] at h
  | cons op rest ih =>
    have hcons : run p (op :: rest ++ b) s e = run p (op :: (rest ++ b)) s e := rfl
    rw [hcons]
    simp only [run] at h ⊢
    split_ifs at h ⊢ with hx
    · rfl
    · rw [ih _ _ h]

/-! ## C9, C10: the registry -/

namespace OpenGymMultiInterface

/-- A sequence of `AddAgent` calls appends its ids, in call order, and changes
nothing else. -/
theorem foldl_AddAgent (ids : List Nat) (s : OpenGymMultiInterface ε) :
    ids.foldl AddAgent s = { s with m_agentIdVec := s.m_agentIdVec ++ ids } := by
  induction ids generalizing s with
  | nil => simp
  | cons a t ih => simp [ih, AddAgent]

/-- The init message `Init` sends lists the registry. -/
theorem Init_sentInits_ids (p : Platform) (peer : PeerReplies) (s : OpenGymMultiInterface ε)
    (e : ε) (m : MultiAgentInitMsg) (hm : m ∈ sentInits (s.Init p peer e).events) :
    m.agentinitmsg.map AgentInitMsg.agentid = s.m_agentIdVec := by
  by_cases hs : s.m_initSimMsgSent = true
  · rw [Init_of_sent p peer s e hs] at hm
    simp at hm
  · by_cases hr : s.m_agentIdVec = []
    · rw [Init_of_empty p peer s e (by simpa using hs) hr,
        (views_of_isLog (emptyRegistryLog_isLog s)).1] at hm
      simp at hm
    · rw [(Init_first p peer s e (by simpa using hs) hr).1] at hm
      rw [List.mem_singleton.mp hm]
      exact initAgents_ids _ _ _

/-- With both space callbacks bound, the first loop of `Init` queries them once
per entry, entry by entry. -/
theorem initAgents_queries (s : OpenGymMultiInterface ε) (ids : List Nat) (e : ε)
    (h1 : s.m_observationSpaceCb.isSome = true) (h2 : s.m_actionSpaceCb.isSome = true) :
    queries (s.initAgents ids e).events
      = ids.flatMap fun i => [(CbKind.observationSpace, i), (CbKind.actionSpace, i)] := by
  obtain ⟨f, hf⟩ := Option.isSome_iff_exists.mp h1
  obtain ⟨g, hg⟩ := Option.isSome_iff_exists.mp h2
  induction ids generalizing e with
  | nil => rfl
  | cons a t ih =>
    simp [initAgents, GetObservationSpace, GetActionSpace, hf, hg, ih]

/-- With the four state callbacks bound, the first loop of `NotifyCurrentState`
queries them once per entry, entry by entry. -/
theorem collectStates_queries (s : OpenGymMultiInterface ε) (ids : List Nat) (e : ε)
    (h1 : s.m_obsCb.isSome = true) (h2 : s.m_rewardCb.isSome = true)
    (h3 : s.m_doneCb.isSome = true) (h4 : s.m_infoCb.isSome = true) :
    queries (s.collectStates ids e).events
      = ids.flatMap fun i =>
          [(CbKind.observation, i), (CbKind.reward, i), (CbKind.done, i), (CbKind.info, i)] := by
  obtain ⟨f1, hf1⟩ := Option.isSome_iff_exists.mp h1
  obtain ⟨f2, hf2⟩ := Option.isSome_iff_exists.mp h2
  obtain ⟨f3, hf3⟩ := Option.isSome_iff_exists.mp h3
  obtain ⟨f4, hf4⟩ := Option.isSome_iff_exists.mp h4
  induction ids generalizing e with
  | nil => rfl
  | cons a t ih =>
    simp [collectStates, GetObservation, GetReward, GetDone, GetInfo, hf1, hf2, hf3, hf4, ih]

end OpenGymMultiInterface

/-- A sequence of `AddAgentId` calls on an environment is the same sequence of
`AddAgent` calls on its interface. -/
theorem OpenGymMultiEnv.foldl_AddAgentId (ids : List Nat) (env : OpenGymMultiEnv ε) :
    (ids.foldl OpenGymMultiEnv.AddAgentId env).m_openGymMultiInterface
      = env.m_openGymMultiInterface.map
          (fun i => ids.foldl OpenGymMultiInterface.AddAgent i) := by
  induction ids generalizing env with
  | nil => simp
  | cons a t ih =>
    rw [List.foldl_cons, ih]
    cases h : env.m_openGymMultiInterface <;> simp [OpenGymMultiEnv.AddAgentId, h]

/-- The sample session is the interface of a fresh environment over `demoMethods`
after `AddAgentId` for each id. -/
theorem demoSession_eq (ids : List Nat) :
    (ids.foldl OpenGymMultiEnv.AddAgentId
      (OpenGymMultiEnv.construct demoMethods)).m_openGymMultiInterface
      = some (demoSession ids) := by
  rw [OpenGymMultiEnv.foldl_AddAgentId]
  simp [OpenGymMultiEnv.construct, OpenGymMultiEnv.SetOpenGymMultiInterface,
    OpenGymMultiInterface.foldl_AddAgent]
  rfl

/-- C9: on a session whose registry is empty, as the constructor leaves it, a
sequence of `AddAgent` calls (or of `OpenGymMultiEnv::AddAgentId` calls on a
fresh environment) makes the registry the list of ids in call order, repeated ids
included; the init message of `Init` and the state batch of `NotifyCurrentState`
list the ids in that order, and with the callbacks bound both loops query them
agent by agent in that order. -/
theorem C9_registry_is_call_order (ids : List Nat) (s0 : OpenGymMultiInterface ε)
    (hfresh : s0.m_agentIdVec = []) (p : Platform) (peer : PeerReplies) (e : ε) :
    (ids.foldl OpenGymMultiInterface.AddAgent s0).m_agentIdVec = ids
      ∧ (∀ port : Nat, (ids.foldl OpenGymMultiInterface.AddAgent
          (OpenGymMultiInterface.construct port : OpenGymMultiInterface ε)).m_agentIdVec = ids)
      ∧ (∀ methods : EnvMethods ε,
          (ids.foldl OpenGymMultiEnv.AddAgentId
            (OpenGymMultiEnv.construct methods)).m_openGymMultiInterface.map
              OpenGymMultiInterface.m_agentIdVec = some ids)
      ∧ (∀ m ∈ sentInits ((ids.foldl OpenGymMultiInterface.AddAgent s0).Init p peer e).events,
          m.agentinitmsg.map AgentInitMsg.agentid = ids)
      ∧ (∀ m ∈ sentStates
            ((ids.foldl OpenGymMultiInterface.AddAgent s0).NotifyCurrentState p peer e).events,
          m.agentstatemsg.map AgentStateMsg.agentid = ids)
      ∧ (s0.m_observationSpaceCb.isSome = true → s0.m_actionSpaceCb.isSome = true →
          queries ((ids.foldl OpenGymMultiInterface.AddAgent s0).initAgents
              (ids.foldl OpenGymMultiInterface.AddAgent s0).m_agentIdVec e).events
            = ids.flatMap fun i => [(CbKind.observationSpace, i), (CbKind.actionSpace, i)])
      ∧ (s0.m_obsCb.isSome = true → s0.m_rewardCb.isSome = true →
          s0.m_doneCb.isSome = true → s0.m_infoCb.isSome = true →
          queries ((ids.foldl OpenGymMultiInterface.AddAgent s0).collectStates
              (ids.foldl OpenGymMultiInterface.AddAgent s0).m_agentIdVec e).events
            = ids.flatMap fun i =>
                [(CbKind.observation, i), (CbKind.reward, i), (CbKind.done, i),
                  (CbKind.info, i)]) := by
  have hreg : (ids.foldl OpenGymMultiInterface.AddAgent s0).m_agentIdVec = ids := by
    rw [OpenGymMultiInterface.foldl_AddAgent, hfresh]; rfl
  refine ⟨hreg, ?_, ?_, ?_, ?_, ?_, ?_⟩
  · intro port
    rw [OpenGymMultiInterface.foldl_AddAgent]; rfl
  · intro methods
    rw [OpenGymMultiEnv.foldl_AddAgentId]
    simp [OpenGymMultiEnv.construct, OpenGymMultiEnv.SetOpenGymMultiInterface,
      OpenGymMultiInterface.foldl_AddAgent]
    rfl
  · intro m hm
    rw [OpenGymMultiInterface.Init_sentInits_ids p peer _ e m hm, hreg]
  · intro m hm
    rw [OpenGymMultiInterface.NotifyCurrentState_sentStates_ids p peer _ e m hm, hreg]
  · intro h1 h2
    rw [hreg]
    exact OpenGymMultiInterface.initAgents_queries _ ids e
      (by rw [OpenGymMultiInterface.foldl_AddAgent]; exact h1)
      (by rw [OpenGymMultiInterface.foldl_AddAgent]; exact h2)
  · intro h1 h2 h3 h4
    rw [hreg]
    exact OpenGymMultiInterface.collectStates_queries _ ids e
      (by rw [OpenGymMultiInterface.foldl_AddAgent]; exact h1)
      (by rw [OpenGymMultiInterface.foldl_AddAgent]; exact h2)
      (by rw [OpenGymMultiInterface.foldl_AddAgent]; exact h3)
      (by rw [OpenGymMultiInterface.foldl_AddAgent]; exact h4)

/-- C9, instance: the calls `AddAgent (3)`, `AddAgent (1)`, `AddAgent (3)` on a
fresh session give the registry 3, 1, 3. -/
theorem C9_registry_is_call_order_witness :
    (demoSession []).m_agentIdVec = []
      ∧ ([3, 1, 3].foldl OpenGymMultiInterface.AddAgent (demoSession [])).m_agentIdVec
          = [3, 1, 3] :=
  ⟨rfl, (C9_registry_is_call_order [3, 1, 3] (demoSession []) rfl demoPlatform (demoPeer [])
    0).1⟩

section Registry

open OpenGymMultiInterface

/-- Every call but `AddAgent` leaves the registry as it was. -/
theorem Op.apply_agentIdVec (p : Platform) (op : Op ε) (s : OpenGymMultiInterface ε) (e : ε)
    (hop : op.isAddAgent = false) : (op.apply p s e).self.m_agentIdVec = s.m_agentIdVec := by
  cases op with
  | Init peer => exact Init_agentIdVec p peer s e
  | Notify entity peer => exact NotifyCurrentState_agentIdVec p peer _ e
  | NotifyCurrentState peer => exact NotifyCurrentState_agentIdVec p peer s e
  | WaitForStop peer => exact NotifyCurrentState_agentIdVec p peer s e
  | NotifySimulationEnd peer => exact NotifySimulationEnd_agentIdVec p peer s e
  | AddAgent a => cases hop
  | _ => rfl

/-- A state batch sent during a call lists the registry the call began with. -/
theorem Op.apply_sentStates_ids (p : Platform) (op : Op ε) (s : OpenGymMultiInterface ε)
    (e : ε) (m : MultiAgentStateMsg) (hm : m ∈ sentStates (op.apply p s e).events) :
    m.agentstatemsg.map AgentStateMsg.agentid = s.m_agentIdVec := by
  cases op with
  | Init peer =>
    rw [Op.apply, (Init_events_views p peer s e).1] at hm
    simp at hm
  | Notify entity peer =>
    exact NotifyCurrentState_sentStates_ids p peer (s.withEntity entity) e m hm
  | NotifyCurrentState peer => exact NotifyCurrentState_sentStates_ids p peer s e m hm
  | WaitForStop peer => exact NotifyCurrentState_sentStates_ids p peer s e m hm
  | NotifySimulationEnd peer =>
    unfold Op.apply OpenGymMultiInterface.NotifySimulationEnd
      OpenGymMultiInterface.WaitForStop at hm
    simp only [] at hm
    split_ifs at hm
    · exact NotifyCurrentState_sentStates_ids p peer { s with m_simEnd := true } e m hm
    · simp at hm
  | GetActionSpace a =>
    rw [Op.apply, Ret.toOutcome, (views_of_isQuery fun ev h =>
      isQuery_of_isSpaceQuery (GetActionSpace_isSpaceQuery s a e ev h)).2.1] at hm
    simp at hm
  | GetObservationSpace a =>
    rw [Op.apply, Ret.toOutcome, (views_of_isQuery fun ev h =>
      isQuery_of_isSpaceQuery (GetObservationSpace_isSpaceQuery s a e ev h)).2.1] at hm
    simp at hm
  | GetObservation a =>
    rw [Op.apply, Ret.toOutcome, (views_of_isQuery fun ev h =>
      isQuery_of_isStateQuery (GetObservation_isStateQuery s a e ev h)).2.1] at hm
    simp at hm
  | GetReward a =>
    rw [Op.apply, Ret.toOutcome, (views_of_isQuery fun ev h =>
      isQuery_of_isStateQuery (GetReward_isStateQuery s a e ev h)).2.1] at hm
    simp at hm
  | GetDone a =>
    rw [Op.apply, Ret.toOutcome, (views_of_isQuery fun ev h =>
      isQuery_of_isStateQuery (GetDone_isStateQuery s a e ev h)).2.1] at hm
    simp at hm
  | GetInfo a =>
    rw [Op.apply, Ret.toOutcome, (views_of_isQuery fun ev h =>
      isQuery_of_isStateQuery (GetInfo_isStateQuery s a e ev h)).2.1] at hm
    simp at hm
  | ExecuteActions a x =>
    rw [Op.apply, Ret.toOutcome, (views_of_isAction (ExecuteActions_isAction s a x e)).2.1] at hm
    simp at hm
  | _ => simp [Op.apply] at hm

/-- Through a sequence of calls without `AddAgent` the registry stays as it was
and every state batch sent lists it. -/
theorem run_without_AddAgent (p : Platform) (ops : List (Op ε)) (s : OpenGymMultiInterface ε)
    (e : ε) (hops : ∀ c ∈ ops, c.isAddAgent = false) :
    (run p ops s e).self.m_agentIdVec = s.m_agentIdVec
      ∧ ∀ m ∈ sentStates (run p ops s e).events,
          m.agentstatemsg.map AgentStateMsg.agentid = s.m_agentIdVec := by
  induction ops generalizing s e with
  | nil => exact ⟨rfl, by simp [run]⟩
  | cons op rest ih =>
    have h1 := Op.apply_agentIdVec p op s e (hops op (by simp))
    have h2 := Op.apply_sentStates_ids p op s e
    have h3 := ih (op.apply p s e).self (op.apply p s e).env (fun c hc => hops c (by simp [hc]))
    simp only [run]
    split_ifs
    · exact ⟨h1, h2⟩
    · refine ⟨by rw [h3.1, h1], ?_⟩
      intro m hm
      rw [sentStates_append] at hm
      rcases List.mem_append.mp hm with hm | hm
      · exact h2 m hm
      · rw [h3.2 m hm, h1]

end Registry

/-- C10 (as amended): `Init` sends one init message that lists the registry, and
as long as no `AddAgent` call is made afterwards every `MultiAgentStateMsg` sent
by later calls lists the same agent ids. The registry is not frozen: an
`AddAgent` call made after `Init` appends its id all the same. -/
theorem C10_registry_after_init (p : Platform) (peer : PeerReplies)
    (s : OpenGymMultiInterface ε) (e : ε) (hfresh : s.m_initSimMsgSent = false)
    (hreg : s.m_agentIdVec ≠ []) :
    (∃ m0 : MultiAgentInitMsg,
        sentInits (s.Init p peer e).events = [m0]
          ∧ m0.agentinitmsg.map AgentInitMsg.agentid = s.m_agentIdVec
          ∧ ∀ (q : Platform) (ops : List (Op ε)) (e1 : ε),
              (∀ c ∈ ops, c.isAddAgent = false) →
              ∀ m ∈ sentStates (run q ops (s.Init p peer e).self e1).events,
                m.agentstatemsg.map AgentStateMsg.agentid
                  = m0.agentinitmsg.map AgentInitMsg.agentid)
      ∧ ∀ agent_id : Nat,
          ((s.Init p peer e).self.AddAgent agent_id).m_agentIdVec
            = s.m_agentIdVec ++ [agent_id] := by
  have h1 := OpenGymMultiInterface.Init_first p peer s e hfresh hreg
  have hids := OpenGymMultiInterface.initAgents_ids
    { s with m_initSimMsgSent := true } s.m_agentIdVec e
  refine ⟨⟨_, h1.1, hids, ?_⟩, ?_⟩
  · intro q ops e1 hops m hm
    rw [(run_without_AddAgent q ops _ e1 hops).2 m hm,
      OpenGymMultiInterface.Init_agentIdVec, hids]
  · intro agent_id
    simp [OpenGymMultiInterface.AddAgent, OpenGymMultiInterface.Init_agentIdVec]

/-- C10, instance: `Init` on the registry 10, 20 sends one init message, and
`AddAgent (30)` after it makes the registry 10, 20, 30. -/
theorem C10_registry_after_init_witness :
    (demoSession [10, 20]).m_initSimMsgSent = false
      ∧ (demoSession [10, 20]).m_agentIdVec ≠ []
      ∧ ((((demoSession [10, 20]).Init demoPlatform (demoPeer []) 0).self.AddAgent
          30).m_agentIdVec = [10, 20] ++ [30]) :=
  ⟨rfl, by decide,
    (C10_registry_after_init demoPlatform (demoPeer []) (demoSession [10, 20]) 0 rfl
      (by decide)).2 30⟩

/-- C10, as first stated, fails: after `Init` on the registry 1, `AddAgent (2)`
changes the registry, and the state batch of the next step lists 1, 2 where the
init message listed 1. -/
theorem C10_registry_grows_after_init :
    (run demoPlatform [Op.Init (demoPeer [])] (demoSession [1]) 0).self.m_agentIdVec = [1]
      ∧ (run demoPlatform [Op.Init (demoPeer []), Op.AddAgent 2]
          (demoSession [1]) 0).self.m_agentIdVec = [1, 2]
      ∧ (sentInits (run demoPlatform
          [Op.Init (demoPeer []), Op.AddAgent 2, Op.NotifyCurrentState (demoPeer [])]
          (demoSession [1]) 0).events).map MultiAgentInitMsg.ids = [[1]]
      ∧ (sentStates (run demoPlatform
          [Op.Init (demoPeer []), Op.AddAgent 2, Op.NotifyCurrentState (demoPeer [])]
          (demoSession [1]) 0).events).map MultiAgentStateMsg.ids = [[1, 2]] := by
  decide

/-! ## The socket operations of `Init` and of a step -/

namespace OpenGymMultiInterface

/-- The first `Init` on a non-empty registry: its socket operations are the send
of the init message and one receive, it queries no state callback, and it ends
in `std::exit` exactly when the ack asks for a stop. -/
theorem Init_first_transport (p : Platform) (peer : PeerReplies)
    (s : OpenGymMultiInterface ε) (e : ε)
    (hfresh : s.m_initSimMsgSent = false) (hreg : s.m_agentIdVec ≠ []) :
    transport (s.Init p peer e).events
        = [Event.sendInit ⟨p.getpid, p.getppid,
            (initAgents { s with m_initSimMsgSent := true } s.m_agentIdVec e).val⟩,
          Event.recv]
      ∧ (s.Init p peer e).exited = peer.ack.msg.stopsimreq
      ∧ (s.Init p peer e).self.m_stopEnvRequested
          = (peer.ack.msg.stopsimreq || s.m_stopEnvRequested) := by
  have hq := fun e => views_of_isQuery
    (initAgents_isQuery { s with m_initSimMsgSent := true } s.m_agentIdVec e)
  have hw := views_of_isLog (waitingLog_isLog p { s with m_initSimMsgSent := true })
  unfold Init
  simp only [hfresh, Bool.false_eq_true, if_false, List.length_eq_zero, hreg]
  split_ifs with h <;> simp [hq, hw, h]

/-- `Init` queries no state callback. -/
theorem Init_stateQueries (p : Platform) (peer : PeerReplies) (s : OpenGymMultiInterface ε)
    (e : ε) : stateQueries (s.Init p peer e).events = [] := by
  have hq := fun e => stateQueries_of_isSpaceQuery
    (initAgents_isSpaceQuery { s with m_initSimMsgSent := true } s.m_agentIdVec e)
  have hw := stateQueries_of_queries_nil
    (views_of_isLog (waitingLog_isLog p { s with m_initSimMsgSent := true })).2.2.2.1
  have he := stateQueries_of_queries_nil (views_of_isLog (emptyRegistryLog_isLog s)).2.2.2.1
  unfold Init
  split_ifs
  · simp
  · simp [he]
  · simp [hq, hw]
  · simp [hq, hw]

theorem initPhase_stateQueries (p : Platform) (peer : PeerReplies)
    (s : OpenGymMultiInterface ε) (e : ε) :
    stateQueries (s.initPhase p peer e).events = [] := by
  unfold initPhase
  split_ifs
  · rfl
  · exact Init_stateQueries p peer s e

/-- A step whose init phase leaves a stop request behind does nothing more. -/
theorem NotifyCurrentState_stopped (p : Platform) (peer : PeerReplies)
    (s : OpenGymMultiInterface ε) (e : ε)
    (h : (s.initPhase p peer e).self.m_stopEnvRequested = true) :
    s.NotifyCurrentState p peer e = s.initPhase p peer e := by
  unfold NotifyCurrentState
  simp only [h, if_true]
  split_ifs <;> rfl

/-- A step whose init phase leaves no stop request behind: after the init phase
the state callbacks are queried, one state batch is sent and one reply received. -/
theorem NotifyCurrentState_live (p : Platform) (peer : PeerReplies)
    (s : OpenGymMultiInterface ε) (e : ε)
    (h : (s.initPhase p peer e).self.m_stopEnvRequested = false) :
    transport (s.NotifyCurrentState p peer e).events
        = transport (s.initPhase p peer e).events
          ++ [Event.sendState ⟨((s.initPhase p peer e).self.collectStates s.m_agentIdVec
                (s.initPhase p peer e).env).val⟩, Event.recv]
      ∧ sentStates (s.NotifyCurrentState p peer e).events
          = [⟨((s.initPhase p peer e).self.collectStates s.m_agentIdVec
                (s.initPhase p peer e).env).val⟩]
      ∧ stateQueries (s.NotifyCurrentState p peer e).events
          = stateQueries ((s.initPhase p peer e).self.collectStates s.m_agentIdVec
              (s.initPhase p peer e).env).events := by
  have hx : (s.initPhase p peer e).exited = false := by
    by_contra hc
    have := initPhase_exited p peer s e (by simpa using hc)
    rw [h] at this
    exact Bool.false_ne_true this
  have hi := initPhase_events_views p peer s e
  have hsq := initPhase_stateQueries p peer s e
  have hreg := initPhase_agentIdVec p peer s e
  have hq := fun (t : OpenGymMultiInterface ε) ids e =>
    views_of_isQuery (collectStates_isQuery t ids e)
  have ha := fun (t : OpenGymMultiInterface ε) acts e =>
    views_of_isAction (executeLoop_isAction p t acts e)
  have hb := fun (t : OpenGymMultiInterface ε) acts e =>
    stateQueries_of_queries_nil (ha t acts e).2.2.2.1
  unfold NotifyCurrentState
  simp only [hx, h, hreg, Bool.false_eq_true, if_false]
  split_ifs <;> simp [hi, hsq, hq, ha, hb]

end OpenGymMultiInterface

/-! ## C11: a stop request in the init ack -/

/-- C11: when the first `Init` of a session (non-empty registry) receives an ack
that asks for a stop, `Init` sets `m_stopEnvRequested` and ends in `std::exit`.
The step that triggered it, `NotifyCurrentState` or `Notify` (the body of
`Step`), sends the init message and nothing else: no state batch, no query of
observation, reward, done or info, no action. Every later sequence of step and
end calls on the session it leaves behind sends and receives nothing, queries
nothing and keeps the flag set. -/
theorem C11_stop_in_init_ack (p : Platform) (peer : PeerReplies)
    (s : OpenGymMultiInterface ε) (e : ε) (hfresh : s.m_initSimMsgSent = false)
    (hreg : s.m_agentIdVec ≠ []) (hack : peer.ack.msg.stopsimreq = true) :
    ((s.Init p peer e).self.m_stopEnvRequested = true ∧ (s.Init p peer e).exited = true)
      ∧ (sentStates (s.NotifyCurrentState p peer e).events = []
          ∧ stateQueries (s.NotifyCurrentState p peer e).events = []
          ∧ executed (s.NotifyCurrentState p peer e).events = []
          ∧ (∃ m0, transport (s.NotifyCurrentState p peer e).events
              = [Event.sendInit m0, Event.recv])
          ∧ (s.NotifyCurrentState p peer e).self.m_stopEnvRequested = true
          ∧ (s.NotifyCurrentState p peer e).exited = true)
      ∧ (∀ entity : EnvMethods ε,
          sentStates (s.Notify p peer entity e).events = []
            ∧ stateQueries (s.Notify p peer entity e).events = []
            ∧ executed (s.Notify p peer entity e).events = []
            ∧ (s.Notify p peer entity e).self.m_stopEnvRequested = true)
      ∧ ∀ (q : Platform) (later : List (Op ε)) (e1 : ε),
          (∀ c ∈ later, c.isStepOrEnd = true) →
            transport (run q later (s.NotifyCurrentState p peer e).self e1).events = []
              ∧ queries (run q later (s.NotifyCurrentState p peer e).self e1).events = []
              ∧ executed (run q later (s.NotifyCurrentState p peer e).self e1).events = []
              ∧ (run q later (s.NotifyCurrentState p peer e).self
                  e1).self.m_stopEnvRequested = true := by
  have key : ∀ t : OpenGymMultiInterface ε, t.m_initSimMsgSent = false → t.m_agentIdVec ≠ [] →
      t.NotifyCurrentState p peer e = t.Init p peer e
        ∧ (t.Init p peer e).self.m_stopEnvRequested = true
        ∧ (t.Init p peer e).exited = true
        ∧ (∃ m0, transport (t.Init p peer e).events = [Event.sendInit m0, Event.recv]) := by
    intro t ht hr
    have h1 := OpenGymMultiInterface.Init_first_transport p peer t e ht hr
    have hph : t.initPhase p peer e = t.Init p peer e := by
      simp [OpenGymMultiInterface.initPhase, ht]
    have hst : (t.Init p peer e).self.m_stopEnvRequested = true := by
      rw [h1.2.2, hack]; rfl
    refine ⟨?_, hst, by rw [h1.2.1, hack], ⟨_, h1.1⟩⟩
    rw [OpenGymMultiInterface.NotifyCurrentState_stopped p peer t e (by rw [hph]; exact hst),
      hph]
  have hv := fun t => OpenGymMultiInterface.Init_events_views p peer t e
  have hsq := fun t => OpenGymMultiInterface.Init_stateQueries p peer t e
  have k := key s hfresh hreg
  refine ⟨⟨k.2.1, k.2.2.1⟩, ?_, ?_, ?_⟩
  · rw [k.1]
    exact ⟨(hv s).1, hsq s, (hv s).2.1, k.2.2.2, k.2.1, k.2.2.1⟩
  · intro entity
    have k2 := key (s.withEntity entity) hfresh hreg
    rw [OpenGymMultiInterface.Notify_eq, k2.1]
    exact ⟨(hv _).1, hsq _, (hv _).2.1, k2.2.1⟩
  · intro q later e1 hlater
    have hh : OpenGymMultiInterface.Halted (s.NotifyCurrentState p peer e).self := by
      rw [k.1]
      exact ⟨k.2.1, Or.inl (OpenGymMultiInterface.Init_first p peer s e hfresh hreg).2.2⟩
    have h := run_halted q later _ e1 hlater hh
    have hl := views_of_isLog h.2.2.2
    exact ⟨hl.2.2.1, hl.2.2.2.1, hl.2.2.2.2.1, h.1.1⟩

/-- C11, instance: on the registry 10, 20 a first step whose init ack asks for a
stop sends the init message, receives the ack and sends no state batch. -/
theorem C11_stop_in_init_ack_witness :
    (demoSession [10, 20]).m_initSimMsgSent = false
      ∧ (demoSession [10, 20]).m_agentIdVec ≠ []
      ∧ demoAckStopPeer.ack.msg.stopsimreq = true
      ∧ sentStates ((demoSession [10, 20]).NotifyCurrentState demoPlatform demoAckStopPeer
          0).events = []
      ∧ stateQueries ((demoSession [10, 20]).NotifyCurrentState demoPlatform demoAckStopPeer
          0).events = [] :=
  ⟨rfl, by decide, rfl,
    (C11_stop_in_init_ack demoPlatform demoAckStopPeer (demoSession [10, 20]) 0 rfl
      (by decide) rfl).2.1.1,
    (C11_stop_in_init_ack demoPlatform demoAckStopPeer (demoSession [10, 20]) 0 rfl
      (by decide) rfl).2.1.2.1⟩

/-! ## C12: the step of a session whose simulation has ended -/

/-- C12: a `NotifyCurrentState` that begins with `m_simEnd` set makes no
`ExecuteActions` call and invokes no action callback, whatever records the reply
carries; the reply is not looked at, so that any other reply gives the same
outcome, and `m_stopEnvRequested` is what the init phase left, whatever
`stopsimreq` of the reply says. When no stop request is recorded by then, the
full state batch is sent and one reply received; in particular, in a session
whose init message was sent and which has no stop request, the socket operations
are one send of a batch that lists the registry and one receive, and the session
is left exactly as it was. -/
theorem C12_flush_ignores_reply (p : Platform) (peer : PeerReplies)
    (s : OpenGymMultiInterface ε) (e : ε) (hend : s.m_simEnd = true) :
    executed (s.NotifyCurrentState p peer e).events = []
      ∧ actionCbCalls (s.NotifyCurrentState p peer e).events = []
      ∧ (s.NotifyCurrentState p peer e).self.m_stopEnvRequested
          = (s.initPhase p peer e).self.m_stopEnvRequested
      ∧ (∀ other : Parsed MultiAgentActMsg,
          s.NotifyCurrentState p { peer with reply := other } e
            = s.NotifyCurrentState p peer e)
      ∧ ((s.initPhase p peer e).self.m_stopEnvRequested = false →
          ∃ m : MultiAgentStateMsg,
            transport (s.NotifyCurrentState p peer e).events
                = transport (s.initPhase p peer e).events ++ [Event.sendState m, Event.recv]
              ∧ sentStates (s.NotifyCurrentState p peer e).events = [m]
              ∧ m.agentstatemsg.map AgentStateMsg.agentid = s.m_agentIdVec)
      ∧ (s.m_initSimMsgSent = true → s.m_stopEnvRequested = false →
          (∃ m : MultiAgentStateMsg,
            transport (s.NotifyCurrentState p peer e).events
                = [Event.sendState m, Event.recv]
              ∧ m.agentstatemsg.map AgentStateMsg.agentid = s.m_agentIdVec)
            ∧ (s.NotifyCurrentState p peer e).self = s
            ∧ (s.NotifyCurrentState p peer e).exited = false) := by
  have hi := OpenGymMultiInterface.initPhase_events_views p peer s e
  have hse := OpenGymMultiInterface.initPhase_simEnd p peer s e
  have hq := fun (t : OpenGymMultiInterface ε) ids e =>
    views_of_isQuery (OpenGymMultiInterface.collectStates_isQuery t ids e)
  refine ⟨?_, ?_, ?_, ?_, ?_, ?_⟩
  · unfold OpenGymMultiInterface.NotifyCurrentState
    simp only [hse, hend, if_true]
    split_ifs <;> simp [hi, hq]
  · unfold OpenGymMultiInterface.NotifyCurrentState
    simp only [hse, hend, if_true]
    split_ifs <;> simp [hi, hq]
  · unfold OpenGymMultiInterface.NotifyCurrentState
    simp only [hse, hend, if_true]
    split_ifs <;> rfl
  · intro other
    have hph : s.initPhase p { peer with reply := other } e = s.initPhase p peer e := rfl
    unfold OpenGymMultiInterface.NotifyCurrentState
    simp only [hph, hse, hend, if_true]
  · intro hlive
    have h := OpenGymMultiInterface.NotifyCurrentState_live p peer s e hlive
    exact ⟨_, h.1, h.2.1, OpenGymMultiInterface.collectStates_ids _ _ _⟩
  · intro hsent hstop
    have hf := OpenGymMultiInterface.NotifyCurrentState_flush p peer s e hsent hstop hend
    rw [hf]
    refine ⟨⟨⟨(s.collectStates s.m_agentIdVec e).val⟩, ?_,
      OpenGymMultiInterface.collectStates_ids _ _ _⟩, rfl, rfl⟩
    simp [hq]

/-- C12, instance: in the session left by `Init` and `NotifySimulationEnd` on the
registry 10, 20, a step whose reply asks for a stop and carries an action for 10
executes nothing and leaves `m_stopEnvRequested` unset. -/
theorem C12_flush_ignores_reply_witness :
    (run demoPlatform [Op.Init (demoPeer []), Op.NotifySimulationEnd (demoPeer [])]
        (demoSession [10, 20]) 0).self.m_simEnd = true
      ∧ executed ((run demoPlatform [Op.Init (demoPeer []), Op.NotifySimulationEnd (demoPeer [])]
          (demoSession [10, 20]) 0).self.NotifyCurrentState demoPlatform
          (demoStopPeer [⟨10, ⟨[7]⟩⟩]) 0).events = []
      ∧ ((run demoPlatform [Op.Init (demoPeer []), Op.NotifySimulationEnd (demoPeer [])]
          (demoSession [10, 20]) 0).self.NotifyCurrentState demoPlatform
          (demoStopPeer [⟨10, ⟨[7]⟩⟩]) 0).self.m_stopEnvRequested = false :=
  ⟨rfl,
    (C12_flush_ignores_reply demoPlatform (demoStopPeer [⟨10, ⟨[7]⟩⟩])
      (run demoPlatform [Op.Init (demoPeer []), Op.NotifySimulationEnd (demoPeer [])]
        (demoSession [10, 20]) 0).self 0 rfl).1,
    by
      rw [(C12_flush_ignores_reply demoPlatform (demoStopPeer [⟨10, ⟨[7]⟩⟩])
        (run demoPlatform [Op.Init (demoPeer []), Op.NotifySimulationEnd (demoPeer [])]
          (demoSession [10, 20]) 0).self 0 rfl).2.2.1]
      rfl⟩

/-! ## C13: the records of a state batch -/

namespace OpenGymMultiInterface

/-- The init phase leaves the callbacks as they were. -/
theorem initPhase_callbacks (p : Platform) (peer : PeerReplies) (s : OpenGymMultiInterface ε)
    (e : ε) :
    (s.initPhase p peer e).self.m_obsCb = s.m_obsCb
      ∧ (s.initPhase p peer e).self.m_rewardCb = s.m_rewardCb
      ∧ (s.initPhase p peer e).self.m_doneCb = s.m_doneCb
      ∧ (s.initPhase p peer e).self.m_infoCb = s.m_infoCb := by
  unfold initPhase Init
  split_ifs <;> exact ⟨rfl, rfl, rfl, rfl⟩

/-- With the four state callbacks bound, record `i` of the first loop is the
record of entry `i`, asked in the state the entries before it have left. -/
theorem collectStates_record (s : OpenGymMultiInterface ε)
    (fo : Nat → ε → Option OpenGymDataContainer × ε) (fr : Nat → ε → F32 × ε)
    (fd : Nat → ε → Bool × ε) (fi : Nat → ε → String × ε)
    (ho : s.m_obsCb = some fo) (hr : s.m_rewardCb = some fr) (hd : s.m_doneCb = some fd)
    (hi : s.m_infoCb = some fi) (ids : List Nat) (e : ε) (i : Nat) :
    (s.collectStates ids e).val[i]?
      = (ids[i]?).map fun a =>
          specStateRecord fo fr fd fi a
            ((ids.take i).foldl (fun x b => specStateEnv fo fr fd fi b x) e) := by
  induction ids generalizing e i with
  | nil => simp [collectStates]
  | cons a t ih =>
    cases i with
    | zero =>
      simp [collectStates, GetObservation, GetReward, GetDone, GetInfo, ho, hr, hd, hi,
        specStateRecord]
    | succ j =>
      have h := ih (specStateEnv fo fr fd fi a e) j
      simp only [collectStates, GetObservation, GetReward, GetDone, GetInfo, ho, hr, hd, hi,
        List.getElem?_cons_succ, List.take_succ_cons, List.foldl_cons]
      exact h

/-- With the four state callbacks bound, the state queries of the first loop in
the terms of the view `stateQueries`. -/
theorem collectStates_stateQueries (s : OpenGymMultiInterface ε) (ids : List Nat) (e : ε)
    (h1 : s.m_obsCb.isSome = true) (h2 : s.m_rewardCb.isSome = true)
    (h3 : s.m_doneCb.isSome = true) (h4 : s.m_infoCb.isSome = true) :
    stateQueries (s.collectStates ids e).events
      = ids.flatMap fun a =>
          [(CbKind.observation, a), (CbKind.reward, a), (CbKind.done, a), (CbKind.info, a)] := by
  unfold stateQueries
  rw [collectStates_queries s ids e h1 h2 h3 h4]
  apply List.filter_eq_self.mpr
  intro q hq
  simp only [List.mem_flatMap, List.mem_cons, List.mem_singleton, List.not_mem_nil,
    or_false] at hq
  obtain ⟨a, _, h | h | h | h⟩ := hq <;> simp [h]

end OpenGymMultiInterface

/-- Each of the four state kinds occurs once per occurrence of an id. -/
theorem count_stateQueries (ids : List Nat) (k : CbKind) (a : Nat)
    (hk : k = CbKind.observation ∨ k = CbKind.reward ∨ k = CbKind.done ∨ k = CbKind.info) :
    (ids.flatMap fun b =>
        [(CbKind.observation, b), (CbKind.reward, b), (CbKind.done, b),
          (CbKind.info, b)]).count (k, a) = ids.count a := by
  induction ids with
  | nil => rfl
  | cons b t ih =>
    rw [List.flatMap_cons, List.count_append, ih, List.count_cons]
    by_cases hab : b = a
    · subst hab
      rcases hk with h | h | h | h <;> subst h <;> simp [List.count_cons, Nat.add_comm]
    · have hne : ¬ (b == a) = true := by simpa using hab
      rcases hk with h | h | h | h <;> subst h <;> simp [List.count_cons, hab, hne]

/-- A step that sends a state batch had no stop request after its init phase. -/
theorem OpenGymMultiInterface.live_of_sentStates (p : Platform) (peer : PeerReplies)
    (s : OpenGymMultiInterface ε) (e : ε) (m : MultiAgentStateMsg)
    (hm : m ∈ sentStates (s.NotifyCurrentState p peer e).events) :
    (s.initPhase p peer e).self.m_stopEnvRequested = false := by
  by_contra hc
  rw [OpenGymMultiInterface.NotifyCurrentState_stopped p peer s e (by simpa using hc),
    (OpenGymMultiInterface.initPhase_events_views p peer s e).1] at hm
  simp at hm

/-- C13: let the four state callbacks be bound, as `Notify` binds them in every
`Step`. In every `MultiAgentStateMsg` that `NotifyCurrentState` sends, record `i`
is the record of registry entry `i`: its agent id, the reward, done flag and info
text the callbacks return for that id, and the observation message exactly when
the observation returned is non-null; the callbacks are asked in the simulation
state left by the init phase and the queries for the entries before `i`. The
state callbacks are invoked entry by entry in the order observation, reward,
done, info, each once per registry entry with the id of the entry. When the
callbacks do not change the simulation state, every record holds the values the
callbacks give in the state in which the loop began. -/
theorem C13_state_records (p : Platform) (peer : PeerReplies) (s : OpenGymMultiInterface ε)
    (e : ε) (fo : Nat → ε → Option OpenGymDataContainer × ε) (fr : Nat → ε → F32 × ε)
    (fd : Nat → ε → Bool × ε) (fi : Nat → ε → String × ε)
    (ho : s.m_obsCb = some fo) (hr : s.m_rewardCb = some fr) (hd : s.m_doneCb = some fd)
    (hi : s.m_infoCb = some fi) (m : MultiAgentStateMsg)
    (hm : m ∈ sentStates (s.NotifyCurrentState p peer e).events) :
    m.agentstatemsg.length = s.m_agentIdVec.length
      ∧ (∀ i : Nat,
          m.agentstatemsg[i]?
            = (s.m_agentIdVec[i]?).map fun a =>
                specStateRecord fo fr fd fi a
                  ((s.m_agentIdVec.take i).foldl (fun x b => specStateEnv fo fr fd fi b x)
                    (s.initPhase p peer e).env))
      ∧ stateQueries (s.NotifyCurrentState p peer e).events
          = s.m_agentIdVec.flatMap (fun a =>
              [(CbKind.observation, a), (CbKind.reward, a), (CbKind.done, a),
                (CbKind.info, a)])
      ∧ (∀ (k : CbKind) (a : Nat),
          k = CbKind.observation ∨ k = CbKind.reward ∨ k = CbKind.done ∨ k = CbKind.info →
          (stateQueries (s.NotifyCurrentState p peer e).events).count (k, a)
            = s.m_agentIdVec.count a)
      ∧ ((∀ a x, (fo a x).2 = x) → (∀ a x, (fr a x).2 = x) → (∀ a x, (fd a x).2 = x) →
          (∀ a x, (fi a x).2 = x) →
          ∀ i : Nat,
            m.agentstatemsg[i]?
              = (s.m_agentIdVec[i]?).map fun a =>
                  { agentid := a
                    obsdata := (fo a (s.initPhase p peer e).env).1.map
                      OpenGymDataContainer.GetDataContainerPbMsg
                    reward := (fr a (s.initPhase p peer e).env).1
                    done := (fd a (s.initPhase p peer e).env).1
                    info := (fi a (s.initPhase p peer e).env).1 }) := by
  have hcb := OpenGymMultiInterface.initPhase_callbacks p peer s e
  have hrec := OpenGymMultiInterface.collectStates_record (s.initPhase p peer e).self
    fo fr fd fi (by rw [hcb.1, ho]) (by rw [hcb.2.1, hr]) (by rw [hcb.2.2.1, hd])
    (by rw [hcb.2.2.2, hi]) s.m_agentIdVec (s.initPhase p peer e).env
  have hmsg := OpenGymMultiInterface.NotifyCurrentState_sentStates p peer s e m hm
  have hlive := OpenGymMultiInterface.live_of_sentStates p peer s e m hm
  have hsq : stateQueries (s.NotifyCurrentState p peer e).events
      = s.m_agentIdVec.flatMap (fun a =>
          [(CbKind.observation, a), (CbKind.reward, a), (CbKind.done, a),
            (CbKind.info, a)]) := by
    rw [(OpenGymMultiInterface.NotifyCurrentState_live p peer s e hlive).2.2]
    exact OpenGymMultiInterface.collectStates_stateQueries _ _ _
      (by rw [hcb.1, ho]; rfl) (by rw [hcb.2.1, hr]; rfl) (by rw [hcb.2.2.1, hd]; rfl)
      (by rw [hcb.2.2.2, hi]; rfl)
  refine ⟨?_, ?_, hsq, ?_, ?_⟩
  · rw [← List.length_map _ AgentStateMsg.agentid,
      OpenGymMultiInterface.NotifyCurrentState_sentStates_ids p peer s e m hm]
  · intro i
    rw [hmsg]
    exact hrec i
  · intro k a hk
    rw [hsq]
    exact count_stateQueries _ k a hk
  · intro h1 h2 h3 h4 i
    have hfold : ∀ (l : List Nat) (x : ε),
        l.foldl (fun x b => specStateEnv fo fr fd fi b x) x = x := by
      intro l
      induction l with
      | nil => intro x; rfl
      | cons b t ih =>
        intro x
        rw [List.foldl_cons, ih]
        simp [specStateEnv, h1, h2, h3, h4]
    rw [hmsg, hrec i, hfold]
    simp [specStateRecord, h1, h2, h3]

/-- C13, instance: for the sample session with the registry 1, 2, 3 the batch of
a step holds one record per agent, and the callbacks are asked agent by agent. -/
theorem C13_state_records_witness :
    demoBatch ∈ sentStates ((demoSession [1, 2, 3]).NotifyCurrentState demoPlatform
        (demoPeer []) 0).events
      ∧ demoBatch.agentstatemsg.length = 3
      ∧ stateQueries ((demoSession [1, 2, 3]).NotifyCurrentState demoPlatform (demoPeer [])
          0).events
        = [(CbKind.observation, 1), (CbKind.reward, 1), (CbKind.done, 1), (CbKind.info, 1),
            (CbKind.observation, 2), (CbKind.reward, 2), (CbKind.done, 2), (CbKind.info, 2),
            (CbKind.observation, 3), (CbKind.reward, 3), (CbKind.done, 3),
            (CbKind.info, 3)] :=
  ⟨by decide,
    (C13_state_records demoPlatform (demoPeer []) (demoSession [1, 2, 3]) 0
      demoMethods.GetObservation demoMethods.GetReward demoMethods.GetDone demoMethods.GetInfo
      rfl rfl rfl rfl demoBatch (by decide)).1,
    (C13_state_records demoPlatform (demoPeer []) (demoSession [1, 2, 3]) 0
      demoMethods.GetObservation demoMethods.GetReward demoMethods.GetDone demoMethods.GetInfo
      rfl rfl rfl rfl demoBatch (by decide)).2.2.1⟩

/-! ## C14: the records of the init message -/

/-- With the two space callbacks bound, record `i` of the loop of `Init` is the
record of entry `i`, asked in the state the entries before it have left. -/
theorem OpenGymMultiInterface.initAgents_record (s : OpenGymMultiInterface ε)
    (fs fa : Nat → ε → Option OpenGymSpace × ε)
    (hs : s.m_observationSpaceCb = some fs) (ha : s.m_actionSpaceCb = some fa)
    (ids : List Nat) (e : ε) (i : Nat) :
    (s.initAgents ids e).val[i]?
      = (ids[i]?).map fun a =>
          specInitRecord fs fa a ((ids.take i).foldl (fun x b => specInitEnv fs fa b x) e) := by
  induction ids generalizing e i with
  | nil => simp [OpenGymMultiInterface.initAgents]
  | cons a t ih =>
    cases i with
    | zero =>
      simp [OpenGymMultiInterface.initAgents, OpenGymMultiInterface.GetObservationSpace,
        OpenGymMultiInterface.GetActionSpace, hs, ha, specInitRecord]
    | succ j =>
      have h := ih (specInitEnv fs fa a e) j
      simp only [OpenGymMultiInterface.initAgents, OpenGymMultiInterface.GetObservationSpace,
        OpenGymMultiInterface.GetActionSpace, hs, ha, List.getElem?_cons_succ,
        List.take_succ_cons, List.foldl_cons]
      exact h

/-- C14: let the two space callbacks be bound, as the constructor of
`OpenGymMultiEnv` binds them. The first `Init` on a non-empty registry sends
exactly one `MultiAgentInitMsg`; it carries the process id and the parent process
id and one `AgentInitMsg` per registry entry, in registry order. Record `i` has
the agent id of entry `i`, the description of the observation space exactly when
the callback returns a non-null observation space for that id, and the
description of the action space exactly when the callback returns a non-null
action space for it; the callbacks are asked in the simulation state left by the
queries for the entries before `i`, observation space first. -/
theorem C14_init_records (p : Platform) (peer : PeerReplies) (s : OpenGymMultiInterface ε)
    (e : ε) (fs fa : Nat → ε → Option OpenGymSpace × ε)
    (hs : s.m_observationSpaceCb = some fs) (ha : s.m_actionSpaceCb = some fa)
    (hfresh : s.m_initSimMsgSent = false) (hreg : s.m_agentIdVec ≠ []) :
    ∃ m : MultiAgentInitMsg,
      sentInits (s.Init p peer e).events = [m]
        ∧ m.simprocessid = p.getpid
        ∧ m.wafshellprocessid = p.getppid
        ∧ m.agentinitmsg.length = s.m_agentIdVec.length
        ∧ m.agentinitmsg.map AgentInitMsg.agentid = s.m_agentIdVec
        ∧ (∀ i : Nat,
            m.agentinitmsg[i]?
              = (s.m_agentIdVec[i]?).map fun a =>
                  specInitRecord fs fa a
                    ((s.m_agentIdVec.take i).foldl (fun x b => specInitEnv fs fa b x) e))
        ∧ (∀ (i : Nat) (r : AgentInitMsg), m.agentinitmsg[i]? = some r →
            r.obsspace.isSome
                = (fs r.agentid
                    ((s.m_agentIdVec.take i).foldl (fun x b => specInitEnv fs fa b x) e)).1.isSome
              ∧ r.actspace.isSome
                = (fa r.agentid (fs r.agentid
                    ((s.m_agentIdVec.take i).foldl (fun x b => specInitEnv fs fa b x)
                      e)).2).1.isSome)
        ∧ spaceQueries (s.Init p peer e).events
            = s.m_agentIdVec.flatMap (fun a =>
                [(CbKind.observationSpace, a), (CbKind.actionSpace, a)]) := by
  have h1 := OpenGymMultiInterface.Init_first p peer s e hfresh hreg
  have hids := OpenGymMultiInterface.initAgents_ids
    { s with m_initSimMsgSent := true } s.m_agentIdVec e
  have hrec := OpenGymMultiInterface.initAgents_record
    { s with m_initSimMsgSent := true } fs fa hs ha s.m_agentIdVec e
  refine ⟨_, h1.1, rfl, rfl, ?_, hids, hrec, ?_, ?_⟩
  · rw [← List.length_map _ AgentInitMsg.agentid, hids]
  · intro i r hr
    have h2 := hrec i
    rw [hr] at h2
    cases hi : s.m_agentIdVec[i]? with
    | none => rw [hi] at h2; simp at h2
    | some a =>
      rw [hi] at h2
      simp only [Option.map_some', Option.some.injEq] at h2
      subst h2
      simp [specInitRecord]
  · have hq := OpenGymMultiInterface.initAgents_queries
      { s with m_initSimMsgSent := true } s.m_agentIdVec e (by simp [hs]) (by simp [ha])
    have hw := (views_of_isLog
      (OpenGymMultiInterface.waitingLog_isLog p { s with m_initSimMsgSent := true })).2.2.2.1
    have hsp : spaceQueries
        (OpenGymMultiInterface.initAgents { s with m_initSimMsgSent := true }
          s.m_agentIdVec e).events
        = s.m_agentIdVec.flatMap (fun a =>
            [(CbKind.observationSpace, a), (CbKind.actionSpace, a)]) := by
      unfold spaceQueries
      rw [hq]
      apply List.filter_eq_self.mpr
      intro q hq
      simp only [List.mem_flatMap, List.mem_cons, List.mem_singleton, List.not_mem_nil,
        or_false] at hq
      obtain ⟨a, _, h | h⟩ := hq <;> simp [h]
    unfold OpenGymMultiInterface.Init
    simp only [hfresh, Bool.false_eq_true, if_false, List.length_eq_zero, hreg]
    split_ifs <;> simp [hsp, spaceQueries_of_queries_nil hw]

/-- C14, instance: `Init` on the sample session with the registry 10, 20 sends
one init message with the two process ids and two records, for 10 and 20. -/
theorem C14_init_records_witness :
    (demoSession [10, 20]).m_initSimMsgSent = false
      ∧ (demoSession [10, 20]).m_agentIdVec ≠ []
      ∧ ∃ m : MultiAgentInitMsg,
          sentInits ((demoSession [10, 20]).Init demoPlatform (demoPeer []) 0).events = [m]
            ∧ m.simprocessid = 4242
            ∧ m.wafshellprocessid = 4241
            ∧ m.agentinitmsg.length = 2
            ∧ m.agentinitmsg.map AgentInitMsg.agentid = [10, 20] :=
  ⟨rfl, by decide,
    (C14_init_records demoPlatform (demoPeer []) (demoSession [10, 20]) 0
      demoMethods.GetObservationSpace demoMethods.GetActionSpace rfl rfl rfl
      (by decide)).imp fun _ h => ⟨h.1, h.2.1, h.2.2.1, h.2.2.2.1, h.2.2.2.2.1⟩⟩

/-! ## Sequences of calls, continued -/

/-- A sequence of calls in two parts: the second part runs in what the first
part left, unless the first part ended in `std::exit`. -/
theorem run_append (p : Platform) (a b : List (Op ε)) (s : OpenGymMultiInterface ε) (e : ε)
    (h : (run p a s e).exited = false) :
    run p (a ++ b) s e
      = ⟨(run p b (run p a s e).self (run p a s e).env).self,
          (run p b (run p a s e).self (run p a s e).env).env,
          (run p a s e).events ++ (run p b (run p a s e).self (run p a s e).env).events,
          (run p b (run p a s e).self (run p a s e).env).exited⟩ := by
  induction a generalizing s e with
  | nil => simp [run]
  | cons op rest ih =>
    have hcons : run p (op :: rest ++ b) s e = run p (op :: (rest ++ b)) s e := rfl
    rw [hcons]
    simp only [run] at h ⊢
    split_ifs at h ⊢ with hx
    · rw [hx] at h; exact absurd h (by simp)
    · rw [ih _ _ h]
      simp [List.append_assoc]

namespace OpenGymMultiInterface

/-- The socket operations of the init phase: none, or the send of the init
message and one receive; the latter exactly in the first `Init` on a non-empty
registry. -/
theorem initPhase_transport (p : Platform) (peer : PeerReplies) (s : OpenGymMultiInterface ε)
    (e : ε) :
    (transport (s.initPhase p peer e).events = []
        ∧ sentInits (s.initPhase p peer e).events = []
        ∧ (s.initPhase p peer e).self.m_initSimMsgSent = s.m_initSimMsgSent
        ∧ (s.m_initSimMsgSent = true ∨ s.m_agentIdVec = []))
      ∨ (∃ m0, transport (s.initPhase p peer e).events = [Event.sendInit m0, Event.recv]
          ∧ sentInits (s.initPhase p peer e).events = [m0]
          ∧ s.m_initSimMsgSent = false
          ∧ (s.initPhase p peer e).self.m_initSimMsgSent = true) := by
  by_cases hs : s.m_initSimMsgSent = true
  · left
    rw [initPhase_of_sent p peer s e hs]
    exact ⟨rfl, rfl, rfl, Or.inl hs⟩
  · have hf : s.m_initSimMsgSent = false := by simpa using hs
    have hph : s.initPhase p peer e = s.Init p peer e := by simp [initPhase, hf]
    rw [hph]
    by_cases hr : s.m_agentIdVec = []
    · left
      rw [Init_of_empty p peer s e hf hr]
      have hl := views_of_isLog (emptyRegistryLog_isLog s)
      exact ⟨hl.2.2.1, hl.1, rfl, Or.inr hr⟩
    · right
      exact ⟨_, (Init_first_transport p peer s e hf hr).1, (Init_first p peer s e hf hr).1, hf,
        (Init_first p peer s e hf hr).2.2⟩

/-- The flag `m_initSimMsgSent` after a step is the flag after its init phase. -/
theorem NotifyCurrentState_sent (p : Platform) (peer : PeerReplies)
    (s : OpenGymMultiInterface ε) (e : ε) :
    (s.NotifyCurrentState p peer e).self.m_initSimMsgSent
      = (s.initPhase p peer e).self.m_initSimMsgSent := by
  unfold NotifyCurrentState
  simp only []
  split_ifs <;> rfl

end OpenGymMultiInterface

/-! ## C16: `Init` on an empty registry -/

/-- C16 (as amended): `Init` on a session whose init message is unsent and whose
registry is empty sends no init message, makes no connection and no socket
operation, leaves the session (so `m_initSimMsgSent`, still false) and the
simulation state as they were, and returns normally: it writes the five error
lines, the last of which asks the user to interrupt the process, and makes no
call of `Simulator::Stop`, `Simulator::Destroy` or `std::exit`. -/
theorem C16_init_on_empty_registry (p : Platform) (peer : PeerReplies)
    (s : OpenGymMultiInterface ε) (e : ε) (hfresh : s.m_initSimMsgSent = false)
    (hreg : s.m_agentIdVec = []) :
    s.Init p peer e = ⟨s, e, s.emptyRegistryLog, false⟩
      ∧ sentInits (s.Init p peer e).events = []
      ∧ connects (s.Init p peer e).events = []
      ∧ transport (s.Init p peer e).events = []
      ∧ (s.Init p peer e).self.m_initSimMsgSent = false
      ∧ (s.Init p peer e).exited = false
      ∧ (∀ ev ∈ (s.Init p peer e).events, ev.isLog = true)
      ∧ Event.SimulatorStop ∉ (s.Init p peer e).events
      ∧ Event.SimulatorDestroy ∉ (s.Init p peer e).events
      ∧ (∀ code, Event.exit code ∉ (s.Init p peer e).events)
      ∧ (s.Init p peer e).events.getLast?
          = some (Event.logUncond "> ERROR ... [Please Key Ctrl+C]") := by
  have h := OpenGymMultiInterface.Init_of_empty p peer s e hfresh hreg
  have hl := views_of_isLog (OpenGymMultiInterface.emptyRegistryLog_isLog s)
  have hlog := OpenGymMultiInterface.emptyRegistryLog_isLog s
  rw [h]
  refine ⟨rfl, hl.1, hl.2.2.2.2.2.2, hl.2.2.1, hfresh, rfl, hlog, ?_, ?_, ?_, ?_⟩
  · intro hc; exact absurd (hlog _ hc) (by simp [Event.isLog])
  · intro hc; exact absurd (hlog _ hc) (by simp [Event.isLog])
  · intro code hc; exact absurd (hlog _ hc) (by simp [Event.isLog])
  · simp [OpenGymMultiInterface.emptyRegistryLog]

/-- C16, instance: `Init` on the sample session with an empty registry. -/
theorem C16_init_on_empty_registry_witness :
    (demoSession []).m_initSimMsgSent = false
      ∧ (demoSession []).m_agentIdVec = []
      ∧ sentInits ((demoSession []).Init demoPlatform (demoPeer []) 0).events = []
      ∧ ((demoSession []).Init demoPlatform (demoPeer []) 0).exited = false :=
  ⟨rfl, rfl,
    (C16_init_on_empty_registry demoPlatform (demoPeer []) (demoSession []) 0 rfl rfl).2.1,
    (C16_init_on_empty_registry demoPlatform (demoPeer []) (demoSession []) 0 rfl
      rfl).2.2.2.2.2.1⟩

/-- C16, as first stated, fails in its last part: `Init` on the empty registry of
a fresh environment returns normally, with no call of `Simulator::Stop`,
`Simulator::Destroy` or `std::exit` among its events, and a step that follows
goes on to send a state batch. -/
theorem C16_init_on_empty_registry_returns :
    ((demoSession []).Init demoPlatform (demoPeer []) 0).exited = false
      ∧ Event.SimulatorStop ∉ ((demoSession []).Init demoPlatform (demoPeer []) 0).events
      ∧ Event.SimulatorDestroy ∉ ((demoSession []).Init demoPlatform (demoPeer []) 0).events
      ∧ Event.exit 0 ∉ ((demoSession []).Init demoPlatform (demoPeer []) 0).events
      ∧ ((demoSession []).Init demoPlatform (demoPeer []) 0).events.length = 5
      ∧ (run demoPlatform [Op.Init (demoPeer []), Op.NotifyCurrentState (demoPeer [])]
          (demoSession []) 0).exited = false
      ∧ (sentStates (run demoPlatform
          [Op.Init (demoPeer []), Op.NotifyCurrentState (demoPeer [])]
          (demoSession []) 0).events).length = 1 := by
  decide

/-! ## C17: at most one init message -/

section InitAtMostOnce

open OpenGymMultiInterface

/-- `Init` is the init phase of a step. -/
theorem OpenGymMultiInterface.initPhase_eq_Init (p : Platform) (peer : PeerReplies)
    (s : OpenGymMultiInterface ε) (e : ε) : s.initPhase p peer e = s.Init p peer e := by
  unfold OpenGymMultiInterface.initPhase
  split_ifs with h
  · rw [Init_of_sent p peer s e h]
  · rfl

/-- One call sends no init message and leaves `m_initSimMsgSent` as it was, or
it sends one init message, finds the flag unset and sets it. -/
theorem Op.apply_sentInits (p : Platform) (op : Op ε) (s : OpenGymMultiInterface ε) (e : ε) :
    (sentInits (op.apply p s e).events = []
        ∧ (op.apply p s e).self.m_initSimMsgSent = s.m_initSimMsgSent)
      ∨ (∃ m0, sentInits (op.apply p s e).events = [m0] ∧ s.m_initSimMsgSent = false
          ∧ (op.apply p s e).self.m_initSimMsgSent = true) := by
  have key : ∀ (t : OpenGymMultiInterface ε) (peer : PeerReplies),
      (sentInits (t.NotifyCurrentState p peer e).events = []
          ∧ (t.NotifyCurrentState p peer e).self.m_initSimMsgSent = t.m_initSimMsgSent)
        ∨ (∃ m0, sentInits (t.NotifyCurrentState p peer e).events = [m0]
            ∧ t.m_initSimMsgSent = false
            ∧ (t.NotifyCurrentState p peer e).self.m_initSimMsgSent = true) := by
    intro t peer
    rw [(NotifyCurrentState_init_views p peer t e).1, NotifyCurrentState_sent p peer t e]
    rcases initPhase_transport p peer t e with h | ⟨m0, h⟩
    · exact Or.inl ⟨h.2.1, h.2.2.1⟩
    · exact Or.inr ⟨m0, h.2.1, h.2.2.1, h.2.2.2⟩
  cases op with
  | Init peer =>
    have h := initPhase_transport p peer s e
    rw [initPhase_eq_Init p peer s e] at h
    rcases h with h | ⟨m0, h⟩
    · exact Or.inl ⟨h.2.1, h.2.2.1⟩
    · exact Or.inr ⟨m0, h.2.1, h.2.2.1, h.2.2.2⟩
  | Notify entity peer => exact key (s.withEntity entity) peer
  | NotifyCurrentState peer => exact key s peer
  | WaitForStop peer => exact key s peer
  | NotifySimulationEnd peer =>
    by_cases h : s.m_initSimMsgSent = true
    · exact Or.inl ⟨(Op.apply_sent p (Op.NotifySimulationEnd peer) s e h).1,
        by rw [Op.apply_sent_mono p (Op.NotifySimulationEnd peer) s e h, h]⟩
    · have hf : s.m_initSimMsgSent = false := by simpa using h
      have he : (Op.NotifySimulationEnd peer).apply p s e
          = ⟨{ s with m_simEnd := true }, e, [], false⟩ := by
        simp [Op.apply, OpenGymMultiInterface.NotifySimulationEnd, hf]
      rw [he]
      exact Or.inl ⟨rfl, rfl⟩
  | AddAgent a => exact Or.inl ⟨rfl, rfl⟩
  | GetActionSpace a =>
    exact Or.inl ⟨(views_of_isQuery fun ev h =>
      isQuery_of_isSpaceQuery (GetActionSpace_isSpaceQuery s a e ev h)).1, rfl⟩
  | GetObservationSpace a =>
    exact Or.inl ⟨(views_of_isQuery fun ev h =>
      isQuery_of_isSpaceQuery (GetObservationSpace_isSpaceQuery s a e ev h)).1, rfl⟩
  | GetObservation a =>
    exact Or.inl ⟨(views_of_isQuery fun ev h =>
      isQuery_of_isStateQuery (GetObservation_isStateQuery s a e ev h)).1, rfl⟩
  | GetReward a =>
    exact Or.inl ⟨(views_of_isQuery fun ev h =>
      isQuery_of_isStateQuery (GetReward_isStateQuery s a e ev h)).1, rfl⟩
  | GetDone a =>
    exact Or.inl ⟨(views_of_isQuery fun ev h =>
      isQuery_of_isStateQuery (GetDone_isStateQuery s a e ev h)).1, rfl⟩
  | GetInfo a =>
    exact Or.inl ⟨(views_of_isQuery fun ev h =>
      isQuery_of_isStateQuery (GetInfo_isStateQuery s a e ev h)).1, rfl⟩
  | ExecuteActions a x =>
    exact Or.inl ⟨(views_of_isAction (ExecuteActions_isAction s a x e)).1, rfl⟩
  | _ => exact Or.inl ⟨rfl, rfl⟩

/-- A sequence of calls sends no init message and leaves `m_initSimMsgSent` as it
was, or it sends exactly one, finds the flag unset and leaves it set. -/
theorem run_sentInits (p : Platform) (ops : List (Op ε)) (s : OpenGymMultiInterface ε)
    (e : ε) :
    (sentInits (run p ops s e).events = []
        ∧ (run p ops s e).self.m_initSimMsgSent = s.m_initSimMsgSent)
      ∨ (∃ m0, sentInits (run p ops s e).events = [m0] ∧ s.m_initSimMsgSent = false
          ∧ (run p ops s e).self.m_initSimMsgSent = true) := by
  induction ops generalizing s e with
  | nil => exact Or.inl ⟨rfl, rfl⟩
  | cons op rest ih =>
    have h1 := Op.apply_sentInits p op s e
    simp only [run]
    split_ifs
    · exact h1
    · rcases h1 with ⟨h1, h2⟩ | ⟨m0, h1, h2, h3⟩
      · rcases ih (op.apply p s e).self (op.apply p s e).env with ⟨h4, h5⟩ | ⟨m1, h4, h5, h6⟩
        · exact Or.inl ⟨by simp [h1, h4], by rw [h5, h2]⟩
        · exact Or.inr ⟨m1, by simp [h1, h4], by rw [← h2, h5], h6⟩
      · exact Or.inr ⟨m0, by simp [h1, run_sent p rest _ _ h3], h2,
          run_sent_mono p rest _ _ h3⟩

end InitAtMostOnce

/-- C17: whatever public member functions are called on a session, in whatever
order and with whatever replies of the peer (`AddAgent`, `Init`, `Notify`,
`NotifyCurrentState`, `NotifySimulationEnd` among them), at most one
`MultiAgentInitMsg` is sent, none at all when `m_initSimMsgSent` was set at the
start; and once `m_initSimMsgSent` is true after some part of the sequence it is
true after every longer part, no single call ever resetting it. -/
theorem C17_init_at_most_once (p : Platform) (ops : List (Op ε)) (s : OpenGymMultiInterface ε)
    (e : ε) :
    (sentInits (run p ops s e).events).length ≤ 1
      ∧ (s.m_initSimMsgSent = true → sentInits (run p ops s e).events = [])
      ∧ (∀ pre post : List (Op ε), ops = pre ++ post →
          (run p pre s e).self.m_initSimMsgSent = true →
          (run p ops s e).self.m_initSimMsgSent = true)
      ∧ ∀ (op : Op ε) (t : OpenGymMultiInterface ε) (x : ε),
          t.m_initSimMsgSent = true → (op.apply p t x).self.m_initSimMsgSent = true := by
  refine ⟨?_, fun h => run_sent p ops s e h, ?_, fun op t x h => Op.apply_sent_mono p op t x h⟩
  · rcases run_sentInits p ops s e with ⟨h, _⟩ | ⟨m0, h, _⟩ <;> simp [h]
  · intro pre post hsplit hpre
    subst hsplit
    by_cases hx : (run p pre s e).exited = true
    · rw [run_append_exited p pre post s e hx]; exact hpre
    · rw [run_append p pre post s e (by simpa using hx)]
      exact run_sent_mono p post _ _ hpre

/-- C17, instance: two agents are added, `Init` is called twice, a step is made,
a third agent is added, and a step and the end-of-simulation signal follow: one
init message is sent. -/
theorem C17_init_at_most_once_witness :
    (sentInits (run demoPlatform
        [Op.AddAgent 10, Op.AddAgent 20, Op.Init (demoPeer []), Op.Init (demoPeer []),
          Op.Notify demoMethods (demoPeer []), Op.AddAgent 30,
          Op.NotifyCurrentState (demoPeer []), Op.NotifySimulationEnd (demoPeer [])]
        (demoSession []) 0).events).length ≤ 1 :=
  (C17_init_at_most_once demoPlatform
    [Op.AddAgent 10, Op.AddAgent 20, Op.Init (demoPeer []), Op.Init (demoPeer []),
      Op.Notify demoMethods (demoPeer []), Op.AddAgent 30,
      Op.NotifyCurrentState (demoPeer []), Op.NotifySimulationEnd (demoPeer [])]
    (demoSession []) 0).1

/-! ## The socket operations of one call -/

section Transport

open OpenGymMultiInterface

/-- The socket operations of a step: nothing, the init exchange, the state
exchange, or the init exchange followed by the state exchange. A state exchange
without init exchange happens when the init message was sent before, or with a
batch of no records. -/
theorem OpenGymMultiInterface.NotifyCurrentState_transport (p : Platform)
    (peer : PeerReplies) (s : OpenGymMultiInterface ε) (e : ε) :
    transport (s.NotifyCurrentState p peer e).events = []
      ∨ (∃ m0, transport (s.NotifyCurrentState p peer e).events
          = [Event.sendInit m0, Event.recv])
      ∨ (∃ m, transport (s.NotifyCurrentState p peer e).events
            = [Event.sendState m, Event.recv]
          ∧ (s.m_initSimMsgSent = true ∨ m.agentstatemsg = []))
      ∨ (∃ m0 m, transport (s.NotifyCurrentState p peer e).events
          = [Event.sendInit m0, Event.recv, Event.sendState m, Event.recv]) := by
  by_cases hst : (s.initPhase p peer e).self.m_stopEnvRequested = true
  · rw [NotifyCurrentState_stopped p peer s e hst]
    rcases initPhase_transport p peer s e with h | ⟨m0, h⟩
    · exact Or.inl h.1
    · exact Or.inr (Or.inl ⟨m0, h.1⟩)
  · have hl := (NotifyCurrentState_live p peer s e (by simpa using hst)).1
    rcases initPhase_transport p peer s e with h | ⟨m0, h⟩
    · refine Or.inr (Or.inr (Or.inl ⟨_, by rw [hl, h.1]; rfl, ?_⟩))
      rcases h.2.2.2 with hs | hr
      · exact Or.inl hs
      · right
        show ((s.initPhase p peer e).self.collectStates s.m_agentIdVec
          (s.initPhase p peer e).env).val = []
        rw [hr]
        rfl
    · exact Or.inr (Or.inr (Or.inr ⟨m0, _, by rw [hl, h.1]; rfl⟩))

/-- A call that is no step, no `Init` and no end-of-simulation signal performs no
socket operation. -/
theorem Op.apply_transport_quiet (p : Platform) (op : Op ε) (s : OpenGymMultiInterface ε)
    (e : ε) (hop : op.isStepOrEnd = false) : transport (op.apply p s e).events = [] := by
  cases op with
  | Init peer => cases hop
  | Notify entity peer => cases hop
  | NotifyCurrentState peer => cases hop
  | WaitForStop peer => cases hop
  | NotifySimulationEnd peer => cases hop
  | GetActionSpace a =>
    exact (views_of_isQuery fun ev h =>
      isQuery_of_isSpaceQuery (GetActionSpace_isSpaceQuery s a e ev h)).2.2.1
  | GetObservationSpace a =>
    exact (views_of_isQuery fun ev h =>
      isQuery_of_isSpaceQuery (GetObservationSpace_isSpaceQuery s a e ev h)).2.2.1
  | GetObservation a =>
    exact (views_of_isQuery fun ev h =>
      isQuery_of_isStateQuery (GetObservation_isStateQuery s a e ev h)).2.2.1
  | GetReward a =>
    exact (views_of_isQuery fun ev h =>
      isQuery_of_isStateQuery (GetReward_isStateQuery s a e ev h)).2.2.1
  | GetDone a =>
    exact (views_of_isQuery fun ev h =>
      isQuery_of_isStateQuery (GetDone_isStateQuery s a e ev h)).2.2.1
  | GetInfo a =>
    exact (views_of_isQuery fun ev h =>
      isQuery_of_isStateQuery (GetInfo_isStateQuery s a e ev h)).2.2.1
  | ExecuteActions a x => exact (views_of_isAction (ExecuteActions_isAction s a x e)).2.2.1
  | _ => rfl

/-- The socket operations of one call of whatever public member function. -/
theorem Op.apply_transport (p : Platform) (op : Op ε) (s : OpenGymMultiInterface ε) (e : ε) :
    transport (op.apply p s e).events = []
      ∨ (∃ m0, transport (op.apply p s e).events = [Event.sendInit m0, Event.recv])
      ∨ (∃ m, transport (op.apply p s e).events = [Event.sendState m, Event.recv]
          ∧ (s.m_initSimMsgSent = true ∨ m.agentstatemsg = []))
      ∨ (∃ m0 m, transport (op.apply p s e).events
          = [Event.sendInit m0, Event.recv, Event.sendState m, Event.recv]) := by
  by_cases hop : op.isStepOrEnd = true
  · cases op with
    | Init peer =>
      have h := initPhase_transport p peer s e
      rw [initPhase_eq_Init p peer s e] at h
      rcases h with h | ⟨m0, h⟩
      · exact Or.inl h.1
      · exact Or.inr (Or.inl ⟨m0, h.1⟩)
    | Notify entity peer => exact NotifyCurrentState_transport p peer (s.withEntity entity) e
    | NotifyCurrentState peer => exact NotifyCurrentState_transport p peer s e
    | WaitForStop peer => exact NotifyCurrentState_transport p peer s e
    | NotifySimulationEnd peer =>
      by_cases h : s.m_initSimMsgSent = true
      · have he : (Op.NotifySimulationEnd peer).apply p s e
            = OpenGymMultiInterface.NotifyCurrentState p peer { s with m_simEnd := true } e := by
          simp [Op.apply, OpenGymMultiInterface.NotifySimulationEnd,
            OpenGymMultiInterface.WaitForStop, h]
        rw [he]
        exact NotifyCurrentState_transport p peer { s with m_simEnd := true } e
      · have he : (Op.NotifySimulationEnd peer).apply p s e
            = ⟨{ s with m_simEnd := true }, e, [], false⟩ := by
          simp [Op.apply, OpenGymMultiInterface.NotifySimulationEnd, h]
        rw [he]
        exact Or.inl rfl
    | _ => cases hop
  · exact Or.inl (Op.apply_transport_quiet p op s e (by simpa using hop))

end Transport

/-! ## C20: send and receive alternate -/

/-- Two lists of send/receive pairs make a list of send/receive pairs. -/
theorem sendRecvPairs_append (a b : List Event) (ha : sendRecvPairs a = true)
    (hb : sendRecvPairs b = true) : sendRecvPairs (a ++ b) = true := by
  induction a using sendRecvPairs.induct with
  | case1 => exact hb
  | case2 m t ih => exact ih (by simpa [sendRecvPairs] using ha)
  | case3 m t ih => exact ih (by simpa [sendRecvPairs] using ha)
  | case4 l h1 h2 h3 =>
    unfold sendRecvPairs at ha
    split at ha
    · exact absurd rfl h1
    · exact absurd rfl (h2 _ _)
    · exact absurd rfl (h3 _ _)
    · cases ha

/-- C20: for every sequence of calls of public member functions (`Init`, steps
and the end-of-simulation signal among them) and all replies, the socket
operations of the session are a sequence of pairs, each one send immediately
followed by one receive: a send comes first, and no two sends and no two
receives follow each other. Each single call performs no, one or two such pairs:
nothing, the init exchange, the state exchange, or the init exchange followed by
the state exchange. -/
theorem C20_send_receive_alternate (p : Platform) (ops : List (Op ε))
    (s : OpenGymMultiInterface ε) (e : ε) :
    sendRecvPairs (transport (run p ops s e).events) = true
      ∧ ∀ (op : Op ε) (t : OpenGymMultiInterface ε) (x : ε),
          sendRecvPairs (transport (op.apply p t x).events) = true
            ∧ (transport (op.apply p t x).events = []
              ∨ (∃ m0, transport (op.apply p t x).events = [Event.sendInit m0, Event.recv])
              ∨ (∃ m, transport (op.apply p t x).events = [Event.sendState m, Event.recv])
              ∨ (∃ m0 m, transport (op.apply p t x).events
                  = [Event.sendInit m0, Event.recv, Event.sendState m, Event.recv])) := by
  have hop : ∀ (op : Op ε) (t : OpenGymMultiInterface ε) (x : ε),
      sendRecvPairs (transport (op.apply p t x).events) = true := by
    intro op t x
    rcases Op.apply_transport p op t x with h | ⟨m0, h⟩ | ⟨m, h, _⟩ | ⟨m0, m, h⟩ <;>
      rw [h] <;> rfl
  refine ⟨?_, fun op t x => ⟨hop op t x, ?_⟩⟩
  · induction ops generalizing s e with
    | nil => rfl
    | cons op rest ih =>
      simp only [run]
      split_ifs
      · exact hop op s e
      · rw [transport_append]
        exact sendRecvPairs_append _ _ (hop op s e) (ih _ _)
  · rcases Op.apply_transport p op t x with h | ⟨m0, h⟩ | ⟨m, h, _⟩ | ⟨m0, m, h⟩
    · exact Or.inl h
    · exact Or.inr (Or.inl ⟨m0, h⟩)
    · exact Or.inr (Or.inr (Or.inl ⟨m, h⟩))
    · exact Or.inr (Or.inr (Or.inr ⟨m0, m, h⟩))

/-- C20, instance: a first step, a second step and the end-of-simulation signal
on the registry 10, 20 give four send/receive pairs. -/
theorem C20_send_receive_alternate_witness :
    sendRecvPairs (transport (run demoPlatform
        [Op.Notify demoMethods (demoPeer []), Op.Notify demoMethods (demoPeer [⟨10, ⟨[7]⟩⟩]),
          Op.NotifySimulationEnd (demoPeer [])]
        (demoSession [10, 20]) 0).events) = true
      ∧ (transport (run demoPlatform
        [Op.Notify demoMethods (demoPeer []), Op.Notify demoMethods (demoPeer [⟨10, ⟨[7]⟩⟩]),
          Op.NotifySimulationEnd (demoPeer [])]
        (demoSession [10, 20]) 0).events).length = 8 :=
  ⟨(C20_send_receive_alternate demoPlatform
      [Op.Notify demoMethods (demoPeer []), Op.Notify demoMethods (demoPeer [⟨10, ⟨[7]⟩⟩]),
        Op.NotifySimulationEnd (demoPeer [])]
      (demoSession [10, 20]) 0).1, by decide⟩

/-! ## C15: state batches and the init message -/

namespace OpenGymMultiInterface

/-- A step with no stop request after its init phase, `m_simEnd` unset and no
stop request in the reply: `ExecuteActions` is called for every record of the
reply, the session is left as the init phase left it, and the call returns. -/
theorem NotifyCurrentState_normal (p : Platform) (peer : PeerReplies)
    (s : OpenGymMultiInterface ε) (e : ε)
    (hlive : (s.initPhase p peer e).self.m_stopEnvRequested = false)
    (hend : s.m_simEnd = false) (hstop : peer.reply.msg.stopsimreq = false) :
    executed (s.NotifyCurrentState p peer e).events
        = peer.reply.msg.agentactmsg.map
            (fun r => (r.agentid, p.CreateFromDataContainerPbMsg r.actdata))
      ∧ (s.NotifyCurrentState p peer e).self = (s.initPhase p peer e).self
      ∧ (s.NotifyCurrentState p peer e).exited = false := by
  have hx : (s.initPhase p peer e).exited = false := by
    by_contra hc
    have := initPhase_exited p peer s e (by simpa using hc)
    rw [hlive] at this
    exact Bool.false_ne_true this
  have hi := initPhase_events_views p peer s e
  have hse := initPhase_simEnd p peer s e
  have hq := fun (t : OpenGymMultiInterface ε) ids e =>
    views_of_isQuery (collectStates_isQuery t ids e)
  have hex := fun (t : OpenGymMultiInterface ε) acts e => executeLoop_executed p t acts e
  unfold NotifyCurrentState
  simp only [hx, hlive, hse, hend, hstop, Bool.false_eq_true, if_false]
  simp [hi, hq, hex]

/-- A session without stop request in which the init message was sent or the
registry is empty sends a state batch in its next step. -/
theorem NotifyCurrentState_sends (p : Platform) (peer : PeerReplies)
    (s : OpenGymMultiInterface ε) (e : ε) (hstop : s.m_stopEnvRequested = false)
    (h : s.m_initSimMsgSent = true ∨ s.m_agentIdVec = []) :
    ∃ m, sentStates (s.NotifyCurrentState p peer e).events = [m] := by
  have hst : (s.initPhase p peer e).self.m_stopEnvRequested = false := by
    by_cases hs : s.m_initSimMsgSent = true
    · rw [initPhase_of_sent p peer s e hs]; exact hstop
    · rcases h with h | h
      · exact absurd h hs
      · rw [initPhase_eq_Init, Init_of_empty p peer s e (by simpa using hs) h]; exact hstop
  exact ⟨_, (NotifyCurrentState_live p peer s e hst).2.1⟩

end OpenGymMultiInterface

/-- C18 (as amended): the value `ParseFromArray` returns is never looked at, so a
step, and `Init`, with a reply that did not parse has the outcome of the same
call with a reply that parsed to the same message object. In particular a step
with `m_simEnd` unset whose malformed reply left no stop request in the message
object reports nothing: `ExecuteActions` is called for every record the parse
left there, the session is left as the init phase left it, the call returns
normally, and the next step sends a state batch again. -/
theorem C18_malformed_reply_not_noticed (p : Platform) (peer : PeerReplies)
    (s : OpenGymMultiInterface ε) (e : ε) (_hbad : peer.reply.ok = false)
    (hlive : (s.initPhase p peer e).self.m_stopEnvRequested = false)
    (hend : s.m_simEnd = false) (hstop : peer.reply.msg.stopsimreq = false) :
    (∀ okAck okReply : Bool,
        s.NotifyCurrentState p ⟨⟨okAck, peer.ack.msg⟩, ⟨okReply, peer.reply.msg⟩⟩ e
            = s.NotifyCurrentState p peer e
          ∧ s.Init p ⟨⟨okAck, peer.ack.msg⟩, ⟨okReply, peer.reply.msg⟩⟩ e = s.Init p peer e)
      ∧ executed (s.NotifyCurrentState p peer e).events
          = peer.reply.msg.agentactmsg.map
              (fun r => (r.agentid, p.CreateFromDataContainerPbMsg r.actdata))
      ∧ (s.NotifyCurrentState p peer e).self = (s.initPhase p peer e).self
      ∧ (s.NotifyCurrentState p peer e).self.m_stopEnvRequested = false
      ∧ (s.NotifyCurrentState p peer e).exited = false
      ∧ ∀ (q : Platform) (next : PeerReplies) (x : ε),
          ∃ m, sentStates ((s.NotifyCurrentState p peer e).self.NotifyCurrentState q next
            x).events = [m] := by
  have hn := OpenGymMultiInterface.NotifyCurrentState_normal p peer s e hlive hend hstop
  refine ⟨fun _ _ => ⟨rfl, rfl⟩, hn.1, hn.2.1, by rw [hn.2.1]; exact hlive, hn.2.2, ?_⟩
  intro q next x
  rw [hn.2.1]
  exact OpenGymMultiInterface.NotifyCurrentState_sends q next _ x hlive
    (OpenGymMultiInterface.initPhase_sent_or_empty p peer s e)

/-- C18, instance: in the sample session after `Init`, a reply that did not parse
and left a record for agent 10 makes the step execute the action for 10. -/
theorem C18_malformed_reply_not_noticed_witness :
    (demoMalformedPeer [⟨10, ⟨[7]⟩⟩]).reply.ok = false
      ∧ executed (((demoSession [10, 20]).Init demoPlatform (demoPeer []) 0).self.NotifyCurrentState
          demoPlatform (demoMalformedPeer [⟨10, ⟨[7]⟩⟩]) 0).events
        = [(10, some ⟨⟨[7]⟩⟩)] :=
  ⟨rfl,
    (C18_malformed_reply_not_noticed demoPlatform (demoMalformedPeer [⟨10, ⟨[7]⟩⟩])
      ((demoSession [10, 20]).Init demoPlatform (demoPeer []) 0).self 0 rfl rfl rfl rfl).2.1⟩

/-- C18, as first stated, fails: after `Init` on the registry 10, 20 a step whose
reply did not parse and left a record for agent 10 executes that action, returns
normally with no stop request recorded, and the step after it sends another
state batch. -/
theorem C18_malformed_reply_is_executed :
    (demoMalformedPeer [⟨10, ⟨[7]⟩⟩]).reply.ok = false
      ∧ executed (run demoPlatform
          [Op.Init (demoPeer []), Op.NotifyCurrentState (demoMalformedPeer [⟨10, ⟨[7]⟩⟩])]
          (demoSession [10, 20]) 0).events = [(10, some ⟨⟨[7]⟩⟩)]
      ∧ actionCbCalls (run demoPlatform
          [Op.Init (demoPeer []), Op.NotifyCurrentState (demoMalformedPeer [⟨10, ⟨[7]⟩⟩])]
          (demoSession [10, 20]) 0).events = [(10, some ⟨⟨[7]⟩⟩)]
      ∧ (run demoPlatform
          [Op.Init (demoPeer []), Op.NotifyCurrentState (demoMalformedPeer [⟨10, ⟨[7]⟩⟩])]
          (demoSession [10, 20]) 0).exited = false
      ∧ (run demoPlatform
          [Op.Init (demoPeer []), Op.NotifyCurrentState (demoMalformedPeer [⟨10, ⟨[7]⟩⟩])]
          (demoSession [10, 20]) 0).self.m_stopEnvRequested = false
      ∧ (sentStates (run demoPlatform
          [Op.Init (demoPeer []), Op.NotifyCurrentState (demoMalformedPeer [⟨10, ⟨[7]⟩⟩]),
            Op.NotifyCurrentState (demoPeer [])]
          (demoSession [10, 20]) 0).events).length = 2 := by
  decide

/-- C19 (as amended): the ids of the action records are not compared with the
registry. In a step with `m_simEnd` unset and a reply without stop request,
`ExecuteActions` is called for every record of the reply, in reply order, also
for a record whose id is not registered; the session is left as the init phase
left it and the call returns normally, with no error surfaced to its caller. -/
theorem C19_unregistered_ids_are_executed (p : Platform) (peer : PeerReplies)
    (s : OpenGymMultiInterface ε) (e : ε)
    (hlive : (s.initPhase p peer e).self.m_stopEnvRequested = false)
    (hend : s.m_simEnd = false) (hstop : peer.reply.msg.stopsimreq = false) :
    executed (s.NotifyCurrentState p peer e).events
        = peer.reply.msg.agentactmsg.map
            (fun r => (r.agentid, p.CreateFromDataContainerPbMsg r.actdata))
      ∧ (∀ r ∈ peer.reply.msg.agentactmsg, r.agentid ∉ s.m_agentIdVec →
          (r.agentid, p.CreateFromDataContainerPbMsg r.actdata)
            ∈ executed (s.NotifyCurrentState p peer e).events)
      ∧ (s.NotifyCurrentState p peer e).self = (s.initPhase p peer e).self
      ∧ (s.NotifyCurrentState p peer e).exited = false := by
  have hn := OpenGymMultiInterface.NotifyCurrentState_normal p peer s e hlive hend hstop
  refine ⟨hn.1, ?_, hn.2.1, hn.2.2⟩
  intro r hr _
  rw [hn.1]
  exact List.mem_map.mpr ⟨r, hr, rfl⟩

/-- C19, instance: with the registry 10, 20 a reply with one record, for the
unregistered id 99, makes the step call `ExecuteActions` for 99. -/
theorem C19_unregistered_ids_are_executed_witness :
    (99 : Nat) ∉ (demoSession [10, 20]).m_agentIdVec
      ∧ executed ((demoSession [10, 20]).NotifyCurrentState demoPlatform
          (demoPeer [⟨99, ⟨[7]⟩⟩]) 0).events = [(99, some ⟨⟨[7]⟩⟩)] :=
  ⟨by decide,
    (C19_unregistered_ids_are_executed demoPlatform (demoPeer [⟨99, ⟨[7]⟩⟩])
      (demoSession [10, 20]) 0 rfl rfl rfl).1⟩

/-- C19, as first stated, fails: with the registry 10, 20 a reply with one
record, for the unregistered id 99, makes the step call `ExecuteActions` and the
bound callback for 99 and return normally. -/
theorem C19_unregistered_id_reaches_callback :
    (99 : Nat) ∉ (demoSession [10, 20]).m_agentIdVec
      ∧ executed ((demoSession [10, 20]).NotifyCurrentState demoPlatform
          (demoPeer [⟨99, ⟨[7]⟩⟩]) 0).events = [(99, some ⟨⟨[7]⟩⟩)]
      ∧ actionCbCalls ((demoSession [10, 20]).NotifyCurrentState demoPlatform
          (demoPeer [⟨99, ⟨[7]⟩⟩]) 0).events = [(99, some ⟨⟨[7]⟩⟩)]
      ∧ ((demoSession [10, 20]).NotifyCurrentState demoPlatform
          (demoPeer [⟨99, ⟨[7]⟩⟩]) 0).exited = false
      ∧ ((demoSession [10, 20]).NotifyCurrentState demoPlatform
          (demoPeer [⟨99, ⟨[7]⟩⟩]) 0).self.m_stopEnvRequested = false := by
  decide

/-! ## C21: the values of the Done callback -/

namespace OpenGymMultiInterface

/-- The first loop of `Init` reads the two space callbacks only. -/
theorem initAgents_congr (s t : OpenGymMultiInterface ε)
    (ho : t.m_observationSpaceCb = s.m_observationSpaceCb)
    (ha : t.m_actionSpaceCb = s.m_actionSpaceCb) (ids : List Nat) (e : ε) :
    t.initAgents ids e = s.initAgents ids e := by
  induction ids generalizing e with
  | nil => rfl
  | cons a r ih => simp [initAgents, GetObservationSpace, GetActionSpace, ho, ha, ih]

/-- The init phase does not read the Done callback: with another Done callback
it does the same and leaves the same session, but for that callback. -/
theorem initPhase_SetGetDoneCb (p : Platform) (peer : PeerReplies)
    (s : OpenGymMultiInterface ε) (e : ε) (cb : Option (Nat → ε → Bool × ε)) :
    (s.SetGetDoneCb cb).initPhase p peer e
      = ⟨(s.initPhase p peer e).self.SetGetDoneCb cb, (s.initPhase p peer e).env,
          (s.initPhase p peer e).events, (s.initPhase p peer e).exited⟩ := by
  have hc := fun ids x => initAgents_congr { s with m_initSimMsgSent := true }
    { s with m_initSimMsgSent := true, m_doneCb := cb } rfl rfl ids x
  unfold initPhase Init SetGetDoneCb
  by_cases h1 : s.m_initSimMsgSent = true
  · simp [h1]
  · by_cases h2 : s.m_agentIdVec.length = 0
    · simp [h1, h2, emptyRegistryLog]
    · by_cases h3 : peer.ack.msg.stopsimreq = true
      · simp [h1, h2, h3, hc, waitingLog, connectAddr]
      · simp [h1, h2, h3, hc, waitingLog, connectAddr]

end OpenGymMultiInterface

/-- C21: take a step from a session state with given peer replies, and the same
step with any other Done callback in place (so with any other `done` values, for
any agents). The two steps leave the same `m_simEnd`, `m_stopEnvRequested` and
`m_initSimMsgSent`, both end in `std::exit` or both return, they send the same
number of init messages and of state batches and perform the same number of
socket operations, and they make the same sequence of `ExecuteActions` calls. -/
theorem C21_done_does_not_end_session (p : Platform) (peer : PeerReplies)
    (s : OpenGymMultiInterface ε) (e : ε) (cb : Option (Nat → ε → Bool × ε)) :
    ((s.SetGetDoneCb cb).NotifyCurrentState p peer e).self.m_simEnd
        = (s.NotifyCurrentState p peer e).self.m_simEnd
      ∧ ((s.SetGetDoneCb cb).NotifyCurrentState p peer e).self.m_stopEnvRequested
        = (s.NotifyCurrentState p peer e).self.m_stopEnvRequested
      ∧ ((s.SetGetDoneCb cb).NotifyCurrentState p peer e).self.m_initSimMsgSent
        = (s.NotifyCurrentState p peer e).self.m_initSimMsgSent
      ∧ ((s.SetGetDoneCb cb).NotifyCurrentState p peer e).exited
        = (s.NotifyCurrentState p peer e).exited
      ∧ (sentInits ((s.SetGetDoneCb cb).NotifyCurrentState p peer e).events).length
        = (sentInits (s.NotifyCurrentState p peer e).events).length
      ∧ (sentStates ((s.SetGetDoneCb cb).NotifyCurrentState p peer e).events).length
        = (sentStates (s.NotifyCurrentState p peer e).events).length
      ∧ (transport ((s.SetGetDoneCb cb).NotifyCurrentState p peer e).events).length
        = (transport (s.NotifyCurrentState p peer e).events).length
      ∧ executed ((s.SetGetDoneCb cb).NotifyCurrentState p peer e).events
        = executed (s.NotifyCurrentState p peer e).events := by
  have hi := OpenGymMultiInterface.initPhase_SetGetDoneCb p peer s e cb
  have hq := fun (t : OpenGymMultiInterface ε) ids e =>
    views_of_isQuery (OpenGymMultiInterface.collectStates_isQuery t ids e)
  have ha := fun (t : OpenGymMultiInterface ε) acts e =>
    views_of_isAction (OpenGymMultiInterface.executeLoop_isAction p t acts e)
  have hex := fun (t : OpenGymMultiInterface ε) acts e =>
    OpenGymMultiInterface.executeLoop_executed p t acts e
  unfold OpenGymMultiInterface.NotifyCurrentState
  simp only [hi]
  by_cases h1 : (s.initPhase p peer e).exited = true
  · simp [h1, OpenGymMultiInterface.SetGetDoneCb]
  · by_cases h2 : (s.initPhase p peer e).self.m_stopEnvRequested = true
    · simp [h1, h2, OpenGymMultiInterface.SetGetDoneCb]
    · by_cases h3 : (s.initPhase p peer e).self.m_simEnd = true
      · simp [h1, h2, h3, OpenGymMultiInterface.SetGetDoneCb, hq]
      · by_cases h4 : peer.reply.msg.stopsimreq = true
        · simp [h1, h2, h3, h4, OpenGymMultiInterface.SetGetDoneCb, hq]
        · simp [h1, h2, h3, h4, OpenGymMultiInterface.SetGetDoneCb, hq, ha, hex]

/-- C21, instance: the sample session with the registry 1, 2, 3 reports agent 2
as done; with a Done callback that reports every agent as done the step makes
the same two `ExecuteActions` calls and leaves no stop request either. -/
theorem C21_done_does_not_end_session_witness :
    executed
        (((demoSession [1, 2, 3]).SetGetDoneCb (some fun _ n => (true, n + 1))).NotifyCurrentState
          demoPlatform (demoPeer [⟨1, ⟨[7]⟩⟩, ⟨3, ⟨[8]⟩⟩]) 0).events
        = [(1, some ⟨⟨[7]⟩⟩), (3, some ⟨⟨[8]⟩⟩)]
      ∧ (((demoSession [1, 2, 3]).SetGetDoneCb
          (some fun _ n => (true, n + 1))).NotifyCurrentState
          demoPlatform (demoPeer [⟨1, ⟨[7]⟩⟩, ⟨3, ⟨[8]⟩⟩]) 0).self.m_stopEnvRequested = false :=
  have h := C21_done_does_not_end_session demoPlatform (demoPeer [⟨1, ⟨[7]⟩⟩, ⟨3, ⟨[8]⟩⟩])
    (demoSession [1, 2, 3]) 0 (some fun _ n => (true, n + 1))
  ⟨h.2.2.2.2.2.2.2.trans (by decide), h.2.1.trans (by decide)⟩

/-! ## C22: what becomes of the result of `ExecuteActions` -/

/-- C22: the wrapper `ExecuteActions` returns the result of the bound callback
to its caller. The second loop of a step does not look at that result: in a step
with no stop request after its init phase, `m_simEnd` unset and no stop request
in the reply, `ExecuteActions` and the callback are invoked for every record of
the reply, in reply order, whatever the callback returns for any of them, the
session is left as the init phase left it and the call returns. -/
theorem C22_false_result_does_not_abort (p : Platform) (peer : PeerReplies)
    (s : OpenGymMultiInterface ε) (e : ε)
    (cb : Nat → Option OpenGymDataContainer → ε → Bool × ε)
    (hcb : s.m_actionCb = some cb)
    (hlive : (s.initPhase p peer e).self.m_stopEnvRequested = false)
    (hend : s.m_simEnd = false) (hstop : peer.reply.msg.stopsimreq = false) :
    (∀ agent_id action x, (s.ExecuteActions agent_id action x).val = (cb agent_id action x).1)
      ∧ executed (s.NotifyCurrentState p peer e).events
          = peer.reply.msg.agentactmsg.map
              (fun r => (r.agentid, p.CreateFromDataContainerPbMsg r.actdata))
      ∧ actionCbCalls (s.NotifyCurrentState p peer e).events
          = peer.reply.msg.agentactmsg.map
              (fun r => (r.agentid, p.CreateFromDataContainerPbMsg r.actdata))
      ∧ (s.NotifyCurrentState p peer e).self = (s.initPhase p peer e).self
      ∧ (s.NotifyCurrentState p peer e).self.m_simEnd = s.m_simEnd
      ∧ (s.NotifyCurrentState p peer e).self.m_stopEnvRequested = false
      ∧ (s.NotifyCurrentState p peer e).exited = false := by
  have hn := OpenGymMultiInterface.NotifyCurrentState_normal p peer s e hlive hend hstop
  have hx : (s.initPhase p peer e).exited = false := by
    by_contra hc
    have := OpenGymMultiInterface.initPhase_exited p peer s e (by simpa using hc)
    rw [hlive] at this
    exact Bool.false_ne_true this
  have hi := OpenGymMultiInterface.initPhase_events_views p peer s e
  have hse := OpenGymMultiInterface.initPhase_simEnd p peer s e
  have hac := OpenGymMultiInterface.initPhase_actionCb p peer s e
  have hq := fun (t : OpenGymMultiInterface ε) ids e =>
    views_of_isQuery (OpenGymMultiInterface.collectStates_isQuery t ids e)
  have hex := fun (t : OpenGymMultiInterface ε) acts e =>
    OpenGymMultiInterface.executeLoop_actionCbCalls p t acts e
  refine ⟨?_, hn.1, ?_, hn.2.1, ?_, ?_, hn.2.2⟩
  · intro agent_id action x
    simp [OpenGymMultiInterface.ExecuteActions, hcb]
  · unfold OpenGymMultiInterface.NotifyCurrentState
    simp only [hx, hlive, hse, hend, hstop, Bool.false_eq_true, if_false]
    simp [hi, hq, hex, hac, hcb]
  · rw [hn.2.1]; exact hse
  · rw [hn.2.1]; exact hlive

/-- C22, instance: the callback of the sample session returns false for a record
whose action is null. With a platform whose factory returns null for every
record, all three records of the reply are executed, and the flags stay unset. -/
theorem C22_false_result_does_not_abort_witness :
    (∀ agent_id x, (demoMethods.ExecuteActions agent_id none x).1 = false)
      ∧ executed ((demoSession [10, 20]).NotifyCurrentState
          ⟨4242, 4241, fun _ => none⟩
          (demoPeer [⟨10, ⟨[1]⟩⟩, ⟨20, ⟨[2]⟩⟩, ⟨10, ⟨[3]⟩⟩]) 0).events
        = [(10, none), (20, none), (10, none)]
      ∧ actionCbCalls ((demoSession [10, 20]).NotifyCurrentState
          ⟨4242, 4241, fun _ => none⟩
          (demoPeer [⟨10, ⟨[1]⟩⟩, ⟨20, ⟨[2]⟩⟩, ⟨10, ⟨[3]⟩⟩]) 0).events
        = [(10, none), (20, none), (10, none)]
      ∧ ((demoSession [10, 20]).NotifyCurrentState
          ⟨4242, 4241, fun _ => none⟩
          (demoPeer [⟨10, ⟨[1]⟩⟩, ⟨20, ⟨[2]⟩⟩, ⟨10, ⟨[3]⟩⟩]) 0).self.m_stopEnvRequested
        = false :=
  have h := C22_false_result_does_not_abort ⟨4242, 4241, fun _ => none⟩
    (demoPeer [⟨10, ⟨[1]⟩⟩, ⟨20, ⟨[2]⟩⟩, ⟨10, ⟨[3]⟩⟩]) (demoSession [10, 20]) 0
    demoMethods.ExecuteActions rfl rfl rfl rfl
  ⟨fun _ _ => rfl, h.2.1, h.2.2.1, h.2.2.2.2.2.1⟩

/-! ## C23: the session after an accepted init message -/

/-- C23: let the session be fresh (init message unsent, no stop request) with a
non-empty registry, and let the ack carry no stop request, whatever its `done`
field. Then `Init` returns and leaves `m_initSimMsgSent` set, `m_stopEnvRequested`
unset, `m_simEnd` and the registry as they were; and the next step, with any
reply and any entity, performs a state exchange and no init exchange: its socket
operations are the send of one state batch listing the registry and one
receive. -/
theorem C23_init_leaves_session_ready (p : Platform) (peer : PeerReplies)
    (s : OpenGymMultiInterface ε) (e : ε)
    (hfresh : s.m_initSimMsgSent = false) (hstop0 : s.m_stopEnvRequested = false)
    (hreg : s.m_agentIdVec ≠ []) (hack : peer.ack.msg.stopsimreq = false) :
    (s.Init p peer e).self.m_initSimMsgSent = true
      ∧ (s.Init p peer e).self.m_stopEnvRequested = false
      ∧ (s.Init p peer e).self.m_simEnd = s.m_simEnd
      ∧ (s.Init p peer e).self.m_agentIdVec = s.m_agentIdVec
      ∧ (s.Init p peer e).exited = false
      ∧ ∀ (peer2 : PeerReplies) (entity : EnvMethods ε),
          ∃ m, transport ((s.Init p peer e).self.Notify p peer2 entity
                  (s.Init p peer e).env).events = [Event.sendState m, Event.recv]
            ∧ m.ids = s.m_agentIdVec := by
  have h1 := (OpenGymMultiInterface.Init_first p peer s e hfresh hreg).2.2
  have h2 := (OpenGymMultiInterface.Init_first_transport p peer s e hfresh hreg).2
  have hst : (s.Init p peer e).self.m_stopEnvRequested = false := by
    rw [h2.2, hack, hstop0]; rfl
  have hx : (s.Init p peer e).exited = false := by rw [h2.1, hack]
  have hreg2 := OpenGymMultiInterface.Init_agentIdVec p peer s e
  have hse := OpenGymMultiInterface.Init_simEnd p peer s e
  generalize s.Init p peer e = r at h1 hst hx hreg2 hse
  refine ⟨h1, hst, hse, hreg2, hx, ?_⟩
  intro peer2 entity
  have hsent : (r.self.withEntity entity).m_initSimMsgSent = true :=
    (OpenGymMultiInterface.withEntity_sent r.self entity).trans h1
  have hph := OpenGymMultiInterface.initPhase_of_sent p peer2 (r.self.withEntity entity)
    r.env hsent
  have hl := OpenGymMultiInterface.NotifyCurrentState_live p peer2
    (r.self.withEntity entity) r.env (by rw [hph]; exact (OpenGymMultiInterface.withEntity_stop r.self entity).trans hst)
  rw [hph] at hl
  refine ⟨⟨((r.self.withEntity entity).collectStates (r.self.withEntity entity).m_agentIdVec
    r.env).val⟩, ?_, ?_⟩
  · rw [OpenGymMultiInterface.Notify_eq, hl.1]
    rfl
  · unfold MultiAgentStateMsg.ids
    rw [OpenGymMultiInterface.collectStates_ids, OpenGymMultiInterface.withEntity_agentIdVec]
    exact hreg2

/-- C23, instance: the registry 10, 20 and the ack with `done` and
`stopSimRequested` both false. -/
theorem C23_init_leaves_session_ready_witness :
    ((demoSession [10, 20]).Init demoPlatform (demoPeer []) 0).self.m_initSimMsgSent = true
      ∧ ((demoSession [10, 20]).Init demoPlatform (demoPeer []) 0).self.m_stopEnvRequested
          = false
      ∧ ((demoSession [10, 20]).Init demoPlatform (demoPeer []) 0).self.m_simEnd = false
      ∧ ((demoSession [10, 20]).Init demoPlatform (demoPeer []) 0).exited = false :=
  have h := C23_init_leaves_session_ready demoPlatform (demoPeer []) (demoSession [10, 20]) 0
    rfl rfl (by decide) rfl
  ⟨h.1, h.2.1, h.2.2.1, h.2.2.2.2.1⟩

/-! ## C24: the address connected to -/

namespace OpenGymMultiInterface

/-- No call of `Init` changes `m_port`. -/
theorem Init_port (p : Platform) (peer : PeerReplies) (s : OpenGymMultiInterface ε) (e : ε) :
    (s.Init p peer e).self.m_port = s.m_port := by
  unfold Init; split_ifs <;> rfl

/-- No step changes `m_port`. -/
theorem NotifyCurrentState_port (p : Platform) (peer : PeerReplies)
    (s : OpenGymMultiInterface ε) (e : ε) :
    (s.NotifyCurrentState p peer e).self.m_port = s.m_port := by
  have hi : (s.initPhase p peer e).self.m_port = s.m_port := by
    unfold initPhase; split_ifs
    · rfl
    · exact Init_port p peer s e
  unfold NotifyCurrentState
  simp only []
  split_ifs <;> exact hi

/-- The addresses `Init` connects to: none, or the one made of `m_port`. -/
theorem Init_connects (p : Platform) (peer : PeerReplies) (s : OpenGymMultiInterface ε)
    (e : ε) :
    connects (s.Init p peer e).events = [] ∨ connects (s.Init p peer e).events = [s.connectAddr] := by
  by_cases hs : s.m_initSimMsgSent = true
  · left; rw [Init_of_sent p peer s e hs]; rfl
  · have hf : s.m_initSimMsgSent = false := by simpa using hs
    by_cases hr : s.m_agentIdVec = []
    · left
      rw [Init_of_empty p peer s e hf hr]
      exact (views_of_isLog (emptyRegistryLog_isLog s)).2.2.2.2.2.2
    · right; exact (Init_first p peer s e hf hr).2.1

/-- The addresses a step connects to: none, or the one made of `m_port`. -/
theorem NotifyCurrentState_connects (p : Platform) (peer : PeerReplies)
    (s : OpenGymMultiInterface ε) (e : ε) :
    connects (s.NotifyCurrentState p peer e).events = []
      ∨ connects (s.NotifyCurrentState p peer e).events = [s.connectAddr] := by
  rw [(NotifyCurrentState_init_views p peer s e).2.1]
  unfold initPhase
  split_ifs
  · left; rfl
  · exact Init_connects p peer s e

end OpenGymMultiInterface

/-- No call changes `m_port`. -/
theorem Op.apply_port (p : Platform) (op : Op ε) (s : OpenGymMultiInterface ε) (e : ε) :
    (op.apply p s e).self.m_port = s.m_port := by
  cases op with
  | Init peer => exact OpenGymMultiInterface.Init_port p peer s e
  | Notify entity peer =>
    exact OpenGymMultiInterface.NotifyCurrentState_port p peer (s.withEntity entity) e
  | NotifyCurrentState peer => exact OpenGymMultiInterface.NotifyCurrentState_port p peer s e
  | WaitForStop peer => exact OpenGymMultiInterface.NotifyCurrentState_port p peer s e
  | NotifySimulationEnd peer =>
    show (s.NotifySimulationEnd p peer e).self.m_port = s.m_port
    unfold OpenGymMultiInterface.NotifySimulationEnd OpenGymMultiInterface.WaitForStop
    simp only []
    split_ifs
    · exact OpenGymMultiInterface.NotifyCurrentState_port p peer { s with m_simEnd := true } e
    · rfl
  | _ => rfl

/-- The addresses one call connects to: none, or the one made of `m_port`. -/
theorem Op.apply_connects (p : Platform) (op : Op ε) (s : OpenGymMultiInterface ε) (e : ε) :
    connects (op.apply p s e).events = []
      ∨ connects (op.apply p s e).events = [s.connectAddr] := by
  by_cases hs : s.m_initSimMsgSent = true
  · exact Or.inl (Op.apply_sent p op s e hs).2
  · have hq := fun (op : Op ε) =>
      (Op.apply_sent p op { s with m_initSimMsgSent := true } e rfl).2
    cases op with
    | Init peer => exact OpenGymMultiInterface.Init_connects p peer s e
    | Notify entity peer =>
      exact OpenGymMultiInterface.NotifyCurrentState_connects p peer (s.withEntity entity) e
    | NotifyCurrentState peer =>
      exact OpenGymMultiInterface.NotifyCurrentState_connects p peer s e
    | WaitForStop peer => exact OpenGymMultiInterface.NotifyCurrentState_connects p peer s e
    | NotifySimulationEnd peer =>
      left
      show connects (s.NotifySimulationEnd p peer e).events = []
      unfold OpenGymMultiInterface.NotifySimulationEnd
      simp [hs]
    | AddAgent a => exact Or.inl (hq (Op.AddAgent a))
    | GetActionSpace a => exact Or.inl (hq (Op.GetActionSpace a))
    | GetObservationSpace a => exact Or.inl (hq (Op.GetObservationSpace a))
    | GetObservation a => exact Or.inl (hq (Op.GetObservation a))
    | GetReward a => exact Or.inl (hq (Op.GetReward a))
    | GetDone a => exact Or.inl (hq (Op.GetDone a))
    | GetInfo a => exact Or.inl (hq (Op.GetInfo a))
    | ExecuteActions a x => exact Or.inl (hq (Op.ExecuteActions a x))
    | _ => left; rfl

/-- Every address a sequence of calls connects to is the one made of `m_port`. -/
theorem run_connects (p : Platform) (ops : List (Op ε)) (s : OpenGymMultiInterface ε) (e : ε) :
    ∀ a ∈ connects (run p ops s e).events, a = s.connectAddr := by
  induction ops generalizing s e with
  | nil => intro a h; cases h
  | cons op rest ih =>
    have h1 : ∀ a ∈ connects (op.apply p s e).events, a = s.connectAddr := by
      intro a h
      rcases Op.apply_connects p op s e with h0 | h0
      · rw [h0] at h; cases h
      · rw [h0] at h; exact List.mem_singleton.mp h
    have h2 : (op.apply p s e).self.connectAddr = s.connectAddr := by
      unfold OpenGymMultiInterface.connectAddr
      rw [Op.apply_port]
    simp only [run]
    split_ifs
    · exact h1
    · intro a h
      simp only [connects_append, List.mem_append] at h
      rcases h with h | h
      · exact h1 a h
      · rw [← h2]; exact ih _ _ a h

/-- C24: for every port given to the constructor, every address the session
connects to, in whatever sequence of calls, is the text `tcp://localhost:`
followed by the decimal digits of the port; the first `Init` on a non-empty
registry connects to exactly that address once; the default port gives
`tcp://localhost:5555`. -/
theorem C24_connect_address (p : Platform) (port : Nat) (e : ε) :
    (∀ (ops : List (Op ε)),
        ∀ a ∈ connects (run p ops (OpenGymMultiInterface.construct port) e).events,
          a = "tcp://localhost:" ++ (Nat.toDigits 10 port).asString)
      ∧ (∀ (peer : PeerReplies) (ids : List Nat), ids ≠ [] →
          connects ((ids.foldl OpenGymMultiInterface.AddAgent
              (OpenGymMultiInterface.construct port)).Init p peer e).events
            = ["tcp://localhost:" ++ (Nat.toDigits 10 port).asString])
      ∧ (OpenGymMultiInterface.construct OpenGymMultiInterface.defaultPort :
          OpenGymMultiInterface ε).connectAddr = "tcp://localhost:5555" := by
  refine ⟨?_, ?_, ?_⟩
  · intro ops a h
    exact run_connects p ops (OpenGymMultiInterface.construct port) e a h
  · intro peer ids hids
    have hf := OpenGymMultiInterface.foldl_AddAgent ids
      (OpenGymMultiInterface.construct port : OpenGymMultiInterface ε)
    have h := (OpenGymMultiInterface.Init_first p peer
      (ids.foldl OpenGymMultiInterface.AddAgent (OpenGymMultiInterface.construct port)) e
      ?_ ?_).2.1
    · rw [h]; unfold OpenGymMultiInterface.connectAddr; rw [hf]; rfl
    · rw [hf]; rfl
    · rw [hf]; simpa [OpenGymMultiInterface.construct] using hids
  · show "tcp://localhost:" ++ toString 5555 = "tcp://localhost:5555"
    decide

/-- C24, instance: a session constructed with port 6001 and the registry 10, 20
connects to `tcp://localhost:6001` in its first step. -/
theorem C24_connect_address_witness :
    connects (run demoPlatform
        [Op.AddAgent 10, Op.AddAgent 20, Op.Notify demoMethods (demoPeer [])]
        (OpenGymMultiInterface.construct 6001) (0 : Nat)).events = ["tcp://localhost:6001"]
      ∧ ∀ a ∈ connects (run demoPlatform
          [Op.AddAgent 10, Op.AddAgent 20, Op.Notify demoMethods (demoPeer [])]
          (OpenGymMultiInterface.construct 6001) (0 : Nat)).events,
        a = "tcp://localhost:" ++ (Nat.toDigits 10 6001).asString :=
  ⟨by decide, (C24_connect_address demoPlatform 6001 (0 : Nat)).1 _⟩

/-! ## C27: callbacks that were never set -/

namespace OpenGymMultiInterface

/-- Without observation callback no record of a state batch has the field
`obsdata`. -/
theorem collectStates_obsdata_of_null (s : OpenGymMultiInterface ε) (ids : List Nat) (e : ε)
    (ho : s.m_obsCb = none) : ∀ r ∈ (s.collectStates ids e).val, r.obsdata = none := by
  induction ids generalizing e with
  | nil => simp [collectStates]
  | cons a t ih =>
    intro r hr
    simp only [collectStates, List.mem_cons] at hr
    rcases hr with h | h
    · rw [h]; simp [GetObservation, ho]
    · exact ih _ r h

/-- Without observation-space callback no record of the init message has the
field `obsspace`, and without action-space callback none has `actspace`. -/
theorem initAgents_spaces_of_null (s : OpenGymMultiInterface ε) (ids : List Nat) (e : ε) :
    (s.m_observationSpaceCb = none → ∀ r ∈ (s.initAgents ids e).val, r.obsspace = none)
      ∧ (s.m_actionSpaceCb = none → ∀ r ∈ (s.initAgents ids e).val, r.actspace = none) := by
  induction ids generalizing e with
  | nil => simp [initAgents]
  | cons a t ih =>
    constructor
    · intro ho r hr
      simp only [initAgents, List.mem_cons] at hr
      rcases hr with h | h
      · rw [h]; simp [GetObservationSpace, ho]
      · exact (ih _).1 ho r h
    · intro ha r hr
      simp only [initAgents, List.mem_cons] at hr
      rcases hr with h | h
      · rw [h]; simp [GetActionSpace, ha]
      · exact (ih _).2 ha r h

end OpenGymMultiInterface

/-- C27: a wrapper whose callback is null returns its default for every agent id
and leaves the simulation state alone, invoking nothing: `GetReward` gives 0.0,
`GetDone` false, `GetInfo` the empty string, `GetObservation`,
`GetObservationSpace` and `GetActionSpace` null, so that the records built from
them carry no `obsdata`, `obsspace` or `actspace` field, and `ExecuteActions`
gives false without invoking an action callback. A wrapper whose callback is set
returns exactly what the callback returns for that agent id, in the state the
callback leaves. -/
theorem C27_null_callbacks_give_defaults (s : OpenGymMultiInterface ε) (agent_id : Nat)
    (action : Option OpenGymDataContainer) (e : ε) :
    (s.m_rewardCb = none → s.GetReward agent_id e = ⟨⟨0⟩, e, []⟩)
      ∧ (s.m_doneCb = none → s.GetDone agent_id e = ⟨false, e, []⟩)
      ∧ (s.m_infoCb = none → s.GetInfo agent_id e = ⟨"", e, []⟩)
      ∧ (s.m_obsCb = none → s.GetObservation agent_id e = ⟨none, e, []⟩)
      ∧ (s.m_observationSpaceCb = none → s.GetObservationSpace agent_id e = ⟨none, e, []⟩)
      ∧ (s.m_actionSpaceCb = none → s.GetActionSpace agent_id e = ⟨none, e, []⟩)
      ∧ (s.m_actionCb = none →
          s.ExecuteActions agent_id action e
            = ⟨false, e, [Event.ExecuteActions agent_id action]⟩)
      ∧ (s.m_obsCb = none → ∀ ids, ∀ r ∈ (s.collectStates ids e).val, r.obsdata = none)
      ∧ (s.m_observationSpaceCb = none →
          ∀ ids, ∀ r ∈ (s.initAgents ids e).val, r.obsspace = none)
      ∧ (s.m_actionSpaceCb = none →
          ∀ ids, ∀ r ∈ (s.initAgents ids e).val, r.actspace = none)
      ∧ (∀ cb, s.m_rewardCb = some cb →
          (s.GetReward agent_id e).val = (cb agent_id e).1
            ∧ (s.GetReward agent_id e).env = (cb agent_id e).2)
      ∧ (∀ cb, s.m_doneCb = some cb →
          (s.GetDone agent_id e).val = (cb agent_id e).1
            ∧ (s.GetDone agent_id e).env = (cb agent_id e).2)
      ∧ (∀ cb, s.m_infoCb = some cb →
          (s.GetInfo agent_id e).val = (cb agent_id e).1
            ∧ (s.GetInfo agent_id e).env = (cb agent_id e).2)
      ∧ (∀ cb, s.m_obsCb = some cb →
          (s.GetObservation agent_id e).val = (cb agent_id e).1
            ∧ (s.GetObservation agent_id e).env = (cb agent_id e).2)
      ∧ (∀ cb, s.m_observationSpaceCb = some cb →
          (s.GetObservationSpace agent_id e).val = (cb agent_id e).1
            ∧ (s.GetObservationSpace agent_id e).env = (cb agent_id e).2)
      ∧ (∀ cb, s.m_actionSpaceCb = some cb →
          (s.GetActionSpace agent_id e).val = (cb agent_id e).1
            ∧ (s.GetActionSpace agent_id e).env = (cb agent_id e).2)
      ∧ (∀ cb, s.m_actionCb = some cb →
          (s.ExecuteActions agent_id action e).val = (cb agent_id action e).1
            ∧ (s.ExecuteActions agent_id action e).env = (cb agent_id action e).2) := by
  refine ⟨?_, ?_, ?_, ?_, ?_, ?_, ?_, ?_, ?_, ?_, ?_, ?_, ?_, ?_, ?_, ?_, ?_⟩
  · intro h; simp [OpenGymMultiInterface.GetReward, h]
  · intro h; simp [OpenGymMultiInterface.GetDone, h]
  · intro h; simp [OpenGymMultiInterface.GetInfo, h]
  · intro h; simp [OpenGymMultiInterface.GetObservation, h]
  · intro h; simp [OpenGymMultiInterface.GetObservationSpace, h]
  · intro h; simp [OpenGymMultiInterface.GetActionSpace, h]
  · intro h; simp [OpenGymMultiInterface.ExecuteActions, h]
  · intro h ids; exact OpenGymMultiInterface.collectStates_obsdata_of_null s ids e h
  · intro h ids; exact (OpenGymMultiInterface.initAgents_spaces_of_null s ids e).1 h
  · intro h ids; exact (OpenGymMultiInterface.initAgents_spaces_of_null s ids e).2 h
  · intro cb h; simp [OpenGymMultiInterface.GetReward, h]
  · intro cb h; simp [OpenGymMultiInterface.GetDone, h]
  · intro cb h; simp [OpenGymMultiInterface.GetInfo, h]
  · intro cb h; simp [OpenGymMultiInterface.GetObservation, h]
  · intro cb h; simp [OpenGymMultiInterface.GetObservationSpace, h]
  · intro cb h; simp [OpenGymMultiInterface.GetActionSpace, h]
  · intro cb h; simp [OpenGymMultiInterface.ExecuteActions, h]

/-- C27, instance: on a freshly constructed interface, which has no callback,
the reward of agent 7 is 0.0 and it is not done; on the sample session, whose
callbacks are bound, the reward of agent 7 is the one the callback computes. -/
theorem C27_null_callbacks_give_defaults_witness :
    ((OpenGymMultiInterface.construct 5555 : OpenGymMultiInterface Nat).GetReward 7 0).val
        = ⟨0⟩
      ∧ ((OpenGymMultiInterface.construct 5555 : OpenGymMultiInterface Nat).GetDone 7 0).val
        = false
      ∧ ((demoSession [7]).GetReward 7 0).val = ⟨7⟩ :=
  ⟨congrArg Ret.val
      ((C27_null_callbacks_give_defaults (OpenGymMultiInterface.construct 5555) 7 none 0).1 rfl),
    congrArg Ret.val
      ((C27_null_callbacks_give_defaults (OpenGymMultiInterface.construct 5555) 7 none
        0).2.1 rfl),
    ((C27_null_callbacks_give_defaults (demoSession [7]) 7 none 0).2.2.2.2.2.2.2.2.2.2.1
      demoMethods.GetReward rfl).1⟩

/-! ## C25: the attribute `OpenGymPort` -/

/-- The first step of an environment whose interface has a non-empty registry
and has not sent the init message connects to the address made of the port of
the interface. -/
theorem OpenGymMultiEnv.Step_connects (p : Platform) (peer : PeerReplies)
    (env : OpenGymMultiEnv ε) (e : ε) (i : OpenGymMultiInterface ε)
    (hi : env.m_openGymMultiInterface = some i) (hfresh : i.m_initSimMsgSent = false)
    (hreg : i.m_agentIdVec ≠ []) :
    connects (env.Step p peer e).events = [i.connectAddr] := by
  unfold OpenGymMultiEnv.Step
  rw [hi]
  show connects (i.Notify p peer env.toEnvMethods e).events = _
  rw [OpenGymMultiInterface.Notify_eq,
    (OpenGymMultiInterface.NotifyCurrentState_init_views p peer _ e).2.1,
    OpenGymMultiInterface.initPhase_eq_Init]
  exact (OpenGymMultiInterface.Init_first p peer (i.withEntity env.toEnvMethods) e hfresh
    hreg).2.1

/-- The interface of an environment created with a value for `OpenGymPort`,
after `AddAgentId` for each of `ids`: constructed with port 5555. -/
theorem OpenGymMultiEnv.CreateObject_interface (methods : EnvMethods ε) (openGymPort : Nat)
    (ids : List Nat) :
    ∃ i, (ids.foldl OpenGymMultiEnv.AddAgentId
          (OpenGymMultiEnv.CreateObject methods openGymPort)).m_openGymMultiInterface = some i
      ∧ i.m_port = 5555 ∧ i.m_initSimMsgSent = false ∧ i.m_agentIdVec = ids := by
  have h0 : ∃ i0, (OpenGymMultiEnv.CreateObject methods openGymPort).m_openGymMultiInterface
      = some i0 ∧ i0.m_port = 5555 ∧ i0.m_initSimMsgSent = false ∧ i0.m_agentIdVec = [] :=
    ⟨_, rfl, rfl, rfl, rfl⟩
  obtain ⟨i0, h0, hp, hs, hr⟩ := h0
  refine ⟨ids.foldl OpenGymMultiInterface.AddAgent i0, ?_, ?_, ?_, ?_⟩
  · rw [OpenGymMultiEnv.foldl_AddAgentId, h0]; rfl
  · rw [OpenGymMultiInterface.foldl_AddAgent]; exact hp
  · rw [OpenGymMultiInterface.foldl_AddAgent]; exact hs
  · rw [OpenGymMultiInterface.foldl_AddAgent]; simp [hr]

/-- C25 (the code diverges): whatever value the attribute `OpenGymPort` is
given, the value is stored in `m_openGymPort` and read by nothing: the interface
of the environment was constructed with port 5555, the member initialiser the
constructor saw, and the first step on a non-empty registry connects to
`tcp://localhost:5555`. -/
theorem C25_port_attribute_is_not_used (methods : EnvMethods ε) (openGymPort : Nat) :
    (OpenGymMultiEnv.CreateObject methods openGymPort).m_openGymPort = openGymPort
      ∧ (OpenGymMultiEnv.CreateObject methods openGymPort).m_openGymMultiInterface.map
          (fun i => i.m_port) = some 5555
      ∧ ∀ (p : Platform) (peer : PeerReplies) (ids : List Nat) (e : ε), ids ≠ [] →
          connects ((ids.foldl OpenGymMultiEnv.AddAgentId
            (OpenGymMultiEnv.CreateObject methods openGymPort)).Step p peer e).events
            = ["tcp://localhost:5555"] := by
  refine ⟨rfl, rfl, ?_⟩
  intro p peer ids e hids
  obtain ⟨i, hi, hport, hfresh, hreg⟩ :=
    OpenGymMultiEnv.CreateObject_interface methods openGymPort ids
  rw [OpenGymMultiEnv.Step_connects p peer _ e i hi hfresh (by rw [hreg]; exact hids)]
  unfold OpenGymMultiInterface.connectAddr
  rw [hport]
  decide

/-- C25, instance: an environment created with `OpenGymPort` 6000 holds 6000 in
`m_openGymPort`, and with the registry 10, 20 its first step connects to
`tcp://localhost:5555`. -/
theorem C25_port_attribute_is_not_used_witness :
    (OpenGymMultiEnv.CreateObject demoMethods 6000).m_openGymPort = 6000
      ∧ connects (([10, 20].foldl OpenGymMultiEnv.AddAgentId
          (OpenGymMultiEnv.CreateObject demoMethods 6000)).Step demoPlatform (demoPeer [])
            0).events = ["tcp://localhost:5555"] :=
  ⟨(C25_port_attribute_is_not_used demoMethods 6000).1,
    (C25_port_attribute_is_not_used demoMethods 6000).2.2 demoPlatform (demoPeer []) [10, 20] 0
      (by decide)⟩

/-! ## C26: the shared instance -/

/-- No sequence of calls changes `m_port`. -/
theorem run_port (p : Platform) (ops : List (Op ε)) (s : OpenGymMultiInterface ε) (e : ε) :
    (run p ops s e).self.m_port = s.m_port := by
  induction ops generalizing s e with
  | nil => rfl
  | cons op rest ih =>
    simp only [run]
    split_ifs
    · exact Op.apply_port p op s e
    · exact (ih _ _).trans (Op.apply_port p op s e)

/-- C26 (as amended): `Get` hands out one lazily created shared instance, and
the port argument matters only when it creates. On the null static pointer
`Get (port)` creates an instance with that port, registers it and schedules
`Delete`; while the pointer is set, `Get` with whatever port argument creates
nothing and hands out the instance the pointer holds, whose port is still the one
it was created with, whatever was called on it since; `Delete` creates nothing
when the pointer is set and leaves it null, so that the next `Get (q)` creates a
fresh instance with port `q`. -/
theorem C26_get_is_one_shared_instance (port q : Nat) :
    (OpenGymMultiInterface.Get port (none : Option (OpenGymMultiInterface ε))).val
        = some (OpenGymMultiInterface.construct port)
      ∧ (OpenGymMultiInterface.Get port (none : Option (OpenGymMultiInterface ε))).ptr
        = some (OpenGymMultiInterface.construct port)
      ∧ (OpenGymMultiInterface.Get port (none : Option (OpenGymMultiInterface ε))).events
        = [StaticEvent.CreateObject port, StaticEvent.RegisterRootNamespaceObject,
            StaticEvent.ScheduleDestroy]
      ∧ (∀ i : OpenGymMultiInterface ε,
          (OpenGymMultiInterface.Get q (some i)).val = some i
            ∧ (OpenGymMultiInterface.Get q (some i)).ptr = some i
            ∧ (OpenGymMultiInterface.Get q (some i)).events = [])
      ∧ (∀ (p : Platform) (ops : List (Op ε)) (e : ε),
          (OpenGymMultiInterface.Get q
            (some (run p ops (OpenGymMultiInterface.construct port) e).self)).val.map
              (fun i => i.m_port) = some port)
      ∧ (∀ i : OpenGymMultiInterface ε,
          (OpenGymMultiInterface.Delete (some i)).ptr = none
            ∧ created (OpenGymMultiInterface.Delete (some i)).events = []
            ∧ (OpenGymMultiInterface.Get q (OpenGymMultiInterface.Delete (some i)).ptr).val
                = some (OpenGymMultiInterface.construct q)
            ∧ created
                (OpenGymMultiInterface.Get q (OpenGymMultiInterface.Delete (some i)).ptr).events
                = [q]) := by
  refine ⟨rfl, rfl, rfl, fun i => ⟨rfl, rfl, rfl⟩, ?_, fun i => ⟨rfl, rfl, rfl, rfl⟩⟩
  intro p ops e
  show some (run p ops (OpenGymMultiInterface.construct port) e).self.m_port = some port
  rw [run_port]
  rfl

/-- C26, instance: after `Get (5555)`, `Get (5555)` and `Get (6000)` both create
nothing and hand out the instance with port 5555. -/
theorem C26_get_is_one_shared_instance_witness :
    ((OpenGymMultiInterface.Get 5555
        (OpenGymMultiInterface.Get 5555 (none : Option (OpenGymMultiInterface Nat))).ptr).val.map
          (fun i => i.m_port)) = some 5555
      ∧ (OpenGymMultiInterface.Get 6000
          (some (OpenGymMultiInterface.construct 5555 : OpenGymMultiInterface Nat))).events
        = [] :=
  ⟨by decide, ((C26_get_is_one_shared_instance 5555 6000).2.2.2.1
    (OpenGymMultiInterface.construct 5555 : OpenGymMultiInterface Nat)).2.2⟩

/-- C26, as first stated, fails: after `Get (5555)` has created the instance,
`Get (6000)` creates nothing and hands out the instance whose port is 5555, not
6000. -/
theorem C26_get_with_other_port_returns_first_instance :
    ((OpenGymMultiInterface.Get 6000
        (OpenGymMultiInterface.Get 5555 (none : Option (OpenGymMultiInterface Nat))).ptr).val.map
          (fun i => i.m_port)) = some 5555
      ∧ ((OpenGymMultiInterface.Get 6000
        (OpenGymMultiInterface.Get 5555 (none : Option (OpenGymMultiInterface Nat))).ptr).val.map
          (fun i => i.m_port)) ≠ some 6000
      ∧ created (OpenGymMultiInterface.Get 6000
        (OpenGymMultiInterface.Get 5555 (none : Option (OpenGymMultiInterface Nat))).ptr).events
        = [] := by
  decide

/-! ## C28, C29, C30: the headers `TypeHeader` and `RrepHeader` -/

namespace sdwsn

/-- The bytes `RrepHeader::Serialize` writes: thirteen, the three 32-bit fields
most significant byte first. -/
theorem RrepHeader.Serialize_eq (h : RrepHeader) (i : List Nat) :
    h.Serialize i
      = i ++ [h.m_hopCount % 2 ^ 8,
          h.m_dst.m_address / 2 ^ 24 % 2 ^ 8, h.m_dst.m_address / 2 ^ 16 % 2 ^ 8,
          h.m_dst.m_address / 2 ^ 8 % 2 ^ 8, h.m_dst.m_address % 2 ^ 8,
          h.m_dstSeqNo / 2 ^ 24 % 2 ^ 8, h.m_dstSeqNo / 2 ^ 16 % 2 ^ 8,
          h.m_dstSeqNo / 2 ^ 8 % 2 ^ 8, h.m_dstSeqNo % 2 ^ 8,
          h.m_origin.m_address / 2 ^ 24 % 2 ^ 8, h.m_origin.m_address / 2 ^ 16 % 2 ^ 8,
          h.m_origin.m_address / 2 ^ 8 % 2 ^ 8, h.m_origin.m_address % 2 ^ 8] := by
  simp [RrepHeader.Serialize, WriteTo, Buffer.WriteU8, Buffer.WriteHtonU32]

/-- Four bytes written by `WriteHtonU32` are read back by `ReadNtohU32` as the
value written, reduced to 32 bits. -/
theorem be32_round_trip (v : Nat) :
    v / 2 ^ 24 % 2 ^ 8 * 2 ^ 24 + v / 2 ^ 16 % 2 ^ 8 * 2 ^ 16 + v / 2 ^ 8 % 2 ^ 8 * 2 ^ 8
      + v % 2 ^ 8 = v % 2 ^ 32 := by
  norm_num
  omega

/-- What `RrepHeader::Deserialize` does on a buffer that holds thirteen bytes or
more: it reads thirteen, and the assertion compares that with nineteen. -/
theorem RrepHeader.Deserialize_cons (a : Bool) (self : RrepHeader)
    (b0 b1 b2 b3 b4 b5 b6 b7 b8 b9 b10 b11 b12 : Nat) (rest : List Nat) (n : Nat) :
    RrepHeader.Deserialize a self
        ⟨b0 :: b1 :: b2 :: b3 :: b4 :: b5 :: b6 :: b7 :: b8 :: b9 :: b10 :: b11 :: b12 :: rest, n⟩
      = if a then .error .assertFailed
        else .ok (⟨b0, ⟨b1 * 2 ^ 24 + b2 * 2 ^ 16 + b3 * 2 ^ 8 + b4⟩,
          b5 * 2 ^ 24 + b6 * 2 ^ 16 + b7 * 2 ^ 8 + b8,
          ⟨b9 * 2 ^ 24 + b10 * 2 ^ 16 + b11 * 2 ^ 8 + b12⟩⟩, 13) := by
  have hd : n + 1 + 4 + 4 + 4 - n = 13 := by omega
  cases a <;>
    simp [hd, RrepHeader.Deserialize, ReadFrom, Buffer.Iterator.ReadU8, Buffer.Iterator.ReadNtohU32,
      Buffer.Iterator.GetDistanceFrom, NS_ASSERT, RrepHeader.GetSerializedSize, bind,
      Except.bind, pure, Except.pure]

/-- On a buffer with fewer than thirteen bytes `RrepHeader::Deserialize` reads
beyond the end. -/
theorem RrepHeader.Deserialize_short (a : Bool) (self : RrepHeader) (start : Buffer.Iterator)
    (hlen : start.ahead.length < 13) :
    RrepHeader.Deserialize a self start = .error .outOfBuffer := by
  obtain ⟨l, n⟩ := start
  simp only at hlen
  rcases l with _ | ⟨b0, _ | ⟨b1, _ | ⟨b2, _ | ⟨b3, _ | ⟨b4, _ | ⟨b5, _ | ⟨b6, _ | ⟨b7, _ | ⟨b8,
    _ | ⟨b9, _ | ⟨b10, _ | ⟨b11, _ | ⟨b12, rest⟩⟩⟩⟩⟩⟩⟩⟩⟩⟩⟩⟩⟩ <;>
    first
    | (simp at hlen; done)
    | (exfalso; simp at hlen; omega)
    | simp [RrepHeader.Deserialize, ReadFrom, Buffer.Iterator.ReadU8,
        Buffer.Iterator.ReadNtohU32, bind, Except.bind, pure, Except.pure]

end sdwsn

/-- C28 (the code diverges): `RrepHeader::Serialize` writes thirteen bytes
(1 + 4 + 4 + 4) for every header and `RrepHeader::Deserialize` reads thirteen,
but `GetSerializedSize` returns 19. So the condition `dist == GetSerializedSize ()`
is false in every call of `Deserialize` that reaches it: with `NS_ASSERT` enabled
no call of `Deserialize` returns, on the bytes `Serialize` wrote the assertion
fails, and with `NS_ASSERT` compiled out the call returns 13. -/
theorem C28_rrep_size_is_not_the_bytes_written (h self : sdwsn.RrepHeader) :
    (∀ i, (h.Serialize i).length = i.length + 13)
      ∧ h.GetSerializedSize = 19
      ∧ (∀ start r dist, sdwsn.RrepHeader.Deserialize false self start = .ok (r, dist) →
          dist = 13 ∧ dist ≠ r.GetSerializedSize)
      ∧ (∀ start r, sdwsn.RrepHeader.Deserialize true self start ≠ .ok r)
      ∧ (∀ rest n, sdwsn.RrepHeader.Deserialize true self ⟨h.Serialize [] ++ rest, n⟩
          = .error .assertFailed)
      ∧ (∀ rest n, ∃ r, sdwsn.RrepHeader.Deserialize false self ⟨h.Serialize [] ++ rest, n⟩
          = .ok (r, 13)) := by
  have key : ∀ (a : Bool) (start : Buffer.Iterator),
      sdwsn.RrepHeader.Deserialize a self start = .error .outOfBuffer
        ∨ ∃ r, sdwsn.RrepHeader.Deserialize a self start
            = if a then .error .assertFailed else .ok (r, 13) := by
    intro a start
    by_cases hlen : start.ahead.length < 13
    · exact Or.inl (sdwsn.RrepHeader.Deserialize_short a self start hlen)
    · right
      obtain ⟨l, n⟩ := start
      simp only at hlen
      rcases l with _ | ⟨b0, _ | ⟨b1, _ | ⟨b2, _ | ⟨b3, _ | ⟨b4, _ | ⟨b5, _ | ⟨b6, _ | ⟨b7,
        _ | ⟨b8, _ | ⟨b9, _ | ⟨b10, _ | ⟨b11, _ | ⟨b12, rest⟩⟩⟩⟩⟩⟩⟩⟩⟩⟩⟩⟩⟩ <;>
        first
        | (exfalso; simp at hlen; done)
        | exact ⟨_, sdwsn.RrepHeader.Deserialize_cons a self _ _ _ _ _ _ _ _ _ _ _ _ _ rest n⟩
  refine ⟨?_, rfl, ?_, ?_, ?_, ?_⟩
  · intro i
    rw [sdwsn.RrepHeader.Serialize_eq]
    simp
  · intro start r dist hd
    rcases key false start with h0 | ⟨r0, h0⟩
    · rw [h0] at hd; cases hd
    · rw [h0] at hd
      simp only [Bool.false_eq_true, if_false, Except.ok.injEq, Prod.mk.injEq] at hd
      rw [← hd.2]
      exact ⟨rfl, by simp [sdwsn.RrepHeader.GetSerializedSize]⟩
  · intro start r hd
    rcases key true start with h0 | ⟨r0, h0⟩
    · rw [h0] at hd; cases hd
    · rw [h0] at hd; cases hd
  · intro rest n
    rw [sdwsn.RrepHeader.Serialize_eq]
    exact sdwsn.RrepHeader.Deserialize_cons true self _ _ _ _ _ _ _ _ _ _ _ _ _ rest n
  · intro rest n
    rw [sdwsn.RrepHeader.Serialize_eq]
    exact ⟨_, sdwsn.RrepHeader.Deserialize_cons false self _ _ _ _ _ _ _ _ _ _ _ _ _ rest n⟩

/-- C28, instance: the sample reply is written as thirteen bytes; a build with
assertions aborts on them, a build without returns 13, not 19. -/
theorem C28_rrep_size_is_not_the_bytes_written_witness :
    demoRrep.Serialize [] = [1, 10, 0, 0, 1, 0, 1, 2, 3, 10, 0, 0, 2]
      ∧ demoRrep.GetSerializedSize = 19
      ∧ sdwsn.RrepHeader.Deserialize true (sdwsn.RrepHeader.construct 0 ⟨0⟩ 0 ⟨0⟩)
          ⟨demoRrep.Serialize [] ++ [], 0⟩ = .error .assertFailed
      ∧ sdwsn.RrepHeader.Deserialize false (sdwsn.RrepHeader.construct 0 ⟨0⟩ 0 ⟨0⟩)
          ⟨demoRrep.Serialize [], 0⟩ = .ok (demoRrep, 13) :=
  ⟨by decide, rfl,
    (C28_rrep_size_is_not_the_bytes_written demoRrep
      (sdwsn.RrepHeader.construct 0 ⟨0⟩ 0 ⟨0⟩)).2.2.2.2.1 [] 0,
    rfl⟩

/-- C29: on every buffer that begins with a byte `b`, `TypeHeader::Deserialize`
reads that one byte and returns 1, which is `GetSerializedSize ()`, so that its
assertion holds; it leaves `IsValid ()` true exactly when `b = 2`, and then
`Get ()` is `E3RTYPE_RREP`, while for another byte the type is left as it was.
Hence the bytes `Serialize` writes for `TypeHeader (t)` are read back as a header
equal to `TypeHeader (t)` exactly when `t` is `E3RTYPE_RREP`; each of the other
four declared types is read back as invalid. -/
theorem C29_type_header_round_trip (NS3_ASSERT_ENABLE : Bool) (self : sdwsn.TypeHeader)
    (b : Nat) (rest : List Nat) (n : Nat) (t : sdwsn.MessageType) :
    sdwsn.TypeHeader.Deserialize NS3_ASSERT_ENABLE self ⟨b :: rest, n⟩
        = .ok (if b = 2 then ⟨.E3RTYPE_RREP, true⟩ else ⟨self.m_type, false⟩, 1)
      ∧ self.GetSerializedSize = 1
      ∧ ((if b = 2 then (⟨.E3RTYPE_RREP, true⟩ : sdwsn.TypeHeader)
            else ⟨self.m_type, false⟩).IsValid = true ↔ b = 2)
      ∧ (b = 2 → (if b = 2 then (⟨.E3RTYPE_RREP, true⟩ : sdwsn.TypeHeader)
            else ⟨self.m_type, false⟩).Get = .E3RTYPE_RREP)
      ∧ (∃ r, sdwsn.TypeHeader.Deserialize NS3_ASSERT_ENABLE self
              ⟨(sdwsn.TypeHeader.construct t).Serialize [] ++ rest, n⟩ = .ok (r, 1)
            ∧ (r.operatorEq (sdwsn.TypeHeader.construct t) = true ↔ t = .E3RTYPE_RREP)
            ∧ (r.IsValid = true ↔ t = .E3RTYPE_RREP)) := by
  have key : ∀ c : Nat, sdwsn.TypeHeader.Deserialize NS3_ASSERT_ENABLE self ⟨c :: rest, n⟩
      = .ok (if c = 2 then ⟨.E3RTYPE_RREP, true⟩ else ⟨self.m_type, false⟩, 1) := by
    intro c
    have hd : n + 1 - n = 1 := by omega
    by_cases hc : c = 2 <;> cases NS3_ASSERT_ENABLE <;>
      simp [hc, hd, sdwsn.TypeHeader.Deserialize, Buffer.Iterator.ReadU8,
        Buffer.Iterator.GetDistanceFrom, NS_ASSERT, sdwsn.TypeHeader.GetSerializedSize,
        sdwsn.MessageType.toNat, bind, Except.bind, pure, Except.pure]
  refine ⟨key b, rfl, ?_, ?_, ?_⟩
  · by_cases hb : b = 2 <;> simp [hb, sdwsn.TypeHeader.IsValid]
  · intro hb; simp [hb, sdwsn.TypeHeader.Get]
  · refine ⟨_, key (t.toNat % 2 ^ 8), ?_, ?_⟩ <;>
      cases t <;>
        simp [sdwsn.MessageType.toNat, sdwsn.TypeHeader.operatorEq, sdwsn.TypeHeader.construct,
          sdwsn.TypeHeader.IsValid]

/-- C29, instance: the byte 2 is read as a valid `E3RTYPE_RREP`; the byte 3,
which `Serialize` writes for `E3RTYPE_RERR`, is read as invalid. -/
theorem C29_type_header_round_trip_witness :
    sdwsn.TypeHeader.Deserialize true (sdwsn.TypeHeader.construct .E3RTYPE_C_RP) ⟨[2], 0⟩
        = .ok (sdwsn.TypeHeader.construct .E3RTYPE_RREP, 1)
      ∧ (sdwsn.TypeHeader.construct .E3RTYPE_RERR).Serialize [] = [3]
      ∧ sdwsn.TypeHeader.Deserialize true (sdwsn.TypeHeader.construct .E3RTYPE_RERR) ⟨[3], 0⟩
        = .ok (⟨.E3RTYPE_RERR, false⟩, 1) :=
  ⟨(C29_type_header_round_trip true (sdwsn.TypeHeader.construct .E3RTYPE_C_RP) 2 [] 0
      .E3RTYPE_RREP).1,
    by decide,
    (C29_type_header_round_trip true (sdwsn.TypeHeader.construct .E3RTYPE_RERR) 3 [] 0
      .E3RTYPE_RREP).1⟩

/-- C30 (the code diverges): the fields of every header are written and read
back unchanged, the sequence number most significant byte first, so that with
`NS_ASSERT` compiled out `Deserialize` on the bytes `Serialize` wrote returns,
leaving a header equal to the one written. With `NS_ASSERT` enabled the call
does not return for any header: after the four reads it fails the assertion on
the size, thirteen bytes read against the nineteen of `GetSerializedSize`. -/
theorem C30_rrep_round_trip_fails_assertion (h self : sdwsn.RrepHeader) (hr : h.InRange)
    (rest : List Nat) (n : Nat) :
    sdwsn.RrepHeader.Deserialize true self ⟨h.Serialize [] ++ rest, n⟩ = .error .assertFailed
      ∧ sdwsn.RrepHeader.Deserialize false self ⟨h.Serialize [] ++ rest, n⟩ = .ok (h, 13)
      ∧ h.operatorEq h = true
      ∧ ((h.Serialize []).drop 5).take 4
          = [h.m_dstSeqNo / 2 ^ 24 % 2 ^ 8, h.m_dstSeqNo / 2 ^ 16 % 2 ^ 8,
              h.m_dstSeqNo / 2 ^ 8 % 2 ^ 8, h.m_dstSeqNo % 2 ^ 8] := by
  obtain ⟨h1, h2, h3, h4⟩ := hr
  refine ⟨?_, ?_, ?_, ?_⟩
  · rw [sdwsn.RrepHeader.Serialize_eq]
    exact sdwsn.RrepHeader.Deserialize_cons true self _ _ _ _ _ _ _ _ _ _ _ _ _ rest n
  · rw [sdwsn.RrepHeader.Serialize_eq]
    refine (sdwsn.RrepHeader.Deserialize_cons false self _ _ _ _ _ _ _ _ _ _ _ _ _ rest
      n).trans ?_
    have e1 := sdwsn.be32_round_trip h.m_dst.m_address
    have e2 := sdwsn.be32_round_trip h.m_dstSeqNo
    have e3 := sdwsn.be32_round_trip h.m_origin.m_address
    rw [Nat.mod_eq_of_lt h2] at e1
    rw [Nat.mod_eq_of_lt h3] at e2
    rw [Nat.mod_eq_of_lt h4] at e3
    simp only [Bool.false_eq_true, if_false, e1, e2, e3, Nat.mod_eq_of_lt h1]
  · simp [sdwsn.RrepHeader.operatorEq]
  · rw [sdwsn.RrepHeader.Serialize_eq]
    rfl

/-- C30, instance: the sample reply, whose sequence number `0x00010203` is
written as the bytes 0, 1, 2, 3. -/
theorem C30_rrep_round_trip_fails_assertion_witness :
    demoRrep.InRange
      ∧ sdwsn.RrepHeader.Deserialize true (sdwsn.RrepHeader.construct 0 ⟨0⟩ 0 ⟨0⟩)
          ⟨demoRrep.Serialize [] ++ [], 0⟩ = .error .assertFailed
      ∧ sdwsn.RrepHeader.Deserialize false (sdwsn.RrepHeader.construct 0 ⟨0⟩ 0 ⟨0⟩)
          ⟨demoRrep.Serialize [] ++ [], 0⟩ = .ok (demoRrep, 13)
      ∧ ((demoRrep.Serialize []).drop 5).take 4 = [0, 1, 2, 3] :=
  have hr : demoRrep.InRange := by
    unfold sdwsn.RrepHeader.InRange demoRrep
    decide
  have h := C30_rrep_round_trip_fails_assertion demoRrep
    (sdwsn.RrepHeader.construct 0 ⟨0⟩ 0 ⟨0⟩) hr [] 0
  ⟨hr, h.1, h.2.1, by decide⟩

/-! ## C8: calls after a stop request -/

namespace OpenGymMultiInterface

end OpenGymMultiInterface

/-- C7 (as amended): the flush of `NotifySimulationEnd` leaves the session with
`m_simEnd` set, the init message sent and no stop request; and in every session
in that state a later `NotifyCurrentState`, or a later `Notify` (the body of
`OpenGymMultiEnv::Step`), is not refused: it queries the state callbacks for
every registered agent, sends one more `MultiAgentStateMsg` that lists the
registry and receives one more reply. What it no longer does is execute actions
or change the flags, so the same holds for the call after it. -/
theorem C7_step_after_flush_exchanges_again (p : Platform) (peer : PeerReplies)
    (s : OpenGymMultiInterface ε) (e : ε) (hsent : s.m_initSimMsgSent = true)
    (hstop : s.m_stopEnvRequested = false) :
    ((s.NotifySimulationEnd p peer e).self.m_simEnd = true
        ∧ (s.NotifySimulationEnd p peer e).self.m_initSimMsgSent = true
        ∧ (s.NotifySimulationEnd p peer e).self.m_stopEnvRequested = false)
      ∧ ∀ u : OpenGymMultiInterface ε,
          u.m_simEnd = true → u.m_initSimMsgSent = true → u.m_stopEnvRequested = false →
          ∀ (q : Platform) (later : PeerReplies) (e1 : ε),
            ((∃ m : MultiAgentStateMsg,
                transport (u.NotifyCurrentState q later e1).events
                    = [Event.sendState m, Event.recv]
                  ∧ m.agentstatemsg.map AgentStateMsg.agentid = u.m_agentIdVec)
              ∧ executed (u.NotifyCurrentState q later e1).events = []
              ∧ actionCbCalls (u.NotifyCurrentState q later e1).events = []
              ∧ (u.NotifyCurrentState q later e1).self = u
              ∧ (u.NotifyCurrentState q later e1).exited = false
              ∧ stateQueries (u.NotifyCurrentState q later e1).events
                  = stateQueries (u.collectStates u.m_agentIdVec e1).events)
            ∧ ∀ entity : EnvMethods ε,
                (∃ m : MultiAgentStateMsg,
                  transport (u.Notify q later entity e1).events
                      = [Event.sendState m, Event.recv]
                    ∧ m.agentstatemsg.map AgentStateMsg.agentid = u.m_agentIdVec)
                ∧ executed (u.Notify q later entity e1).events = []
                ∧ actionCbCalls (u.Notify q later entity e1).events = []
                ∧ (u.Notify q later entity e1).self = u.withEntity entity
                ∧ (u.Notify q later entity e1).exited = false
                ∧ stateQueries (u.Notify q later entity e1).events
                    = u.m_agentIdVec.flatMap fun a =>
                        [(CbKind.observation, a), (CbKind.reward, a), (CbKind.done, a),
                          (CbKind.info, a)] := by
  have hq := fun (t : OpenGymMultiInterface ε) ids e =>
    views_of_isQuery (OpenGymMultiInterface.collectStates_isQuery t ids e)
  have key : ∀ u : OpenGymMultiInterface ε,
      u.m_simEnd = true → u.m_initSimMsgSent = true → u.m_stopEnvRequested = false →
      ∀ (q : Platform) (later : PeerReplies) (e1 : ε),
        (∃ m : MultiAgentStateMsg,
            transport (u.NotifyCurrentState q later e1).events
                = [Event.sendState m, Event.recv]
              ∧ m.agentstatemsg.map AgentStateMsg.agentid = u.m_agentIdVec)
          ∧ executed (u.NotifyCurrentState q later e1).events = []
          ∧ actionCbCalls (u.NotifyCurrentState q later e1).events = []
          ∧ (u.NotifyCurrentState q later e1).self = u
          ∧ (u.NotifyCurrentState q later e1).exited = false
          ∧ stateQueries (u.NotifyCurrentState q later e1).events
              = stateQueries (u.collectStates u.m_agentIdVec e1).events := by
    intro u h1 h2 h3 q later e1
    rw [OpenGymMultiInterface.NotifyCurrentState_flush q later u e1 h2 h3 h1]
    refine ⟨⟨⟨(u.collectStates u.m_agentIdVec e1).val⟩, ?_,
      OpenGymMultiInterface.collectStates_ids _ _ _⟩, ?_, ?_, rfl, rfl, ?_⟩ <;> simp [hq]
  have h1 : s.NotifySimulationEnd p peer e
      = OpenGymMultiInterface.NotifyCurrentState p peer { s with m_simEnd := true } e := by
    simp [OpenGymMultiInterface.NotifySimulationEnd, OpenGymMultiInterface.WaitForStop, hsent]
  have h2 := (key { s with m_simEnd := true } rfl hsent hstop p peer e).2.2.2.1
  refine ⟨?_, ?_⟩
  · rw [h1, h2]
    exact ⟨rfl, hsent, hstop⟩
  · intro u hu1 hu2 hu3 q later e1
    refine ⟨key u hu1 hu2 hu3 q later e1, fun entity => ?_⟩
    rw [OpenGymMultiInterface.Notify_eq]
    have k := key (u.withEntity entity) hu1 hu2 hu3 q later e1
    refine ⟨k.1, k.2.1, k.2.2.1, k.2.2.2.1, k.2.2.2.2.1, k.2.2.2.2.2.trans ?_⟩
    exact OpenGymMultiInterface.collectStates_stateQueries (u.withEntity entity)
      u.m_agentIdVec e1 rfl rfl rfl rfl

/-- C7, instance: after `Init` on the registry 10, 20 the flush leaves the
session with `m_simEnd` set and without stop request. -/
theorem C7_step_after_flush_exchanges_again_witness :
    ((demoSession [10, 20]).Init demoPlatform (demoPeer []) 0).self.m_initSimMsgSent = true
      ∧ ((demoSession [10, 20]).Init demoPlatform (demoPeer []) 0).self.m_stopEnvRequested
          = false
      ∧ ((((demoSession [10, 20]).Init demoPlatform (demoPeer []) 0).self.NotifySimulationEnd
            demoPlatform (demoPeer []) 0).self.m_simEnd = true
        ∧ (((demoSession [10, 20]).Init demoPlatform (demoPeer []) 0).self.NotifySimulationEnd
            demoPlatform (demoPeer []) 0).self.m_initSimMsgSent = true
        ∧ (((demoSession [10, 20]).Init demoPlatform (demoPeer []) 0).self.NotifySimulationEnd
            demoPlatform (demoPeer []) 0).self.m_stopEnvRequested = false) :=
  ⟨rfl, rfl,
    (C7_step_after_flush_exchanges_again demoPlatform (demoPeer [])
      ((demoSession [10, 20]).Init demoPlatform (demoPeer []) 0).self 0 rfl rfl).1⟩

/-- C7, as first stated, fails: after `Init` and the flush of
`NotifySimulationEnd` on the registry 10, 20, a further `NotifyCurrentState`
queries all four state callbacks for both agents and sends a third message, a
state batch for 10 and 20. -/
theorem C7_step_after_flush_not_refused :
    stateQueries ((run demoPlatform
        [Op.Init (demoPeer []), Op.NotifySimulationEnd (demoPeer [])]
        (demoSession [10, 20]) 0).self.NotifyCurrentState demoPlatform (demoPeer []) 0).events
        = [(CbKind.observation, 10), (CbKind.reward, 10), (CbKind.done, 10), (CbKind.info, 10),
            (CbKind.observation, 20), (CbKind.reward, 20), (CbKind.done, 20),
            (CbKind.info, 20)]
      ∧ (sentStates ((run demoPlatform
          [Op.Init (demoPeer []), Op.NotifySimulationEnd (demoPeer [])]
          (demoSession [10, 20]) 0).self.NotifyCurrentState demoPlatform (demoPeer [])
          0).events).map MultiAgentStateMsg.ids = [[10, 20]]
      ∧ (run demoPlatform
          [Op.Init (demoPeer []), Op.NotifySimulationEnd (demoPeer [])]
          (demoSession [10, 20]) 0).exited = false := by
  decide

end ns3
